import Mathlib

/-!
Ecosystem sandbox: genetics engine, creature lifecycle, population manager,
resource field and weather system.

A shallow embedding of `CreatureGenetics.{h,cpp}`, the simulation members of
`Creature.{h,cpp}`, `EcosystemManager.{h,cpp}`, the resource bookkeeping of
`NaniteEnvironment.{h,cpp}` and the weather and time-of-day state of
`DynamicWeatherSystem.{h,cpp}`.

Conventions of the embedding:

* `float` values are exact rationals (`ℚ`); literals such as `0.1f` are `1/10`.
* `int32` values are `Int`; counters are far from the 32-bit limits in every
  statement below, so no wrap-around is modelled.
* The engine's random number generator is not part of the repository.  Every
  call of `FMath::RandRange` is a function of an explicit draw passed in by the
  caller: `FRandRange Min Max Draw` on floats, with `Draw` the output of
  `FRand()`, and `RandRange Min Max Raw` on integers, with `Raw` a raw draw that
  the engine helper reduces into `[Min, Max]`.
* `enum class ... : uint8` values are their underlying codes (`Nat`) where the
  code converts them to or from integers, and inductive types otherwise.
* Multicast delegates are an append-only log of broadcast events.
* Actors are values: a call that writes to a second actor through a pointer
  (`Mate`, `Attacker`, `Target`) returns the new value of both, for two distinct
  actors.
* `FVector::Dist` is irrational in general; the functions that use it take the
  distance function, or the distance itself, as an argument.
-/

namespace EcosystemSandbox

/-! ## Engine helpers (`FMath`) -/

/-- `FMath::Clamp(X, Min, Max)`. -/
def Clamp (X Min Max : ℚ) : ℚ :=
  if X < Min then Min else if X < Max then X else Max

/-- `FMath::RandRange(int32 Min, int32 Max)`: `Min + RandHelper(Max - Min + 1)`,
where `RandHelper(A)` is a value of `[0, A - 1]` for `A > 0` and `0` otherwise. -/
def RandRange (Min Max : Int) (Raw : Nat) : Int :=
  let Range := (Max - Min) + 1
  Min + (if Range > 0 then (Raw : Int) % Range else 0)

/-- `FMath::RandRange(float Min, float Max)`: `Min + (Max - Min) * FRand()`, as a
function of the unit draw `Draw` that `FRand()` returns (a value of `[0, 1]`). -/
def FRandRange (Min Max : ℚ) (Draw : ℚ) : ℚ :=
  Min + (Max - Min) * Draw

/-- `FMath::RoundToInt(F)`: `FloorToInt(F + 0.5f)`. -/
def RoundToInt (F : ℚ) : Int :=
  ⌊F + 1 / 2⌋

/-! ## `CreatureGenetics.h` -/

/-- `FLinearColor`: four float channels. -/
structure FLinearColor where
  R : ℚ
  G : ℚ
  B : ℚ
  A : ℚ
deriving DecidableEq, Repr

/-- `FLinearColor::White`. -/
def FLinearColor.White : FLinearColor := ⟨1, 1, 1, 1⟩

/-- `FLinearColor::Gray`. -/
def FLinearColor.Gray : FLinearColor := ⟨1 / 2, 1 / 2, 1 / 2, 1⟩

/-- Underlying code of `EMovementType::Walker`. -/
def EMovementType.Walker : Nat := 0
/-- Underlying code of `EMovementType::Flyer`. -/
def EMovementType.Flyer : Nat := 1
/-- Underlying code of `EMovementType::Swimmer`. -/
def EMovementType.Swimmer : Nat := 2
/-- Underlying code of `EMovementType::Crawler`. -/
def EMovementType.Crawler : Nat := 3
/-- Underlying code of `EMovementType::Jumper`. -/
def EMovementType.Jumper : Nat := 4

/-- Underlying code of `EAggressionLevel::Peaceful`. -/
def EAggressionLevel.Peaceful : Nat := 0
/-- Underlying code of `EAggressionLevel::Defensive`. -/
def EAggressionLevel.Defensive : Nat := 1
/-- Underlying code of `EAggressionLevel::Territorial`. -/
def EAggressionLevel.Territorial : Nat := 2
/-- Underlying code of `EAggressionLevel::Aggressive`. -/
def EAggressionLevel.Aggressive : Nat := 3
/-- Underlying code of `EAggressionLevel::Predatory`. -/
def EAggressionLevel.Predatory : Nat := 4

/-- A value of `EMovementType` is one of the five enumerators. -/
def EMovementType.IsEnumerator (v : Nat) : Prop :=
  v = EMovementType.Walker ∨ v = EMovementType.Flyer ∨ v = EMovementType.Swimmer ∨
    v = EMovementType.Crawler ∨ v = EMovementType.Jumper

/-- A value of `EAggressionLevel` is one of the five enumerators. -/
def EAggressionLevel.IsEnumerator (v : Nat) : Prop :=
  v = EAggressionLevel.Peaceful ∨ v = EAggressionLevel.Defensive ∨
    v = EAggressionLevel.Territorial ∨ v = EAggressionLevel.Aggressive ∨
    v = EAggressionLevel.Predatory

/-- `FCreatureGenes`, with the default member initialisers of the header. -/
structure FCreatureGenes where
  Size : ℚ := 1
  Speed : ℚ := 1
  Strength : ℚ := 1
  Endurance : ℚ := 1
  MovementType : Nat := EMovementType.Walker
  AggressionLevel : Nat := EAggressionLevel.Peaceful
  ReproductionRate : ℚ := 1 / 10
  LifeSpan : ℚ := 30
  Intelligence : ℚ := 1
  VisionRange : ℚ := 500
  SocialTendency : ℚ := 1
  HungerResistance : ℚ := 1
  DamageResistance : ℚ := 1
  PrimaryColor : FLinearColor := FLinearColor.White
  SecondaryColor : FLinearColor := FLinearColor.Gray
deriving DecidableEq, Repr

/-- The declared inclusive interval of every numeric trait (the `ClampMin` /
`ClampMax` pairs of the header, which are also the clamp bounds of `Mutate`) and
the enumerator range of both categorical traits. -/
structure FCreatureGenes.InBounds (g : FCreatureGenes) : Prop where
  Size : 1 / 10 ≤ g.Size ∧ g.Size ≤ 5
  Speed : 1 / 10 ≤ g.Speed ∧ g.Speed ≤ 10
  Strength : 1 / 10 ≤ g.Strength ∧ g.Strength ≤ 3
  Endurance : 1 / 10 ≤ g.Endurance ∧ g.Endurance ≤ 2
  MovementType : EMovementType.IsEnumerator g.MovementType
  AggressionLevel : EAggressionLevel.IsEnumerator g.AggressionLevel
  ReproductionRate : 1 / 100 ≤ g.ReproductionRate ∧ g.ReproductionRate ≤ 1
  LifeSpan : 1 ≤ g.LifeSpan ∧ g.LifeSpan ≤ 100
  Intelligence : 1 / 10 ≤ g.Intelligence ∧ g.Intelligence ≤ 3
  VisionRange : 100 ≤ g.VisionRange ∧ g.VisionRange ≤ 2000
  SocialTendency : 1 / 10 ≤ g.SocialTendency ∧ g.SocialTendency ≤ 2
  HungerResistance : 1 / 10 ≤ g.HungerResistance ∧ g.HungerResistance ≤ 3
  DamageResistance : 1 / 10 ≤ g.DamageResistance ∧ g.DamageResistance ≤ 3

/-! ## `CreatureGenetics.cpp` -/

/-- The two unit draws of one `MutateFloat` call: the one behind the roll
`RandRange(0.0f, 1.0f)` and the one behind the perturbation
`RandRange(-MutationStrength, MutationStrength)`. -/
structure FloatDraw where
  Roll : ℚ
  Change : ℚ
deriving DecidableEq, Repr

/-- The two draws of one `MutateEnum` call: the unit draw behind the roll and the
raw integer draw. -/
structure EnumDraw where
  Roll : ℚ
  Raw : Nat
deriving DecidableEq, Repr

/-- The draws of one colour mutation: the unit draw behind the roll and the
colour returned by `MakeRandomColor()`. -/
structure ColorDraw where
  Roll : ℚ
  Color : FLinearColor
deriving DecidableEq, Repr

/-- Every random draw of one `Mutate` call, one entry per trait. -/
structure MutateDraws where
  Size : FloatDraw
  Speed : FloatDraw
  Strength : FloatDraw
  Endurance : FloatDraw
  MovementType : EnumDraw
  AggressionLevel : EnumDraw
  ReproductionRate : FloatDraw
  LifeSpan : FloatDraw
  Intelligence : FloatDraw
  VisionRange : FloatDraw
  SocialTendency : FloatDraw
  HungerResistance : FloatDraw
  DamageResistance : FloatDraw
  PrimaryColor : ColorDraw
  SecondaryColor : ColorDraw
deriving DecidableEq, Repr

/-- The lambda `MutateFloat` of `FCreatureGenes::Mutate`. -/
def MutateFloat (MutationRate MutationStrength : ℚ) (Value Min Max : ℚ) (d : FloatDraw) : ℚ :=
  if FRandRange 0 1 d.Roll < MutationRate then
    let Change := FRandRange (-MutationStrength) MutationStrength d.Change
    Clamp (Value + Change) Min Max
  else Value

/-- The lambda `MutateEnum` of `FCreatureGenes::Mutate`; the cast to the
`uint8` enumeration keeps the low eight bits. -/
def MutateEnum (MutationRate : ℚ) (EnumValue : Nat) (MaxValue : Int) (d : EnumDraw) : Nat :=
  if FRandRange 0 1 d.Roll < MutationRate then (RandRange 0 MaxValue d.Raw).toNat % 256
  else EnumValue

/-- `FCreatureGenes::Mutate`. -/
def FCreatureGenes.Mutate (g : FCreatureGenes) (MutationRate MutationStrength : ℚ)
    (d : MutateDraws) : FCreatureGenes :=
  { Size := MutateFloat MutationRate MutationStrength g.Size (1 / 10) 5 d.Size
    Speed := MutateFloat MutationRate MutationStrength g.Speed (1 / 10) 10 d.Speed
    Strength := MutateFloat MutationRate MutationStrength g.Strength (1 / 10) 3 d.Strength
    Endurance := MutateFloat MutationRate MutationStrength g.Endurance (1 / 10) 2 d.Endurance
    MovementType := MutateEnum MutationRate g.MovementType 4 d.MovementType
    AggressionLevel := MutateEnum MutationRate g.AggressionLevel 4 d.AggressionLevel
    ReproductionRate := MutateFloat MutationRate MutationStrength g.ReproductionRate (1 / 100) 1
      d.ReproductionRate
    LifeSpan := MutateFloat MutationRate MutationStrength g.LifeSpan 1 100 d.LifeSpan
    Intelligence := MutateFloat MutationRate MutationStrength g.Intelligence (1 / 10) 3 d.Intelligence
    VisionRange := MutateFloat MutationRate MutationStrength g.VisionRange 100 2000 d.VisionRange
    SocialTendency := MutateFloat MutationRate MutationStrength g.SocialTendency (1 / 10) 2
      d.SocialTendency
    HungerResistance := MutateFloat MutationRate MutationStrength g.HungerResistance (1 / 10) 3
      d.HungerResistance
    DamageResistance := MutateFloat MutationRate MutationStrength g.DamageResistance (1 / 10) 3
      d.DamageResistance
    PrimaryColor := if FRandRange 0 1 d.PrimaryColor.Roll < MutationRate then
      d.PrimaryColor.Color else g.PrimaryColor
    SecondaryColor := if FRandRange 0 1 d.SecondaryColor.Roll < MutationRate then
      d.SecondaryColor.Color else g.SecondaryColor }

/-- The unit draws of one `Crossover` call, one per trait, each behind one
`RandRange(0.0f, 1.0f)`. -/
structure CrossoverDraws where
  Size : ℚ
  Speed : ℚ
  Strength : ℚ
  Endurance : ℚ
  MovementType : ℚ
  AggressionLevel : ℚ
  ReproductionRate : ℚ
  LifeSpan : ℚ
  Intelligence : ℚ
  VisionRange : ℚ
  SocialTendency : ℚ
  HungerResistance : ℚ
  DamageResistance : ℚ
  PrimaryColor : ℚ
  SecondaryColor : ℚ
deriving DecidableEq, Repr

/-- The lambda `BlendFloat` of `FCreatureGenes::Crossover`. -/
def BlendFloat (A B : ℚ) (Roll : ℚ) : ℚ :=
  if FRandRange 0 1 Roll < 1 / 2 then A else B

/-- The lambda `BlendEnum` of `FCreatureGenes::Crossover`. -/
def BlendEnum (A B : Nat) (Roll : ℚ) : Nat :=
  if FRandRange 0 1 Roll < 1 / 2 then A else B

/-- `FCreatureGenes::Crossover`. -/
def FCreatureGenes.Crossover (Parent1 Parent2 : FCreatureGenes) (d : CrossoverDraws) :
    FCreatureGenes :=
  { Size := BlendFloat Parent1.Size Parent2.Size d.Size
    Speed := BlendFloat Parent1.Speed Parent2.Speed d.Speed
    Strength := BlendFloat Parent1.Strength Parent2.Strength d.Strength
    Endurance := BlendFloat Parent1.Endurance Parent2.Endurance d.Endurance
    MovementType := BlendEnum Parent1.MovementType Parent2.MovementType d.MovementType
    AggressionLevel := BlendEnum Parent1.AggressionLevel Parent2.AggressionLevel d.AggressionLevel
    ReproductionRate := BlendFloat Parent1.ReproductionRate Parent2.ReproductionRate
      d.ReproductionRate
    LifeSpan := BlendFloat Parent1.LifeSpan Parent2.LifeSpan d.LifeSpan
    Intelligence := BlendFloat Parent1.Intelligence Parent2.Intelligence d.Intelligence
    VisionRange := BlendFloat Parent1.VisionRange Parent2.VisionRange d.VisionRange
    SocialTendency := BlendFloat Parent1.SocialTendency Parent2.SocialTendency d.SocialTendency
    HungerResistance := BlendFloat Parent1.HungerResistance Parent2.HungerResistance
      d.HungerResistance
    DamageResistance := BlendFloat Parent1.DamageResistance Parent2.DamageResistance
      d.DamageResistance
    PrimaryColor := if FRandRange 0 1 d.PrimaryColor < 1 / 2 then Parent1.PrimaryColor
      else Parent2.PrimaryColor
    SecondaryColor := if FRandRange 0 1 d.SecondaryColor < 1 / 2 then Parent1.SecondaryColor
      else Parent2.SecondaryColor }

/-- `FCreatureGenes::CalculateFitness`: the seven `Fitness += ...` statements in
source order, then `FMath::Max(0.0f, Fitness)`. -/
def FCreatureGenes.CalculateFitness (g : FCreatureGenes) (Age : ℚ) (OffspringCount : Int)
    (ResourcesGathered : ℚ) (CombatWins : Int) : ℚ :=
  let Fitness : ℚ := 0
  let Fitness := Fitness + Age / g.LifeSpan * 100
  let Fitness := Fitness + (OffspringCount : ℚ) * 50
  let Fitness := Fitness + ResourcesGathered * (1 / 10)
  let Fitness := Fitness + (CombatWins : ℚ) * 25
  let SizeOptimal := |g.Size - 1|
  let Fitness := Fitness + (1 - SizeOptimal) * 20
  let Fitness := Fitness + g.Intelligence * 15
  let Fitness := Fitness + g.Endurance * 10
  max 0 Fitness

/-- The draws of one `GenerateRandom` call: a unit draw per float trait, a raw
integer draw per categorical trait, a random colour per colour. -/
structure GenerateDraws where
  Size : ℚ
  Speed : ℚ
  Strength : ℚ
  Endurance : ℚ
  MovementType : Nat
  AggressionLevel : Nat
  ReproductionRate : ℚ
  LifeSpan : ℚ
  Intelligence : ℚ
  VisionRange : ℚ
  SocialTendency : ℚ
  HungerResistance : ℚ
  DamageResistance : ℚ
  PrimaryColor : FLinearColor
  SecondaryColor : FLinearColor
deriving DecidableEq, Repr

/-- `FCreatureGenes::GenerateRandom`. -/
def FCreatureGenes.GenerateRandom (d : GenerateDraws) : FCreatureGenes :=
  { Size := FRandRange (1 / 10) 5 d.Size
    Speed := FRandRange (1 / 10) 10 d.Speed
    Strength := FRandRange (1 / 10) 3 d.Strength
    Endurance := FRandRange (1 / 10) 2 d.Endurance
    MovementType := (RandRange 0 4 d.MovementType).toNat % 256
    AggressionLevel := (RandRange 0 4 d.AggressionLevel).toNat % 256
    ReproductionRate := FRandRange (1 / 100) 1 d.ReproductionRate
    LifeSpan := FRandRange 1 100 d.LifeSpan
    Intelligence := FRandRange (1 / 10) 3 d.Intelligence
    VisionRange := FRandRange 100 2000 d.VisionRange
    SocialTendency := FRandRange (1 / 10) 2 d.SocialTendency
    HungerResistance := FRandRange (1 / 10) 3 d.HungerResistance
    DamageResistance := FRandRange (1 / 10) 3 d.DamageResistance
    PrimaryColor := d.PrimaryColor
    SecondaryColor := d.SecondaryColor }

/-! ## `Creature.h` / `Creature.cpp` (the members the population manager uses) -/

/-- `ECreatureState`. -/
inductive ECreatureState where
  | Idle
  | Wandering
  | Seeking
  | Feeding
  | Fleeing
  | Fighting
  | Mating
  | Dying
deriving DecidableEq, Repr

/-- `ACreature`: the simulation members of the actor, with the default member
initialisers of the header.  `Id` stands for the actor's identity (its address)
and `bValid` for what `IsValid(Creature)` answers. -/
structure ACreature where
  Id : Nat
  bValid : Bool := true
  Genes : FCreatureGenes := {}
  Energy : ℚ := 100
  Hunger : ℚ := 0
  Age : ℚ := 0
  Health : ℚ := 100
  CurrentState : ECreatureState := ECreatureState.Idle
  MaturityAge : ℚ := 10
  ReproductionCooldown : ℚ := 0
  OffspringCount : Int := 0
  CombatWins : Int := 0
  LastAttackTime : ℚ := 0
  ResourcesGathered : ℚ := 0
  EnergyDecayRate : ℚ := 1
  HungerGrowthRate : ℚ := 3 / 2
  AgingRate : ℚ := 1
deriving DecidableEq, Repr

/-- `ACreature::GetGenes`. -/
def ACreature.GetGenes (c : ACreature) : FCreatureGenes := c.Genes

/-- `ACreature::GetAge`. -/
def ACreature.GetAge (c : ACreature) : ℚ := c.Age

/-- `ACreature::CalculateFitnessScore`. -/
def ACreature.CalculateFitnessScore (c : ACreature) : ℚ :=
  c.Genes.CalculateFitness c.Age c.OffspringCount c.ResourcesGathered c.CombatWins

/-- `ACreature::ApplyGeneticTraits` (the perception branch has an empty body). -/
def ACreature.ApplyGeneticTraits (c : ACreature) : ACreature :=
  { c with
    EnergyDecayRate := 2 / c.Genes.Endurance
    HungerGrowthRate := 2 / c.Genes.HungerResistance
    AgingRate := 1 / c.Genes.LifeSpan * 100
    MaturityAge := c.Genes.LifeSpan * (1 / 5) }

/-- `ACreature::InitializeWithGenes`; `UpdateAppearance` and
`UpdateMovementParameters` only write to rendering and movement components. -/
def ACreature.InitializeWithGenes (c : ACreature) (NewGenes : FCreatureGenes) : ACreature :=
  ({ c with Genes := NewGenes }).ApplyGeneticTraits

/-! ## `EcosystemManager.h` -/

/-- `FPopulationStats`; each `TMap` is its list of key/count pairs. -/
structure FPopulationStats where
  TotalPopulation : Int := 0
  Generation : Int := 0
  AverageFitness : ℚ := 0
  MaxFitness : ℚ := 0
  DominantGenes : FCreatureGenes := {}
  MovementTypeDistribution : List (Nat × Int) := []
  AggressionDistribution : List (Nat × Int) := []
deriving DecidableEq, Repr

/-- `FCreatureRecord`. -/
structure FCreatureRecord where
  Genes : FCreatureGenes := {}
  FitnessScore : ℚ := 0
  LifeTime : ℚ := 0
  Generation : Int := 0
  OffspringCount : Int := 0
deriving DecidableEq, Repr

/-- A broadcast on one of the manager's two delegates,
`OnGenerationComplete` and `OnPopulationStatsUpdated`. -/
inductive ManagerEvent where
  | GenerationComplete (GenerationNumber : Int)
  | PopulationStatsUpdated (Stats : FPopulationStats) (DeltaTime : ℚ)
deriving DecidableEq, Repr

/-- `AEcosystemManager`: configuration, current state and private members, with
the default member initialisers of the header.  `CreatureClass` records whether
the class reference is set, `Events` is the log of broadcasts and `NextId` the
identity of the next spawned actor. -/
structure AEcosystemManager where
  InitialPopulation : Int := 50
  MaxPopulation : Int := 200
  MinPopulation : Int := 10
  SpawnRadius : ℚ := 5000
  CreatureClass : Bool := false
  MutationRate : ℚ := 1 / 10
  MutationStrength : ℚ := 1 / 5
  ElitePercentage : ℚ := 1 / 5
  bAutoGenerationAdvance : Bool := true
  GenerationTimeLimit : ℚ := 300
  CurrentStats : FPopulationStats := {}
  ActiveCreatures : List ACreature := []
  CreatureHistory : List FCreatureRecord := []
  CurrentGenerationTime : ℚ := 0
  LastStatsUpdateTime : ℚ := 0
  StatsUpdateInterval : ℚ := 1
  bGenerationInProgress : Bool := false
  PendingOffspring : List FCreatureGenes := []
  Events : List ManagerEvent := []
  NextId : Nat := 0
deriving DecidableEq, Repr

/-! ## `EcosystemManager.cpp` -/

/-- How a run of the manager's code can fail to return: an array read outside
`[0, Num)` (a fatal check in `TArray::operator[]`), or a loop that is still
running when the supplied random draws are used up. -/
inductive Fault where
  | ArrayIndexOutOfRange
  | OutOfDraws
deriving DecidableEq, Repr

/-- `TArray::operator[]` with an `int32` index. -/
def ArrayGet {α : Type} (Array : List α) (Index : Int) : Except Fault α :=
  if Index < 0 then Except.error Fault.ArrayIndexOutOfRange
  else
    match Array[Index.toNat]? with
    | some a => Except.ok a
    | none => Except.error Fault.ArrayIndexOutOfRange

/-- `AEcosystemManager::SpawnCreature`.  The spawn location only places the
actor; `SpawnActor` with `AdjustIfPossibleButAlwaysSpawn` returns an actor
whenever the class is set. -/
def AEcosystemManager.SpawnCreature (m : AEcosystemManager) (Genes : FCreatureGenes) :
    AEcosystemManager :=
  if !m.CreatureClass then m
  else
    let NewCreature := ({ Id := m.NextId } : ACreature).InitializeWithGenes Genes
    { m with ActiveCreatures := m.ActiveCreatures ++ [NewCreature], NextId := m.NextId + 1 }

/-- The spawn loop of `InitializeEcosystem`: `Count` further iterations starting
at index `i`, iteration `i` using the draws `Draws i`. -/
def AEcosystemManager.InitialSpawnLoop (Draws : Nat → GenerateDraws) :
    Nat → Nat → AEcosystemManager → AEcosystemManager
  | _, 0, m => m
  | i, Count + 1, m =>
    let RandomGenes := FCreatureGenes.GenerateRandom (Draws i)
    AEcosystemManager.InitialSpawnLoop Draws (i + 1) Count (m.SpawnCreature RandomGenes)

/-- `AEcosystemManager::InitializeEcosystem`. -/
def AEcosystemManager.InitializeEcosystem (m : AEcosystemManager)
    (Draws : Nat → GenerateDraws) : AEcosystemManager :=
  if !m.CreatureClass then m
  else
    let m := { m with
      ActiveCreatures := []
      CreatureHistory := []
      PendingOffspring := []
      CurrentStats := {}
      CurrentGenerationTime := 0 }
    AEcosystemManager.InitialSpawnLoop Draws 0 m.InitialPopulation.toNat m

/-- `TMap::FindOrAdd(Key)++` on a map of counters. -/
def TMapIncrement : List (Nat × Int) → Nat → List (Nat × Int)
  | [], Key => [(Key, 1)]
  | (k, v) :: Rest, Key =>
    if k = Key then (k, v + 1) :: Rest else (k, v) :: TMapIncrement Rest Key

/-- The locals and the two distribution maps that the loop of
`UpdatePopulationStats` updates. -/
structure StatsLoopState where
  TotalFitness : ℚ := 0
  MaxFitness : ℚ := 0
  BestGenes : FCreatureGenes := {}
  MovementTypeDistribution : List (Nat × Int) := []
  AggressionDistribution : List (Nat × Int) := []

/-- One iteration of the loop of `UpdatePopulationStats`. -/
def StatsLoopState.Step (s : StatsLoopState) (Creature : ACreature) : StatsLoopState :=
  if !Creature.bValid then s
  else
    let CreatureFitness := Creature.CalculateFitnessScore
    let TotalFitness := s.TotalFitness + CreatureFitness
    let Best : ℚ × FCreatureGenes :=
      if CreatureFitness > s.MaxFitness then (CreatureFitness, Creature.GetGenes)
      else (s.MaxFitness, s.BestGenes)
    let Genes := Creature.GetGenes
    { TotalFitness := TotalFitness
      MaxFitness := Best.1
      BestGenes := Best.2
      MovementTypeDistribution := TMapIncrement s.MovementTypeDistribution Genes.MovementType
      AggressionDistribution := TMapIncrement s.AggressionDistribution Genes.AggressionLevel }

/-- `AEcosystemManager::UpdatePopulationStats`. -/
def AEcosystemManager.UpdatePopulationStats (m : AEcosystemManager) : AEcosystemManager :=
  let TotalPopulation : Int := m.ActiveCreatures.length
  let m := { m with CurrentStats := { m.CurrentStats with TotalPopulation := TotalPopulation } }
  if m.CurrentStats.TotalPopulation = 0 then m
  else
    let s := m.ActiveCreatures.foldl StatsLoopState.Step {}
    { m with CurrentStats := { m.CurrentStats with
        MovementTypeDistribution := s.MovementTypeDistribution
        AggressionDistribution := s.AggressionDistribution
        AverageFitness := s.TotalFitness / (m.CurrentStats.TotalPopulation : ℚ)
        MaxFitness := s.MaxFitness
        DominantGenes := s.BestGenes } }

/-- The record that `SelectParentsForReproduction` builds for one creature. -/
def AEcosystemManager.RecordOf (m : AEcosystemManager) (Creature : ACreature) :
    FCreatureRecord :=
  { Genes := Creature.GetGenes
    FitnessScore := Creature.CalculateFitnessScore
    LifeTime := Creature.GetAge
    Generation := m.CurrentStats.Generation
    OffspringCount := Creature.OffspringCount }

/-- The first loop of `SelectParentsForReproduction`: one record per valid
creature, in the order of `ActiveCreatures`. -/
def AEcosystemManager.CurrentRecords (m : AEcosystemManager) : List FCreatureRecord :=
  (m.ActiveCreatures.filter (fun c => c.bValid)).map m.RecordOf

/-- The order that `Sort` with the predicate `A.FitnessScore > B.FitnessScore`
establishes: `A` may stand before `B` when `B` does not have to precede `A`. -/
def FitnessOrder (A B : FCreatureRecord) : Prop :=
  ¬ (B.FitnessScore > A.FitnessScore)

instance : DecidableRel FitnessOrder := fun A B =>
  inferInstanceAs (Decidable (¬ (B.FitnessScore > A.FitnessScore)))

instance : IsTotal FCreatureRecord FitnessOrder :=
  ⟨fun A B => by
    unfold FitnessOrder
    rcases le_total A.FitnessScore B.FitnessScore with h | h
    · exact Or.inr (not_lt.mpr h)
    · exact Or.inl (not_lt.mpr h)⟩

instance : IsTrans FCreatureRecord FitnessOrder :=
  ⟨fun A B C hab hbc => by
    unfold FitnessOrder at *
    exact not_lt.mpr (le_trans (not_lt.mp hbc) (not_lt.mp hab))⟩

/-- `TArray::Sort` with the fitness predicate.  The engine's sort is not
stable, so the order among records of equal fitness is this model's choice. -/
def SortByFitness (Records : List FCreatureRecord) : List FCreatureRecord :=
  Records.insertionSort FitnessOrder

/-- `AEcosystemManager::SelectParentsForReproduction`. -/
def AEcosystemManager.SelectParentsForReproduction (m : AEcosystemManager) :
    List FCreatureGenes :=
  let CurrentRecords := SortByFitness m.CurrentRecords
  let Num : Int := CurrentRecords.length
  let ParentCount : Int := max 2 (RoundToInt ((Num : ℚ) * (1 / 2)))
  (CurrentRecords.take (min ParentCount Num).toNat).map (fun Record => Record.Genes)

/-- The elite loop of `AdvanceGeneration`: `Count` further iterations starting
at index `i`, each spawning `ParentGenes[i]` unchanged. -/
def AEcosystemManager.EliteLoop (ParentGenes : List FCreatureGenes) :
    Nat → Nat → AEcosystemManager → Except Fault AEcosystemManager
  | _, 0, m => Except.ok m
  | i, Count + 1, m =>
    match ArrayGet ParentGenes (i : Int) with
    | Except.error e => Except.error e
    | Except.ok Genes =>
      AEcosystemManager.EliteLoop ParentGenes (i + 1) Count (m.SpawnCreature Genes)

/-- The draws of one iteration of the offspring loop of `AdvanceGeneration`:
the raw draws of the two parent indices, the raw draws available to the
`Ensure different parents` loop, and the draws of `Crossover` and `Mutate`. -/
structure BreedDraws where
  Parent1 : Nat
  Parent2 : Nat
  Redraws : List Nat
  Crossover : CrossoverDraws
  Mutate : MutateDraws
deriving DecidableEq, Repr

/-- The loop `while (Parent2Index == Parent1Index && ParentGenes.Num() > 1)` of
`AdvanceGeneration`, each iteration consuming one raw draw. -/
def EnsureDifferentParents (Parent1Index Num : Int) : Int → List Nat → Except Fault Int
  | Parent2Index, [] =>
    if Parent2Index = Parent1Index ∧ Num > 1 then Except.error Fault.OutOfDraws
    else Except.ok Parent2Index
  | Parent2Index, Raw :: Redraws =>
    if Parent2Index = Parent1Index ∧ Num > 1 then
      EnsureDifferentParents Parent1Index Num (RandRange 0 (Num - 1) Raw) Redraws
    else Except.ok Parent2Index

/-- The body of the offspring loop of `AdvanceGeneration` up to the mutated
offspring genes. -/
def AEcosystemManager.BreedOffspring (m : AEcosystemManager)
    (ParentGenes : List FCreatureGenes) (d : BreedDraws) : Except Fault FCreatureGenes :=
  let Num : Int := ParentGenes.length
  let Parent1Index := RandRange 0 (Num - 1) d.Parent1
  let Parent2Index := RandRange 0 (Num - 1) d.Parent2
  match EnsureDifferentParents Parent1Index Num Parent2Index d.Redraws with
  | Except.error e => Except.error e
  | Except.ok Parent2Index =>
    match ArrayGet ParentGenes Parent1Index, ArrayGet ParentGenes Parent2Index with
    | Except.ok Genes1, Except.ok Genes2 =>
      let OffspringGenes := FCreatureGenes.Crossover Genes1 Genes2 d.Crossover
      Except.ok (OffspringGenes.Mutate m.MutationRate m.MutationStrength d.Mutate)
    | _, _ => Except.error Fault.ArrayIndexOutOfRange

/-- The loop `while (ActiveCreatures.Num() < InitialPopulation)` of
`AdvanceGeneration`, each iteration consuming one entry of `Draws`. -/
def AEcosystemManager.BreedLoop (ParentGenes : List FCreatureGenes) :
    List BreedDraws → AEcosystemManager → Except Fault AEcosystemManager
  | [], m =>
    if (m.ActiveCreatures.length : Int) < m.InitialPopulation then
      Except.error Fault.OutOfDraws
    else Except.ok m
  | d :: Draws, m =>
    if (m.ActiveCreatures.length : Int) < m.InitialPopulation then
      match m.BreedOffspring ParentGenes d with
      | Except.error e => Except.error e
      | Except.ok OffspringGenes =>
        AEcosystemManager.BreedLoop ParentGenes Draws (m.SpawnCreature OffspringGenes)
    else Except.ok m

/-- `AEcosystemManager::AdvanceGeneration`. -/
def AEcosystemManager.AdvanceGeneration (m : AEcosystemManager) (Draws : List BreedDraws) :
    Except Fault AEcosystemManager :=
  if m.bGenerationInProgress then Except.ok m
  else
    let m := { m with
      bGenerationInProgress := true
      CurrentStats := { m.CurrentStats with Generation := m.CurrentStats.Generation + 1 } }
    let ParentGenes := m.SelectParentsForReproduction
    let m := { m with ActiveCreatures := [] }
    let EliteCount := RoundToInt ((ParentGenes.length : ℚ) * m.ElitePercentage)
    match AEcosystemManager.EliteLoop ParentGenes 0 EliteCount.toNat m with
    | Except.error e => Except.error e
    | Except.ok m =>
      match AEcosystemManager.BreedLoop ParentGenes Draws m with
      | Except.error e => Except.error e
      | Except.ok m =>
        let m := { m with CurrentGenerationTime := 0, bGenerationInProgress := false }
        Except.ok { m with
          Events := m.Events ++ [ManagerEvent.GenerationComplete m.CurrentStats.Generation] }

/-- `AEcosystemManager::CheckGenerationConditions`. -/
def AEcosystemManager.CheckGenerationConditions (m : AEcosystemManager)
    (Draws : List BreedDraws) : Except Fault AEcosystemManager :=
  let bShouldAdvance := false
  let bShouldAdvance :=
    if m.CurrentGenerationTime ≥ m.GenerationTimeLimit then true else bShouldAdvance
  let bShouldAdvance :=
    if m.CurrentStats.TotalPopulation ≤ m.MinPopulation then true else bShouldAdvance
  let bShouldAdvance :=
    if m.CurrentStats.TotalPopulation ≥ m.MaxPopulation then true else bShouldAdvance
  if bShouldAdvance then m.AdvanceGeneration Draws else Except.ok m

/-- `AEcosystemManager::CleanupDeadCreatures`. -/
def AEcosystemManager.CleanupDeadCreatures (m : AEcosystemManager) : AEcosystemManager :=
  { m with ActiveCreatures := m.ActiveCreatures.filter (fun c => c.bValid) }

/-- `AEcosystemManager::Tick`.  `WorldTime` is `GetWorld()->GetTimeSeconds()`
during this tick and `Draws` the random draws available to a generation
advance started by it. -/
def AEcosystemManager.Tick (m : AEcosystemManager) (DeltaTime WorldTime : ℚ)
    (Draws : List BreedDraws) : Except Fault AEcosystemManager :=
  let m := { m with CurrentGenerationTime := m.CurrentGenerationTime + DeltaTime }
  let m :=
    if WorldTime - m.LastStatsUpdateTime > m.StatsUpdateInterval then
      let m := m.UpdatePopulationStats
      let m := { m with
        Events := m.Events ++ [ManagerEvent.PopulationStatsUpdated m.CurrentStats DeltaTime] }
      { m with LastStatsUpdateTime := WorldTime }
    else m
  match (if m.bAutoGenerationAdvance then m.CheckGenerationConditions Draws
    else Except.ok m) with
  | Except.error e => Except.error e
  | Except.ok m => Except.ok m.CleanupDeadCreatures

/-! ## `Creature.cpp`: the lifecycle actions -/

/-- A broadcast on one of a creature's two delegates, `OnCreatureDeath` and
`OnCreatureReproduction`; creatures are named by their identity. -/
inductive CreatureEvent where
  | Death (DeadCreature : Nat) (FitnessScore : ℚ)
  | Reproduction (Parent1 Parent2 : Nat) (OffspringGenes : FCreatureGenes)
deriving DecidableEq, Repr

/-- `ACreature::CanReproduce`. -/
def ACreature.CanReproduce (c : ACreature) : Bool :=
  decide (c.Age ≥ c.MaturityAge) &&
    decide (c.Energy > 50) &&
    decide (c.Hunger < 70) &&
    decide (c.ReproductionCooldown ≤ 0) &&
    decide (c.Health > 30)

/-- `ACreature::SetCreatureState` (the AI controller is only notified). -/
def ACreature.SetCreatureState (c : ACreature) (NewState : ECreatureState) : ACreature :=
  { c with CurrentState := NewState }

/-- What a call of `AttemptReproduction` leaves: both creatures, the broadcasts
on the caller's delegate and the returned flag. -/
structure ReproductionOutcome where
  Self : ACreature
  Mate : Option ACreature
  Events : List CreatureEvent
  ReturnValue : Bool
deriving DecidableEq, Repr

/-- `ACreature::AttemptReproduction`; `Mate = none` is the null pointer. -/
def ACreature.AttemptReproduction (c : ACreature) (Mate : Option ACreature)
    (cd : CrossoverDraws) (md : MutateDraws) : ReproductionOutcome :=
  match Mate with
  | none => { Self := c, Mate := none, Events := [], ReturnValue := false }
  | some Mate =>
    if !c.CanReproduce || !Mate.CanReproduce then
      { Self := c, Mate := some Mate, Events := [], ReturnValue := false }
    else
      let OffspringGenes := FCreatureGenes.Crossover c.Genes Mate.Genes cd
      let OffspringGenes := OffspringGenes.Mutate (1 / 10) (1 / 5) md
      let Events := [CreatureEvent.Reproduction c.Id Mate.Id OffspringGenes]
      let c := { c with Energy := c.Energy - 30 }
      let Mate := { Mate with Energy := Mate.Energy - 30 }
      let c := { c with ReproductionCooldown := 20 / c.Genes.ReproductionRate }
      let Mate := { Mate with ReproductionCooldown := 20 / Mate.Genes.ReproductionRate }
      let c := { c with OffspringCount := c.OffspringCount + 1 }
      let Mate := { Mate with OffspringCount := Mate.OffspringCount + 1 }
      { Self := c, Mate := some Mate, Events := Events, ReturnValue := true }

/-- `ACreature::Die`: the new state of the creature and the broadcast on
`OnCreatureDeath`.  Stopping the AI and `SetLifeSpan(2.0f)`, which has the engine
destroy the actor two seconds later, leave the simulation members as they are. -/
def ACreature.Die (c : ACreature) : ACreature × List CreatureEvent :=
  let c := c.SetCreatureState ECreatureState.Dying
  let FitnessScore := c.CalculateFitnessScore
  (c, [CreatureEvent.Death c.Id FitnessScore])

/-- What a call of `TakeDamage` leaves: the damaged creature, the attacker and
the broadcasts on the damaged creature's delegate. -/
structure DamageOutcome where
  Self : ACreature
  Attacker : Option ACreature
  Events : List CreatureEvent
deriving DecidableEq, Repr

/-- `ACreature::TakeDamage`; `Attacker = none` is the null pointer.  The physics
impulse acts on the mesh only. -/
def ACreature.TakeDamage (c : ACreature) (DamageAmount : ℚ) (Attacker : Option ACreature) :
    DamageOutcome :=
  let ActualDamage := DamageAmount / c.Genes.DamageResistance
  let c := { c with Health := max 0 (c.Health - ActualDamage) }
  if c.Health ≤ 0 then
    let Dead := c.Die
    let Attacker :=
      match Attacker with
      | some a => some { a with CombatWins := a.CombatWins + 1 }
      | none => none
    { Self := Dead.1, Attacker := Attacker, Events := Dead.2 }
  else { Self := c, Attacker := Attacker, Events := [] }

/-- `ACreature::ConsumeFood`. -/
def ACreature.ConsumeFood (c : ACreature) (FoodValue : ℚ) : ACreature :=
  let c := { c with Energy := min 100 (c.Energy + FoodValue) }
  let c := { c with Hunger := max 0 (c.Hunger - FoodValue * (1 / 2)) }
  { c with ResourcesGathered := c.ResourcesGathered + FoodValue }

/-- What a call of `Attack` leaves: the attacker, the target and the broadcasts
on the target's delegate. -/
structure AttackOutcome where
  Self : ACreature
  Target : Option ACreature
  Events : List CreatureEvent
deriving DecidableEq, Repr

/-- `ACreature::Attack`; `Target = none` is the null pointer, `Distance` the
distance between the two actors and `CurrentTime` the world time of the call. -/
def ACreature.Attack (c : ACreature) (Target : Option ACreature) (Distance CurrentTime : ℚ) :
    AttackOutcome :=
  match Target with
  | none => { Self := c, Target := none, Events := [] }
  | some Target =>
    if Distance > 200 then { Self := c, Target := some Target, Events := [] }
    else if CurrentTime - c.LastAttackTime < 1 then
      { Self := c, Target := some Target, Events := [] }
    else
      let c := { c with LastAttackTime := CurrentTime }
      let AttackDamage := c.Genes.Strength * 10
      let Hit := Target.TakeDamage AttackDamage (some c)
      let c :=
        match Hit.Attacker with
        | some a => a
        | none => c
      let c := { c with Energy := c.Energy - 5 }
      { Self := c, Target := some Hit.Self, Events := Hit.Events }

/-- `ACreature::UpdateLifeStats`. -/
def ACreature.UpdateLifeStats (c : ACreature) (DeltaTime : ℚ) : ACreature :=
  let c := { c with Age := c.Age + DeltaTime * c.AgingRate }
  let EnergyDecay := c.EnergyDecayRate * DeltaTime
  let c := { c with Energy := max 0 (c.Energy - EnergyDecay) }
  let HungerGrowth := c.HungerGrowthRate * DeltaTime / c.Genes.HungerResistance
  let c := { c with Hunger := min 100 (c.Hunger + HungerGrowth) }
  let c :=
    if c.ReproductionCooldown > 0 then
      { c with ReproductionCooldown := c.ReproductionCooldown - DeltaTime }
    else c
  if c.Energy ≤ 0 ∨ c.Hunger ≥ 90 then { c with Health := c.Health - 10 * DeltaTime }
  else if c.Energy > 70 ∧ c.Hunger < 30 then
    { c with Health := min 100 (c.Health + 5 * DeltaTime) }
  else c

/-- What a creature reads from the weather system in `UpdateWeatherEffects`:
the results of `GetTemperatureEffect`, `GetVisibilityModifier` and
`GetMovementModifier`. -/
structure WeatherReadings where
  TemperatureEffect : ℚ
  VisibilityModifier : ℚ
  MovementModifier : ℚ
deriving DecidableEq, Repr

/-- `ACreature::UpdateWeatherEffects`.  `Weather = none` is a null
`WeatherSystem`; `bPerception` says whether `CreatureAI` and its perception
component exist.  The walk speed is a member of the movement component. -/
def ACreature.UpdateWeatherEffects (c : ACreature) (DeltaTime : ℚ)
    (Weather : Option WeatherReadings) (bPerception : Bool) : ACreature :=
  match Weather with
  | none => c
  | some w =>
    let TemperatureStress := |w.TemperatureEffect - 1 / 2| * 2
    let AdditionalEnergyDecay := TemperatureStress * (1 / 2) * DeltaTime
    let c := { c with Energy := max 0 (c.Energy - AdditionalEnergyDecay) }
    let c :=
      if bPerception then
        if w.VisibilityModifier < 1 / 2 then { c with Energy := c.Energy - (1 / 5) * DeltaTime }
        else c
      else c
    if w.TemperatureEffect > 3 / 10 ∧ w.TemperatureEffect < 4 / 5 then
      if c.Energy > 70 ∧ c.Hunger < 30 then
        { c with Health := min 100 (c.Health + 6 * DeltaTime) }
      else c
    else c

/-- `ACreature::Tick`: the new state of the creature and the broadcasts of the
tick.  Passing the statistics to the AI controller changes no member. -/
def ACreature.Tick (c : ACreature) (DeltaTime : ℚ) (Weather : Option WeatherReadings)
    (bPerception : Bool) : ACreature × List CreatureEvent :=
  let c := c.UpdateLifeStats DeltaTime
  let c := c.UpdateWeatherEffects DeltaTime Weather bPerception
  if c.Health ≤ 0 ∨ c.Age ≥ c.Genes.LifeSpan then c.Die else (c, [])

/-- The invariant of a live creature record: energy, hunger and health in
`[0, 100]`, age and reproduction cooldown not negative. -/
structure ACreature.LiveInvariant (c : ACreature) : Prop where
  Energy : 0 ≤ c.Energy ∧ c.Energy ≤ 100
  Hunger : 0 ≤ c.Hunger ∧ c.Hunger ≤ 100
  Health : 0 ≤ c.Health ∧ c.Health ≤ 100
  Age : 0 ≤ c.Age
  ReproductionCooldown : 0 ≤ c.ReproductionCooldown

/-! ## `EcosystemManager.cpp`: ledger query and reproduction handler -/

/-- `AEcosystemManager::GetTopPerformers`, a `const` member: it sorts a copy of
`CreatureHistory` and returns genomes, so the manager itself is not part of the
result. -/
def AEcosystemManager.GetTopPerformers (m : AEcosystemManager) (Count : Int) :
    List FCreatureGenes :=
  let SortedRecords := SortByFitness m.CreatureHistory
  let Num : Int := SortedRecords.length
  (SortedRecords.take (min Count Num).toNat).map (fun Record => Record.Genes)

/-- `AEcosystemManager::OnCreatureReproduction`; the two parents are read for
the spawn location only. -/
def AEcosystemManager.OnCreatureReproduction (m : AEcosystemManager)
    (OffspringGenes : FCreatureGenes) : AEcosystemManager :=
  if (m.ActiveCreatures.length : Int) < m.MaxPopulation then m.SpawnCreature OffspringGenes
  else m

/-! ## `NaniteEnvironment.h` -/

/-- `FVector`. -/
structure FVector where
  X : ℚ := 0
  Y : ℚ := 0
  Z : ℚ := 0
deriving DecidableEq, Repr

/-- `FQuat`. -/
structure FQuat where
  X : ℚ := 0
  Y : ℚ := 0
  Z : ℚ := 0
  W : ℚ := 1
deriving DecidableEq, Repr

/-- `FTransform`, with `FTransform::Identity` as default. -/
structure FTransform where
  Rotation : FQuat := {}
  Translation : FVector := {}
  Scale3D : FVector := { X := 1, Y := 1, Z := 1 }
deriving DecidableEq, Repr

/-- `FTransform::GetLocation`. -/
def FTransform.GetLocation (t : FTransform) : FVector := t.Translation

/-- Underlying code of `EFoliageType::Tree`. -/
def EFoliageType.Tree : Nat := 0
/-- Underlying code of `EFoliageType::Bush`. -/
def EFoliageType.Bush : Nat := 1
/-- Underlying code of `EFoliageType::Grass`. -/
def EFoliageType.Grass : Nat := 2
/-- Underlying code of `EFoliageType::Rock`. -/
def EFoliageType.Rock : Nat := 3
/-- Underlying code of `EFoliageType::Flower`. -/
def EFoliageType.Flower : Nat := 4

/-- `FFoliageInstanceData`. -/
structure FFoliageInstanceData where
  FoliageType : Nat := EFoliageType.Tree
  Transform : FTransform := {}
  Health : ℚ := 100
  bIsDestroyed : Bool := false
  RegrowthTime : ℚ := 60
  TimeUntilRegrowth : ℚ := 0
deriving DecidableEq, Repr

/-- `FNaniteFoliageConfig`; the two asset pointers are recorded as set or null. -/
structure FNaniteFoliageConfig where
  FoliageType : Nat := EFoliageType.Tree
  NaniteMesh : Bool := false
  DestructibleVersion : Bool := false
  InstanceCount : Int := 100
  SpawnRadius : ℚ := 2000
  ScaleRange : FVector := { X := 4 / 5, Y := 6 / 5, Z := 1 }
  DestructionThreshold : ℚ := 50
  NutrientValue : ℚ := 25
deriving DecidableEq, Repr

/-- A broadcast on `OnEnvironmentDestruction`; `FoliageType` is the delegate's
parameter `Type`. -/
structure EnvironmentDestruction where
  Location : FVector
  FoliageType : Nat
  NutrientValue : ℚ
deriving DecidableEq, Repr

/-- `ANaniteEnvironment`: the resource bookkeeping of the actor.
`FoliageComponents` lists the foliage types that have an instanced component,
`FoliageTypeIndices` is the map from foliage type to configuration index (only
ever written with loop indices, hence natural numbers) and `Events` the log of
broadcasts. -/
structure ANaniteEnvironment where
  FoliageComponents : List Nat := []
  FoliageConfigs : List FNaniteFoliageConfig := []
  FoliageInstances : List FFoliageInstanceData := []
  EnvironmentSize : ℚ := 10000
  bEnableRegrowth : Bool := true
  RegrowthRate : ℚ := 1
  bDynamicTerrain : Bool := true
  TerrainDeformationStrength : ℚ := 100
  LastRegrowthCheck : ℚ := 0
  RegrowthCheckInterval : ℚ := 5
  FoliageTypeIndices : List (Nat × Nat) := []
  Events : List EnvironmentDestruction := []
deriving DecidableEq, Repr

/-! ## `NaniteEnvironment.cpp` -/

/-- `TMap::FindRef` on `FoliageTypeIndices`: the stored index, or the default
`0` when the key is absent. -/
def FindRef : List (Nat × Nat) → Nat → Nat
  | [], _ => 0
  | (k, v) :: Rest, Key => if k = Key then v else FindRef Rest Key

/-- The configuration that `DamageFoliage` and `ConsumeFoliage` look up for a
foliage type: `FoliageConfigs[ConfigIndex]` when
`ConfigIndex < FoliageConfigs.Num()`. -/
def ANaniteEnvironment.ConfigFor (e : ANaniteEnvironment) (FoliageType : Nat) :
    Option FNaniteFoliageConfig :=
  let ConfigIndex := FindRef e.FoliageTypeIndices FoliageType
  if ConfigIndex < e.FoliageConfigs.length then e.FoliageConfigs[ConfigIndex]? else none

/-- The body of the loop of `DamageFoliage` for one instance: the instance
afterwards, the broadcasts and whether `bAnyDamage` is set.  Removing the mesh
instance and spawning the destructible version touch components only. -/
def ANaniteEnvironment.DamageInstance (e : ANaniteEnvironment) (Dist : FVector → FVector → ℚ)
    (Location : FVector) (Radius Damage : ℚ) (Instance : FFoliageInstanceData) :
    FFoliageInstanceData × List EnvironmentDestruction × Bool :=
  if Instance.bIsDestroyed then (Instance, [], false)
  else
    let Distance := Dist Instance.Transform.GetLocation Location
    if Distance ≤ Radius then
      let DamageMultiplier := 1 - Distance / Radius
      let ActualDamage := Damage * DamageMultiplier
      let Instance : FFoliageInstanceData :=
        { Instance with Health := Instance.Health - ActualDamage }
      if Instance.Health ≤ 0 then
        let Instance : FFoliageInstanceData := { Instance with bIsDestroyed := true }
        let Instance : FFoliageInstanceData :=
          { Instance with TimeUntilRegrowth := Instance.RegrowthTime }
        match e.ConfigFor Instance.FoliageType with
        | some Config =>
          (Instance,
            [{ Location := Instance.Transform.GetLocation
               FoliageType := Instance.FoliageType
               NutrientValue := Config.NutrientValue }],
            true)
        | none => (Instance, [], true)
      else (Instance, [], true)
    else (Instance, [], false)

/-- The loop of `DamageFoliage` over the instances from the current one on:
the instances afterwards, the broadcasts in order and `bAnyDamage`. -/
def ANaniteEnvironment.DamageLoop (e : ANaniteEnvironment) (Dist : FVector → FVector → ℚ)
    (Location : FVector) (Radius Damage : ℚ) :
    List FFoliageInstanceData → List FFoliageInstanceData × List EnvironmentDestruction × Bool
  | [] => ([], [], false)
  | Instance :: Rest =>
    let Step := e.DamageInstance Dist Location Radius Damage Instance
    let Tail := ANaniteEnvironment.DamageLoop e Dist Location Radius Damage Rest
    (Step.1 :: Tail.1, Step.2.1 ++ Tail.2.1, Step.2.2 || Tail.2.2)

/-- `ANaniteEnvironment::DamageFoliage`: the environment afterwards and the
returned flag.  `Dist` is `FVector::Dist`. -/
def ANaniteEnvironment.DamageFoliage (e : ANaniteEnvironment) (Dist : FVector → FVector → ℚ)
    (Location : FVector) (Radius Damage : ℚ) : ANaniteEnvironment × Bool :=
  let Loop := ANaniteEnvironment.DamageLoop e Dist Location Radius Damage e.FoliageInstances
  ({ e with FoliageInstances := Loop.1, Events := e.Events ++ Loop.2.1 }, Loop.2.2)

/-- The body of the loop of `ConsumeFoliage` for one instance: the instance
afterwards and what it adds to `TotalNutrients`. -/
def ANaniteEnvironment.ConsumeInstance (e : ANaniteEnvironment)
    (Dist : FVector → FVector → ℚ) (Location : FVector) (ConsumeRadius : ℚ)
    (Instance : FFoliageInstanceData) : FFoliageInstanceData × ℚ :=
  if Instance.bIsDestroyed then (Instance, 0)
  else
    let Distance := Dist Instance.Transform.GetLocation Location
    if Distance ≤ ConsumeRadius then
      match e.ConfigFor Instance.FoliageType with
      | some Config =>
        let Instance : FFoliageInstanceData := { Instance with bIsDestroyed := true }
        let Instance : FFoliageInstanceData :=
          { Instance with TimeUntilRegrowth := Instance.RegrowthTime }
        (Instance, Config.NutrientValue)
      | none => (Instance, 0)
    else (Instance, 0)

/-- The loop of `ConsumeFoliage` with `TotalNutrients` as accumulator: the
instances afterwards and the final total. -/
def ANaniteEnvironment.ConsumeLoop (e : ANaniteEnvironment) (Dist : FVector → FVector → ℚ)
    (Location : FVector) (ConsumeRadius : ℚ) :
    List FFoliageInstanceData → ℚ → List FFoliageInstanceData × ℚ
  | [], TotalNutrients => ([], TotalNutrients)
  | Instance :: Rest, TotalNutrients =>
    let Step := e.ConsumeInstance Dist Location ConsumeRadius Instance
    let Tail := ANaniteEnvironment.ConsumeLoop e Dist Location ConsumeRadius Rest
      (TotalNutrients + Step.2)
    (Step.1 :: Tail.1, Tail.2)

/-- `ANaniteEnvironment::ConsumeFoliage`: the environment afterwards and the
returned total.  `Dist` is `FVector::Dist`. -/
def ANaniteEnvironment.ConsumeFoliage (e : ANaniteEnvironment) (Dist : FVector → FVector → ℚ)
    (Location : FVector) (ConsumeRadius : ℚ) : ANaniteEnvironment × ℚ :=
  let Loop := ANaniteEnvironment.ConsumeLoop e Dist Location ConsumeRadius e.FoliageInstances 0
  ({ e with FoliageInstances := Loop.1 }, Loop.2)

/-- `TMap::Add` on `FoliageTypeIndices`: the value of an existing key is
replaced, a new key is appended. -/
def TMapAdd : List (Nat × Nat) → Nat → Nat → List (Nat × Nat)
  | [], Key, Value => [(Key, Value)]
  | (k, v) :: Rest, Key, Value =>
    if k = Key then (k, Value) :: Rest else (k, v) :: TMapAdd Rest Key Value

/-- The loop of `SetupFoliageComponents` from configuration index `i` on, over
the configurations `Remaining` still to visit.  A configuration without mesh is
skipped; for the others the instanced component is created (taken to succeed)
and both maps get an entry for the foliage type. -/
def ANaniteEnvironment.SetupFoliageLoop :
    Nat → List FNaniteFoliageConfig → ANaniteEnvironment → ANaniteEnvironment
  | _, [], e => e
  | i, Config :: Remaining, e =>
    if !Config.NaniteMesh then ANaniteEnvironment.SetupFoliageLoop (i + 1) Remaining e
    else
      ANaniteEnvironment.SetupFoliageLoop (i + 1) Remaining
        { e with
          FoliageComponents :=
            if Config.FoliageType ∈ e.FoliageComponents then e.FoliageComponents
            else e.FoliageComponents ++ [Config.FoliageType]
          FoliageTypeIndices := TMapAdd e.FoliageTypeIndices Config.FoliageType i }

/-- `ANaniteEnvironment::SetupFoliageComponents`. -/
def ANaniteEnvironment.SetupFoliageComponents (e : ANaniteEnvironment) : ANaniteEnvironment :=
  ANaniteEnvironment.SetupFoliageLoop 0 e.FoliageConfigs e

/-- The draws of one `SpawnFoliageInstance` call: the position returned by
`GetRandomPositionInRadius`, the rotation built from the random yaw and the unit
draw behind the random scale. -/
structure FoliageSpawnDraws where
  Position : FVector
  Rotation : FQuat
  Scale : ℚ
deriving DecidableEq, Repr

/-- `ANaniteEnvironment::SpawnFoliageInstance` (`IsValidSpawnLocation` always
answers true). -/
def ANaniteEnvironment.SpawnFoliageInstance (e : ANaniteEnvironment)
    (Config : FNaniteFoliageConfig) (d : FoliageSpawnDraws) : ANaniteEnvironment :=
  let Position := d.Position
  let Scale := FRandRange Config.ScaleRange.X Config.ScaleRange.Y d.Scale
  let InstanceTransform : FTransform :=
    { Rotation := d.Rotation
      Translation := Position
      Scale3D := { X := Scale, Y := Scale, Z := Scale } }
  if Config.FoliageType ∈ e.FoliageComponents then
    let InstanceData : FFoliageInstanceData :=
      { FoliageType := Config.FoliageType
        Transform := InstanceTransform
        Health := 100
        RegrowthTime := if Config.FoliageType = EFoliageType.Tree then 120 else 60 }
    { e with FoliageInstances := e.FoliageInstances ++ [InstanceData] }
  else e

/-- The inner loop of `GenerateFoliage`: `Count` further instances of one
configuration, starting at instance index `i`. -/
def ANaniteEnvironment.SpawnInstancesLoop (Config : FNaniteFoliageConfig)
    (Draws : Nat → FoliageSpawnDraws) : Nat → Nat → ANaniteEnvironment → ANaniteEnvironment
  | _, 0, e => e
  | i, Count + 1, e =>
    ANaniteEnvironment.SpawnInstancesLoop Config Draws (i + 1) Count
      (e.SpawnFoliageInstance Config (Draws i))

/-- The outer loop of `GenerateFoliage` from configuration index `ConfigIndex`
on. -/
def ANaniteEnvironment.GenerateLoop (Draws : Nat → Nat → FoliageSpawnDraws) :
    Nat → List FNaniteFoliageConfig → ANaniteEnvironment → ANaniteEnvironment
  | _, [], e => e
  | ConfigIndex, Config :: Remaining, e =>
    ANaniteEnvironment.GenerateLoop Draws (ConfigIndex + 1) Remaining
      (ANaniteEnvironment.SpawnInstancesLoop Config (Draws ConfigIndex) 0
        Config.InstanceCount.toNat e)

/-- `ANaniteEnvironment::GenerateFoliage`. -/
def ANaniteEnvironment.GenerateFoliage (e : ANaniteEnvironment)
    (Draws : Nat → Nat → FoliageSpawnDraws) : ANaniteEnvironment :=
  ANaniteEnvironment.GenerateLoop Draws 0 e.FoliageConfigs { e with FoliageInstances := [] }

/-- Every instance of the field belongs to a configured category: the index map
leads from its foliage type to a configuration of that type.  This is how
`SetupFoliageComponents` and `GenerateFoliage` leave the field. -/
def ANaniteEnvironment.TypesConfigured (e : ANaniteEnvironment) : Prop :=
  ∀ Instance ∈ e.FoliageInstances, ∃ Config,
    e.ConfigFor Instance.FoliageType = some Config ∧
      Config.FoliageType = Instance.FoliageType

/-- The nutrient value configured for a foliage type (`0` without a
configuration). -/
def ANaniteEnvironment.NutrientValueOf (e : ANaniteEnvironment) (FoliageType : Nat) : ℚ :=
  match e.ConfigFor FoliageType with
  | some Config => Config.NutrientValue
  | none => 0

/-- The body of the loop of `RegenerateDestroyedFoliage` for one instance, with
the environment's `RegrowthCheckInterval` and `RegrowthRate`.  Adding the mesh
instance back touches the component only. -/
def ANaniteEnvironment.RegenerateInstance (e : ANaniteEnvironment)
    (Instance : FFoliageInstanceData) : FFoliageInstanceData :=
  if !Instance.bIsDestroyed then Instance
  else
    let Instance : FFoliageInstanceData :=
      { Instance with
        TimeUntilRegrowth := Instance.TimeUntilRegrowth - e.RegrowthCheckInterval * e.RegrowthRate }
    if Instance.TimeUntilRegrowth ≤ 0 then
      let Instance : FFoliageInstanceData := { Instance with bIsDestroyed := false }
      { Instance with Health := 100 }
    else Instance

/-- `ANaniteEnvironment::RegenerateDestroyedFoliage`: the loop visits every
instance once, in order. -/
def ANaniteEnvironment.RegenerateDestroyedFoliage (e : ANaniteEnvironment) :
    ANaniteEnvironment :=
  { e with FoliageInstances := e.FoliageInstances.map e.RegenerateInstance }

/-- `ANaniteEnvironment::Tick`; `WorldTime` is `GetWorld()->GetTimeSeconds()`. -/
def ANaniteEnvironment.Tick (e : ANaniteEnvironment) (WorldTime : ℚ) : ANaniteEnvironment :=
  if e.bEnableRegrowth ∧ WorldTime - e.LastRegrowthCheck > e.RegrowthCheckInterval then
    let e := e.RegenerateDestroyedFoliage
    { e with LastRegrowthCheck := WorldTime }
  else e

/-- `ANaniteEnvironment::InitializeEnvironment` (`SetupNaniteComponents` sets up
the terrain mesh only). -/
def ANaniteEnvironment.InitializeEnvironment (e : ANaniteEnvironment)
    (Draws : Nat → Nat → FoliageSpawnDraws) : ANaniteEnvironment :=
  let e := e.SetupFoliageComponents
  e.GenerateFoliage Draws

/-! ## `EcosystemManager.cpp`: the death handler -/

/-- `AEcosystemManager::RemoveCreature`; `Creature = none` is the null pointer.
`TArray::Remove` takes out every entry that is this actor. -/
def AEcosystemManager.RemoveCreature (m : AEcosystemManager) (Creature : Option ACreature) :
    AEcosystemManager :=
  match Creature with
  | some Creature =>
    { m with ActiveCreatures := m.ActiveCreatures.filter (fun c => decide (c.Id ≠ Creature.Id)) }
  | none => m

/-- `AEcosystemManager::OnCreatureDeath`, the handler that `SpawnCreature` binds
to the creature's `OnCreatureDeath` delegate; `DeadCreature = none` is the null
pointer. -/
def AEcosystemManager.OnCreatureDeath (m : AEcosystemManager) (DeadCreature : Option ACreature)
    (FitnessScore : ℚ) : AEcosystemManager :=
  match DeadCreature with
  | none => m
  | some Dead =>
    let Record : FCreatureRecord :=
      { Genes := Dead.GetGenes
        FitnessScore := FitnessScore
        LifeTime := Dead.GetAge
        Generation := m.CurrentStats.Generation
        OffspringCount := Dead.OffspringCount }
    let m : AEcosystemManager := { m with CreatureHistory := m.CreatureHistory ++ [Record] }
    m.RemoveCreature (some Dead)

/-! ## `DynamicWeatherSystem.h` -/

/-- `EWeatherType`; no code converts it to or from its underlying integer. -/
inductive EWeatherType where
  | Clear
  | Cloudy
  | Overcast
  | LightRain
  | HeavyRain
  | Storm
  | Fog
  | Snow
deriving DecidableEq, Repr

/-- `ETimeOfDay`. -/
inductive ETimeOfDay where
  | Dawn
  | Morning
  | Noon
  | Afternoon
  | Dusk
  | Night
deriving DecidableEq, Repr

/-- `FWeatherSettings`. -/
structure FWeatherSettings where
  WeatherType : EWeatherType := EWeatherType.Clear
  CloudCoverage : ℚ := 0
  RainIntensity : ℚ := 0
  FogDensity : ℚ := 0
  WindStrength : ℚ := 1 / 5
  SkyTint : FLinearColor := FLinearColor.White
  FogColor : FLinearColor := { R := 7 / 10, G := 4 / 5, B := 9 / 10, A := 1 }
  LightIntensity : ℚ := 1
  LightColor : FLinearColor := FLinearColor.White
  Temperature : ℚ := 1 / 2
deriving DecidableEq, Repr

/-- `FTimeOfDaySettings`. -/
structure FTimeOfDaySettings where
  CurrentHour : ℚ := 12
  SunAngle : ℚ := 45
  SunColor : FLinearColor := { R := 1, G := 9 / 10, B := 4 / 5, A := 1 }
  MoonColor : FLinearColor := { R := 4 / 5, G := 9 / 10, B := 1, A := 1 }
  SunIntensity : ℚ := 3
  MoonIntensity : ℚ := 1 / 2
deriving DecidableEq, Repr

/-- A broadcast on one of the weather system's two delegates, `OnWeatherChanged`
and `OnTimeOfDayChanged`. -/
inductive WeatherEvent where
  | WeatherChanged (NewWeather PreviousWeather : EWeatherType)
  | TimeOfDayChanged (NewTimeOfDay : ETimeOfDay) (CurrentHour : ℚ)
deriving DecidableEq, Repr

/-- `ADynamicWeatherSystem`: settings and private members, with the default
member initialisers of the header (the constructor sets the weather type to
`Clear` and the hour to `12`, which are the defaults already).  `Events` is the
log of broadcasts. -/
structure ADynamicWeatherSystem where
  CurrentWeatherSettings : FWeatherSettings := {}
  TimeOfDaySettings : FTimeOfDaySettings := {}
  bDynamicWeather : Bool := true
  WeatherTransitionSpeed : ℚ := 1
  WeatherChangeInterval : ℚ := 120
  bDynamicTimeOfDay : Bool := true
  DayDuration : ℚ := 600
  TargetWeatherSettings : FWeatherSettings := {}
  WeatherTransitionTimer : ℚ := 0
  WeatherTransitionDuration : ℚ := 5
  bWeatherTransitioning : Bool := false
  LastWeatherChangeTime : ℚ := 0
  CurrentTimeOfDay : ETimeOfDay := ETimeOfDay.Noon
  PreviousTimeOfDay : ETimeOfDay := ETimeOfDay.Noon
  Events : List WeatherEvent := []
deriving DecidableEq, Repr

/-! ## `DynamicWeatherSystem.cpp` -/

/-- `FMath::Fmod(X, Y)`: `X - Y * trunc(X / Y)`. -/
def Fmod (X Y : ℚ) : ℚ :=
  let Quotient := X / Y
  let IntPortion : Int := if Quotient ≥ 0 then ⌊Quotient⌋ else ⌈Quotient⌉
  X - Y * IntPortion

/-- `FMath::Lerp(A, B, Alpha)`: `A + Alpha * (B - A)`. -/
def Lerp (A B Alpha : ℚ) : ℚ :=
  A + Alpha * (B - A)

/-- `FMath::Lerp` on `FLinearColor`: the same expression on each channel. -/
def FLinearColor.Lerp (A B : FLinearColor) (Alpha : ℚ) : FLinearColor :=
  { R := EcosystemSandbox.Lerp A.R B.R Alpha
    G := EcosystemSandbox.Lerp A.G B.G Alpha
    B := EcosystemSandbox.Lerp A.B B.B Alpha
    A := EcosystemSandbox.Lerp A.A B.A Alpha }

/-- `ADynamicWeatherSystem::SetWeather`.  The `switch` has no case for
`Overcast`. -/
def ADynamicWeatherSystem.SetWeather (s : ADynamicWeatherSystem) (NewWeather : EWeatherType)
    (TransitionTime : ℚ) : ADynamicWeatherSystem :=
  if NewWeather = s.CurrentWeatherSettings.WeatherType then s
  else
    let PreviousWeather := s.CurrentWeatherSettings.WeatherType
    let Target : FWeatherSettings := s.CurrentWeatherSettings
    let Target : FWeatherSettings := { Target with WeatherType := NewWeather }
    let Target : FWeatherSettings :=
      match NewWeather with
      | EWeatherType.Clear =>
        { Target with
          CloudCoverage := 1 / 10, RainIntensity := 0, FogDensity := 0, LightIntensity := 3,
          SkyTint := { R := 1 / 2, G := 7 / 10, B := 1, A := 1 }, Temperature := 7 / 10 }
      | EWeatherType.Cloudy =>
        { Target with
          CloudCoverage := 3 / 5, RainIntensity := 0, FogDensity := 1 / 10, LightIntensity := 2,
          SkyTint := { R := 3 / 5, G := 7 / 10, B := 4 / 5, A := 1 }, Temperature := 1 / 2 }
      | EWeatherType.LightRain =>
        { Target with
          CloudCoverage := 4 / 5, RainIntensity := 3 / 10, FogDensity := 1 / 5,
          LightIntensity := 3 / 2,
          SkyTint := { R := 2 / 5, G := 1 / 2, B := 3 / 5, A := 1 }, Temperature := 2 / 5 }
      | EWeatherType.HeavyRain =>
        { Target with
          CloudCoverage := 1, RainIntensity := 4 / 5, FogDensity := 2 / 5,
          LightIntensity := 4 / 5,
          SkyTint := { R := 3 / 10, G := 2 / 5, B := 1 / 2, A := 1 }, Temperature := 3 / 10 }
      | EWeatherType.Storm =>
        { Target with
          CloudCoverage := 1, RainIntensity := 1, FogDensity := 3 / 10, LightIntensity := 1 / 2,
          SkyTint := { R := 1 / 5, G := 3 / 10, B := 2 / 5, A := 1 }, WindStrength := 4 / 5,
          Temperature := 1 / 5 }
      | EWeatherType.Fog =>
        { Target with
          CloudCoverage := 7 / 10, RainIntensity := 0, FogDensity := 4 / 5, LightIntensity := 1,
          SkyTint := { R := 7 / 10, G := 7 / 10, B := 7 / 10, A := 1 }, Temperature := 2 / 5 }
      | EWeatherType.Snow =>
        { Target with
          CloudCoverage := 9 / 10, RainIntensity := 0, FogDensity := 1 / 5, LightIntensity := 2,
          SkyTint := { R := 4 / 5, G := 9 / 10, B := 1, A := 1 }, Temperature := 1 / 10 }
      | EWeatherType.Overcast => Target
    { s with
      TargetWeatherSettings := Target
      WeatherTransitionDuration := TransitionTime
      WeatherTransitionTimer := 0
      bWeatherTransitioning := true
      Events := s.Events ++ [WeatherEvent.WeatherChanged NewWeather PreviousWeather] }

/-- `ADynamicWeatherSystem::GetTimeOfDayEnum`. -/
def ADynamicWeatherSystem.GetTimeOfDayEnum (s : ADynamicWeatherSystem) : ETimeOfDay :=
  let Hour := s.TimeOfDaySettings.CurrentHour
  if Hour ≥ 5 ∧ Hour < 7 then ETimeOfDay.Dawn
  else if Hour ≥ 7 ∧ Hour < 11 then ETimeOfDay.Morning
  else if Hour ≥ 11 ∧ Hour < 14 then ETimeOfDay.Noon
  else if Hour ≥ 14 ∧ Hour < 18 then ETimeOfDay.Afternoon
  else if Hour ≥ 18 ∧ Hour < 20 then ETimeOfDay.Dusk
  else ETimeOfDay.Night

/-- `ADynamicWeatherSystem::GetTemperatureEffect`. -/
def ADynamicWeatherSystem.GetTemperatureEffect (s : ADynamicWeatherSystem) : ℚ :=
  s.CurrentWeatherSettings.Temperature

/-- `ADynamicWeatherSystem::GetVisibilityModifier`. -/
def ADynamicWeatherSystem.GetVisibilityModifier (s : ADynamicWeatherSystem) : ℚ :=
  let Visibility : ℚ := 1
  let Visibility := Visibility - s.CurrentWeatherSettings.FogDensity * (7 / 10)
  let Visibility := Visibility - s.CurrentWeatherSettings.RainIntensity * (3 / 10)
  let Visibility := Visibility - s.CurrentWeatherSettings.CloudCoverage * (1 / 5)
  let CurrentTime := s.GetTimeOfDayEnum
  let Visibility :=
    if CurrentTime = ETimeOfDay.Night ∨ CurrentTime = ETimeOfDay.Dawn then Visibility * (3 / 10)
    else Visibility
  Clamp Visibility (1 / 10) 1

/-- `ADynamicWeatherSystem::GetMovementModifier`. -/
def ADynamicWeatherSystem.GetMovementModifier (s : ADynamicWeatherSystem) : ℚ :=
  let Movement : ℚ := 1
  let Movement := Movement - s.CurrentWeatherSettings.RainIntensity * (1 / 5)
  let Movement := Movement - s.CurrentWeatherSettings.WindStrength * (1 / 10)
  let Movement := Movement - s.CurrentWeatherSettings.FogDensity * (1 / 10)
  let Movement :=
    if s.CurrentWeatherSettings.Temperature < 3 / 10 then Movement * (9 / 10)
    else if s.CurrentWeatherSettings.Temperature > 4 / 5 then Movement * (19 / 20)
    else Movement
  Clamp Movement (1 / 2) 1

/-- `ADynamicWeatherSystem::UpdateTimeOfDay`. -/
def ADynamicWeatherSystem.UpdateTimeOfDay (s : ADynamicWeatherSystem) (DeltaTime : ℚ) :
    ADynamicWeatherSystem :=
  let HourIncrement := (24 / s.DayDuration) * DeltaTime
  let s : ADynamicWeatherSystem :=
    { s with TimeOfDaySettings :=
        { s.TimeOfDaySettings with CurrentHour := s.TimeOfDaySettings.CurrentHour + HourIncrement } }
  let s : ADynamicWeatherSystem :=
    if s.TimeOfDaySettings.CurrentHour ≥ 24 then
      { s with TimeOfDaySettings :=
          { s.TimeOfDaySettings with CurrentHour := s.TimeOfDaySettings.CurrentHour - 24 } }
    else s
  let NewTimeOfDay := s.GetTimeOfDayEnum
  if NewTimeOfDay ≠ s.CurrentTimeOfDay then
    { s with
      PreviousTimeOfDay := s.CurrentTimeOfDay
      CurrentTimeOfDay := NewTimeOfDay
      Events := s.Events ++
        [WeatherEvent.TimeOfDayChanged NewTimeOfDay s.TimeOfDaySettings.CurrentHour] }
  else s

/-- `ADynamicWeatherSystem::SetTimeOfDay` (moving the sun is rendering only). -/
def ADynamicWeatherSystem.SetTimeOfDay (s : ADynamicWeatherSystem) (Hour : ℚ) :
    ADynamicWeatherSystem :=
  { s with TimeOfDaySettings := { s.TimeOfDaySettings with CurrentHour := Fmod Hour 24 } }

/-- `ADynamicWeatherSystem::GenerateRandomWeather`, with `Raw` the raw draw of
its `RandRange` call.  The list is never empty, so the index is always in
range. -/
def ADynamicWeatherSystem.GenerateRandomWeather (s : ADynamicWeatherSystem) (Raw : Nat) :
    EWeatherType :=
  let PossibleWeathers : List EWeatherType :=
    match s.CurrentWeatherSettings.WeatherType with
    | EWeatherType.Clear => [EWeatherType.Clear, EWeatherType.Cloudy, EWeatherType.Fog]
    | EWeatherType.Cloudy =>
      [EWeatherType.Clear, EWeatherType.Cloudy, EWeatherType.LightRain, EWeatherType.Overcast]
    | EWeatherType.LightRain =>
      [EWeatherType.Cloudy, EWeatherType.LightRain, EWeatherType.HeavyRain]
    | EWeatherType.HeavyRain =>
      [EWeatherType.LightRain, EWeatherType.HeavyRain, EWeatherType.Storm]
    | _ => [EWeatherType.Clear, EWeatherType.Cloudy, EWeatherType.LightRain]
  let RandomIndex := RandRange 0 ((PossibleWeathers.length : Int) - 1) Raw
  PossibleWeathers.getD RandomIndex.toNat EWeatherType.Clear

/-- The first block of `UpdateWeatherEffects`, `Handle weather transitions`.
`WindStrength` is not among the interpolated members. -/
def ADynamicWeatherSystem.HandleWeatherTransition (s : ADynamicWeatherSystem) (DeltaTime : ℚ) :
    ADynamicWeatherSystem :=
  if s.bWeatherTransitioning then
    let s : ADynamicWeatherSystem :=
      { s with WeatherTransitionTimer := s.WeatherTransitionTimer + DeltaTime }
    let Alpha := s.WeatherTransitionTimer / s.WeatherTransitionDuration
    if Alpha ≥ 1 then
      let s : ADynamicWeatherSystem := { s with bWeatherTransitioning := false }
      { s with CurrentWeatherSettings := s.TargetWeatherSettings }
    else
      let Current := s.CurrentWeatherSettings
      let Target := s.TargetWeatherSettings
      { s with CurrentWeatherSettings :=
          { Current with
            CloudCoverage := Lerp Current.CloudCoverage Target.CloudCoverage Alpha
            RainIntensity := Lerp Current.RainIntensity Target.RainIntensity Alpha
            FogDensity := Lerp Current.FogDensity Target.FogDensity Alpha
            LightIntensity := Lerp Current.LightIntensity Target.LightIntensity Alpha
            SkyTint := FLinearColor.Lerp Current.SkyTint Target.SkyTint Alpha
            Temperature := Lerp Current.Temperature Target.Temperature Alpha } }
  else s

/-- The second block of `UpdateWeatherEffects`, `Random weather changes`;
`CurrentTime` is `GetWorld()->GetTimeSeconds()` and `Raw` the raw draw of
`GenerateRandomWeather`. -/
def ADynamicWeatherSystem.RandomWeatherChange (s : ADynamicWeatherSystem) (CurrentTime : ℚ)
    (Raw : Nat) : ADynamicWeatherSystem :=
  if CurrentTime - s.LastWeatherChangeTime > s.WeatherChangeInterval then
    let NewWeather := s.GenerateRandomWeather Raw
    let s := s.SetWeather NewWeather 10
    { s with LastWeatherChangeTime := CurrentTime }
  else s

/-- `ADynamicWeatherSystem::UpdateWeatherEffects`. -/
def ADynamicWeatherSystem.UpdateWeatherEffects (s : ADynamicWeatherSystem) (DeltaTime : ℚ)
    (CurrentTime : ℚ) (Raw : Nat) : ADynamicWeatherSystem :=
  let s := s.HandleWeatherTransition DeltaTime
  s.RandomWeatherChange CurrentTime Raw

/-- `ADynamicWeatherSystem::Tick`; the sun, sky light, particle and material
updates that follow are rendering only. -/
def ADynamicWeatherSystem.Tick (s : ADynamicWeatherSystem) (DeltaTime : ℚ) (CurrentTime : ℚ)
    (Raw : Nat) : ADynamicWeatherSystem :=
  let s := if s.bDynamicTimeOfDay then s.UpdateTimeOfDay DeltaTime else s
  if s.bDynamicWeather then s.UpdateWeatherEffects DeltaTime CurrentTime Raw else s

/-- What a creature reads from this weather system in its
`UpdateWeatherEffects`. -/
def ADynamicWeatherSystem.Readings (s : ADynamicWeatherSystem) : WeatherReadings :=
  { TemperatureEffect := s.GetTemperatureEffect
    VisibilityModifier := s.GetVisibilityModifier
    MovementModifier := s.GetMovementModifier }

/-! ## Auxiliary notions for stating properties of the resource field, the
weather system and creature ticks -/

/-- One call on the resource field: `DamageFoliage`, `ConsumeFoliage`,
`RegenerateDestroyedFoliage` or the actor's `Tick`. -/
inductive FieldOperation where
  | Damage (Dist : FVector → FVector → ℚ) (Location : FVector) (Radius Damage : ℚ)
  | Consume (Dist : FVector → FVector → ℚ) (Location : FVector) (ConsumeRadius : ℚ)
  | Regrow
  | Tick (WorldTime : ℚ)

/-- The field after one call. -/
def ANaniteEnvironment.Apply (e : ANaniteEnvironment) : FieldOperation → ANaniteEnvironment
  | FieldOperation.Damage Dist Location Radius Damage =>
    (e.DamageFoliage Dist Location Radius Damage).1
  | FieldOperation.Consume Dist Location ConsumeRadius =>
    (e.ConsumeFoliage Dist Location ConsumeRadius).1
  | FieldOperation.Regrow => e.RegenerateDestroyedFoliage
  | FieldOperation.Tick WorldTime => e.Tick WorldTime

/-- The field after a sequence of calls, in order. -/
def ANaniteEnvironment.Run (e : ANaniteEnvironment) (Ops : List FieldOperation) :
    ANaniteEnvironment :=
  Ops.foldl ANaniteEnvironment.Apply e

/-- An instance is active: not destroyed, with health left. -/
def FFoliageInstanceData.IsActive (Instance : FFoliageInstanceData) : Prop :=
  Instance.bIsDestroyed = false ∧ 0 < Instance.Health

/-- An instance is destroyed and counting down to its regrowth. -/
def FFoliageInstanceData.IsRegrowing (Instance : FFoliageInstanceData) : Prop :=
  Instance.bIsDestroyed = true ∧ 0 < Instance.TimeUntilRegrowth

instance (Instance : FFoliageInstanceData) : Decidable Instance.IsActive := by
  unfold FFoliageInstanceData.IsActive
  infer_instance

instance (Instance : FFoliageInstanceData) : Decidable Instance.IsRegrowing := by
  unfold FFoliageInstanceData.IsRegrowing
  infer_instance

/-- The position and category of every instance of the field, in order. -/
def ANaniteEnvironment.Sites (e : ANaniteEnvironment) : List (FTransform × Nat) :=
  e.FoliageInstances.map (fun Instance => (Instance.Transform, Instance.FoliageType))

/-- One tick of the weather system: its length, the world time that
`GetWorld()->GetTimeSeconds()` returns during it and the raw draw available to
`GenerateRandomWeather`. -/
structure WeatherTick where
  DeltaTime : ℚ
  CurrentTime : ℚ
  Raw : Nat
deriving DecidableEq, Repr

/-- The weather system after a sequence of ticks, in order. -/
def ADynamicWeatherSystem.RunTicks (s : ADynamicWeatherSystem) (Ticks : List WeatherTick) :
    ADynamicWeatherSystem :=
  Ticks.foldl (fun s t => s.Tick t.DeltaTime t.CurrentTime t.Raw) s

/-- The tick time accumulated over a sequence of ticks. -/
def WeatherTick.Elapsed (Ticks : List WeatherTick) : ℚ :=
  (Ticks.map (fun t => t.DeltaTime)).sum

/-- During the tick `t` the random weather change of `UpdateWeatherEffects`
does not come due, so the tick makes no call of `SetWeather`. -/
def ADynamicWeatherSystem.Quiet (s : ADynamicWeatherSystem) (t : WeatherTick) : Prop :=
  ¬ (t.CurrentTime - s.LastWeatherChangeTime > s.WeatherChangeInterval)

instance (s : ADynamicWeatherSystem) (t : WeatherTick) : Decidable (s.Quiet t) := by
  unfold ADynamicWeatherSystem.Quiet
  infer_instance

/-- One tick of a creature: its length, the weather readings (`none` without a
weather system) and whether the perception component exists. -/
structure CreatureTick where
  DeltaTime : ℚ
  Weather : Option WeatherReadings
  bPerception : Bool
deriving DecidableEq, Repr

/-- The creature after a sequence of ticks, in order. -/
def ACreature.RunTicks (c : ACreature) (Ticks : List CreatureTick) : ACreature :=
  Ticks.foldl (fun c t => (c.Tick t.DeltaTime t.Weather t.bPerception).1) c

/-- The tick time accumulated over a sequence of creature ticks. -/
def CreatureTick.Elapsed (Ticks : List CreatureTick) : ℚ :=
  (Ticks.map (fun t => t.DeltaTime)).sum

/-- The manager after the broadcasts `Events` of the creature `Sender` have
reached the two handlers that `SpawnCreature` binds to a creature's delegates. -/
def AEcosystemManager.Receive (m : AEcosystemManager) (Sender : ACreature) :
    List CreatureEvent → AEcosystemManager
  | [] => m
  | CreatureEvent.Death _ FitnessScore :: Rest =>
    AEcosystemManager.Receive (m.OnCreatureDeath (some Sender) FitnessScore) Sender Rest
  | CreatureEvent.Reproduction _ _ OffspringGenes :: Rest =>
    AEcosystemManager.Receive (m.OnCreatureReproduction OffspringGenes) Sender Rest

/-! ## Auxiliary notions for stating properties of the manager -/

/-- Spawning one creature per genome of `Genes`, in order. -/
def AEcosystemManager.SpawnAll (m : AEcosystemManager) (Genes : List FCreatureGenes) :
    AEcosystemManager :=
  Genes.foldl AEcosystemManager.SpawnCreature m

/-- The number of creatures of `ActiveCreatures` for which `IsValid` holds. -/
def AEcosystemManager.ValidCount (m : AEcosystemManager) : Nat :=
  (m.ActiveCreatures.filter (fun c => c.bValid)).length

/-- The elite count that `AdvanceGeneration` computes from the selected parents. -/
def AEcosystemManager.EliteCount (m : AEcosystemManager) : Int :=
  RoundToInt ((m.SelectParentsForReproduction.length : ℚ) * m.ElitePercentage)

/-- The draws `d` let the `Ensure different parents` loop end, for `Num`
parents: there is at most one parent, or one of the raw draws for the second
index gives an index other than the first. -/
def BreedDraws.Distinct (Num : Int) (d : BreedDraws) : Prop :=
  Num ≤ 1 ∨ ∃ Raw ∈ d.Parent2 :: d.Redraws,
    RandRange 0 (Num - 1) Raw ≠ RandRange 0 (Num - 1) d.Parent1

instance (Num : Int) (d : BreedDraws) : Decidable (d.Distinct Num) := by
  unfold BreedDraws.Distinct
  infer_instance

/-- The draws supplied to `AdvanceGeneration` are enough for it to return: one
entry for each offspring still to breed after the elite, each letting the
redraw loop end. -/
def AEcosystemManager.DrawsSuffice (m : AEcosystemManager) (Draws : List BreedDraws) : Prop :=
  (m.InitialPopulation - m.EliteCount).toNat ≤ Draws.length ∧
    ∀ d ∈ Draws, d.Distinct (m.SelectParentsForReproduction.length : Int)

/-- An offspring genome `g` bred from the parents `ParentGenes` with the draws
`d`: the crossover of two of the parents, then mutated. -/
def BredFrom (ParentGenes : List FCreatureGenes) (MutationRate MutationStrength : ℚ)
    (d : BreedDraws) (g : FCreatureGenes) : Prop :=
  ∃ Genes1 ∈ ParentGenes, ∃ Genes2 ∈ ParentGenes,
    g = (FCreatureGenes.Crossover Genes1 Genes2 d.Crossover).Mutate MutationRate
      MutationStrength d.Mutate

/-- The state in which a completed `AdvanceGeneration` leaves the manager when
the new cohort carries the genomes `Cohort`, in spawn order. -/
def AEcosystemManager.NextGeneration (m : AEcosystemManager) (Cohort : List FCreatureGenes) :
    AEcosystemManager :=
  let Started : AEcosystemManager := { m with
    bGenerationInProgress := true
    CurrentStats := { m.CurrentStats with Generation := m.CurrentStats.Generation + 1 }
    ActiveCreatures := [] }
  let Spawned := Started.SpawnAll Cohort
  { Spawned with
    CurrentGenerationTime := 0
    bGenerationInProgress := false
    Events := Spawned.Events ++ [ManagerEvent.GenerationComplete Spawned.CurrentStats.Generation] }

/-! ## Concrete inputs used by the closed statements below -/

/-- Draws of `Mutate` under which no roll passes a rate of at most `1/2`: every
unit draw is `1/2`, every raw draw `0`. -/
def HalfMutateDraws : MutateDraws :=
  { Size := ⟨1 / 2, 1 / 2⟩
    Speed := ⟨1 / 2, 1 / 2⟩
    Strength := ⟨1 / 2, 1 / 2⟩
    Endurance := ⟨1 / 2, 1 / 2⟩
    MovementType := ⟨1 / 2, 0⟩
    AggressionLevel := ⟨1 / 2, 0⟩
    ReproductionRate := ⟨1 / 2, 1 / 2⟩
    LifeSpan := ⟨1 / 2, 1 / 2⟩
    Intelligence := ⟨1 / 2, 1 / 2⟩
    VisionRange := ⟨1 / 2, 1 / 2⟩
    SocialTendency := ⟨1 / 2, 1 / 2⟩
    HungerResistance := ⟨1 / 2, 1 / 2⟩
    DamageResistance := ⟨1 / 2, 1 / 2⟩
    PrimaryColor := ⟨1 / 2, FLinearColor.White⟩
    SecondaryColor := ⟨1 / 2, FLinearColor.White⟩ }

/-- Draws of `Crossover` with every unit draw `1/2`: every trait comes from the
second parent. -/
def HalfCrossoverDraws : CrossoverDraws :=
  { Size := 1 / 2
    Speed := 1 / 2
    Strength := 1 / 2
    Endurance := 1 / 2
    MovementType := 1 / 2
    AggressionLevel := 1 / 2
    ReproductionRate := 1 / 2
    LifeSpan := 1 / 2
    Intelligence := 1 / 2
    VisionRange := 1 / 2
    SocialTendency := 1 / 2
    HungerResistance := 1 / 2
    DamageResistance := 1 / 2
    PrimaryColor := 1 / 2
    SecondaryColor := 1 / 2 }

/-- A genome whose size, `7`, lies above its declared maximum `5`; every other
trait has its default. -/
def OversizedGenes : FCreatureGenes := { Size := 7 }

/-- A creature as `SpawnActor` constructs it, before any genes are applied. -/
def NewCreature (Id : Nat) : ACreature := { Id := Id }

/-- A manager with the default configuration except for an elite percentage of
`60%`, holding `200` live creatures (the default `MaxPopulation`). -/
def CrowdedManager : AEcosystemManager :=
  { CreatureClass := true
    ElitePercentage := 3 / 5
    ActiveCreatures := (List.range 200).map NewCreature
    NextId := 200 }

/-- A manager with the default configuration holding a single live creature. -/
def LoneCreatureManager : AEcosystemManager :=
  { CreatureClass := true
    ActiveCreatures := [NewCreature 0]
    NextId := 1 }

/-- Draws of one offspring whose two parent draws give the indices `0` and `1`
when there are at least two parents. -/
def PairBreedDraws : BreedDraws :=
  { Parent1 := 0
    Parent2 := 1
    Redraws := []
    Crossover := HalfCrossoverDraws
    Mutate := HalfMutateDraws }

/-- A manager with the default configuration except for an initial population
of `3`, holding two live creatures. -/
def PairManager : AEcosystemManager :=
  { CreatureClass := true
    InitialPopulation := 3
    ActiveCreatures := [NewCreature 0, NewCreature 1]
    NextId := 2 }

/-- Three draws for the offspring loop, enough for `PairManager`. -/
def PairManagerDraws : List BreedDraws := [PairBreedDraws, PairBreedDraws, PairBreedDraws]

/-- The manager `PairManager` while a generation advance is in progress. -/
def BusyManager : AEcosystemManager := { PairManager with bGenerationInProgress := true }

/-- Draws of `GenerateRandom` with every unit draw `1/2` and every raw draw `0`. -/
def HalfGenerateDraws : GenerateDraws :=
  { Size := 1 / 2
    Speed := 1 / 2
    Strength := 1 / 2
    Endurance := 1 / 2
    MovementType := 0
    AggressionLevel := 0
    ReproductionRate := 1 / 2
    LifeSpan := 1 / 2
    Intelligence := 1 / 2
    VisionRange := 1 / 2
    SocialTendency := 1 / 2
    HungerResistance := 1 / 2
    DamageResistance := 1 / 2
    PrimaryColor := FLinearColor.White
    SecondaryColor := FLinearColor.Gray }

/-- The manager right after `InitializeEcosystem` with the default configuration
(`InitialPopulation = 50`, `MinPopulation = 10`, `MaxPopulation = 200`,
auto-advance on, time limit `300`) and the creature class set. -/
def FreshManager : AEcosystemManager :=
  ({ CreatureClass := true } : AEcosystemManager).InitializeEcosystem (fun _ => HalfGenerateDraws)

/-- Draws for the `45` offspring of a generation advance from `50` creatures with
the default elite percentage. -/
def FortyFiveDraws : List BreedDraws := List.replicate 45 PairBreedDraws

/-- A manager with the default configuration, `20` seconds into a generation,
whose statistics were last refreshed at world time `20` with `11` live
creatures and which now holds `10` live creatures (one has died since). -/
def StaleStatsManager : AEcosystemManager :=
  { CreatureClass := true
    CurrentStats := { TotalPopulation := 11 }
    ActiveCreatures := (List.range 10).map NewCreature
    CurrentGenerationTime := 20
    LastStatsUpdateTime := 20
    NextId := 50 }

/-- The state of a default-configured manager whose cached population statistic
is still the `0` that `InitializeEcosystem` left, while `50` valid creatures are
live. -/
structure AEcosystemManager.StaleAfterInitialize (m : AEcosystemManager) : Prop where
  bAutoGenerationAdvance : m.bAutoGenerationAdvance = true
  TotalPopulation : m.CurrentStats.TotalPopulation = 0
  MinPopulation : m.MinPopulation = 10
  MaxPopulation : m.MaxPopulation = 200
  GenerationTimeLimit : m.GenerationTimeLimit = 300
  bGenerationInProgress : m.bGenerationInProgress = false
  CreatureClass : m.CreatureClass = true
  Valid : ∀ c ∈ m.ActiveCreatures, c.bValid = true
  Live : m.ActiveCreatures.length = 50
  ElitePercentage : m.ElitePercentage = 1 / 5
  InitialPopulation : m.InitialPopulation = 50
  LastStatsUpdateTime : m.LastStatsUpdateTime = 0
  StatsUpdateInterval : m.StatsUpdateInterval = 1

/-- A manager with the default configuration and the creature class set whose
creatures have all died: no live creature is left. -/
def ExtinctManager : AEcosystemManager := { CreatureClass := true }

/-- A creature initialised with the default genome (lifespan `30`, so maturity
age `6`) that has reached exactly its maturity age, with energy `51`, hunger
`0`, cooldown `0` and health `100`. -/
def MatureCreature : ACreature :=
  { (NewCreature 0).InitializeWithGenes {} with Age := 6, Energy := 51 }

/-- A second mature creature, identity `1`. -/
def MatureMate : ACreature :=
  { (NewCreature 1).InitializeWithGenes {} with Age := 6, Energy := 51 }

/-- A creature as `MatureCreature` but with energy exactly `50`. -/
def TiredCreature : ACreature := { MatureCreature with Energy := 50 }

/-- A creature with the default genome (damage resistance `1`) and health `5`. -/
def WoundedCreature : ACreature := { (NewCreature 0).InitializeWithGenes {} with Health := 5 }

/-- An attacker with the default genome and no combat wins yet, identity `1`. -/
def AttackerCreature : ACreature := (NewCreature 1).InitializeWithGenes {}

/-- A healthy creature with the default genome, full energy and health, whose
reproduction cooldown has `0.05` seconds left. -/
def CoolingCreature : ACreature :=
  { (NewCreature 0).InitializeWithGenes {} with ReproductionCooldown := 1 / 20 }

/-- A creature with the default genome, full health and no energy left. -/
def ExhaustedCreature : ACreature := { (NewCreature 0).InitializeWithGenes {} with Energy := 0 }

/-- A creature with the default genome, no energy left and health `0.5`. -/
def StarvingCreature : ACreature :=
  { (NewCreature 0).InitializeWithGenes {} with Energy := 0, Health := 1 / 2 }

/-- A creature with the default genome and energy `3`. -/
def WearyCreature : ACreature := { (NewCreature 0).InitializeWithGenes {} with Energy := 3 }

/-- Weather readings at a comfortable temperature with poor visibility. -/
def FoggyWeather : WeatherReadings :=
  { TemperatureEffect := 1 / 2, VisibilityModifier := 3 / 10, MovementModifier := 1 }

/-- A ledger of two entries, recorded fitness `10` and `40`. -/
def TwoRecordManager : AEcosystemManager :=
  { CreatureHistory := [{ FitnessScore := 10 }, { FitnessScore := 40 }] }

/-- The distance between two points of the X axis; for such points this is
`FVector::Dist`. -/
def AxisDist (A B : FVector) : ℚ := |A.X - B.X|

/-- A resource field with one configured category, trees of nutrient value
`25`, and three trees of full health on the X axis at `0`, `50` and `300`. -/
def GroveEnvironment : ANaniteEnvironment :=
  { FoliageComponents := [EFoliageType.Tree]
    FoliageConfigs := [{ FoliageType := EFoliageType.Tree, NaniteMesh := true }]
    FoliageTypeIndices := [(EFoliageType.Tree, 0)]
    FoliageInstances :=
      [{ Transform := { Translation := { X := 0 } }, RegrowthTime := 120 },
       { Transform := { Translation := { X := 50 } }, RegrowthTime := 120 },
       { Transform := { Translation := { X := 300 } }, RegrowthTime := 120 }] }

/-- The weather system as constructed: clear sky at noon, nothing in
transition. -/
def ClearSky : ADynamicWeatherSystem := {}

/-- A weather system at midnight with fog density `1` and neither rain nor
clouds. -/
def NightFog : ADynamicWeatherSystem :=
  { CurrentWeatherSettings := { FogDensity := 1 }
    TimeOfDaySettings := { CurrentHour := 0 } }

/-- A weather system at midnight under a clear sky. -/
def ClearNight : ADynamicWeatherSystem :=
  { TimeOfDaySettings := { CurrentHour := 0 } }

/-- A cold storm: rain `1`, wind `0.8`, fog `0.3`, temperature `0.2`. -/
def ColdStorm : ADynamicWeatherSystem :=
  { CurrentWeatherSettings :=
      { WeatherType := EWeatherType.Storm
        CloudCoverage := 1
        RainIntensity := 1
        FogDensity := 3 / 10
        WindStrength := 4 / 5
        Temperature := 1 / 5 } }

/-- A weather system at noon whose day lasts one second. -/
def FastDay : ADynamicWeatherSystem := { DayDuration := 1 }

/-- A creature with the default genome, full energy, no hunger and health
`50`. -/
def RestedCreature : ACreature := { (NewCreature 0).InitializeWithGenes {} with Health := 50 }

/-- Weather readings at the comfortable temperature `0.5` with full visibility
and unhindered movement. -/
def MildWeather : WeatherReadings :=
  { TemperatureEffect := 1 / 2, VisibilityModifier := 1, MovementModifier := 1 }

/-- The default genome with hunger resistance `2`. -/
def HardyGenes : FCreatureGenes := { HungerResistance := 2 }

/-- A creature initialised with `HardyGenes`: no hunger yet. -/
def HardyCreature : ACreature := (NewCreature 0).InitializeWithGenes HardyGenes

/-- A manager whose only live creature is `StarvingCreature`, with an empty
ledger. -/
def StarvingManager : AEcosystemManager :=
  { CreatureClass := true, ActiveCreatures := [StarvingCreature], NextId := 1 }

/-! ## Genetics engine: properties -/

theorem Clamp_mem (X Min Max : ℚ) (h : Min ≤ Max) :
    Min ≤ Clamp X Min Max ∧ Clamp X Min Max ≤ Max := by
  unfold Clamp
  split_ifs with h1 h2
  · exact ⟨le_refl _, h⟩
  · exact ⟨not_lt.mp h1, le_of_lt h2⟩
  · exact ⟨h, le_refl _⟩

theorem MutateFloat_mem (Rate Strength Value Min Max : ℚ) (d : FloatDraw) (h : Min ≤ Max)
    (hv : Min ≤ Value ∧ Value ≤ Max) :
    Min ≤ MutateFloat Rate Strength Value Min Max d ∧
      MutateFloat Rate Strength Value Min Max d ≤ Max := by
  unfold MutateFloat
  split_ifs
  · exact Clamp_mem _ _ _ h
  · exact hv

theorem RandRange_zero_four (Raw : Nat) : (RandRange 0 4 Raw).toNat % 256 ≤ 4 := by
  unfold RandRange
  simp only [sub_zero, zero_add]
  norm_num
  have h1 : (0 : Int) ≤ (Raw : Int) % 5 := Int.emod_nonneg _ (by norm_num)
  have h2 : (Raw : Int) % 5 < 5 := Int.emod_lt_of_pos _ (by norm_num)
  omega

theorem EMovementType_isEnumerator_of_le (v : Nat) (h : v ≤ 4) :
    EMovementType.IsEnumerator v := by
  unfold EMovementType.IsEnumerator EMovementType.Walker EMovementType.Flyer
    EMovementType.Swimmer EMovementType.Crawler EMovementType.Jumper
  omega

theorem EAggressionLevel_isEnumerator_of_le (v : Nat) (h : v ≤ 4) :
    EAggressionLevel.IsEnumerator v := by
  unfold EAggressionLevel.IsEnumerator EAggressionLevel.Peaceful EAggressionLevel.Defensive
    EAggressionLevel.Territorial EAggressionLevel.Aggressive EAggressionLevel.Predatory
  omega

theorem default_genes_inBounds : ({} : FCreatureGenes).InBounds := by
  constructor <;> constructor <;> norm_num

/-- C1, as stated, fails: with mutation rate `1/10` and every roll `1/2` no trait
is touched, so a genome whose size `7` is above the maximum `5` still has size
`7` after `Mutate` and is not within bounds. -/
theorem Mutate_out_of_bounds_stays :
    (OversizedGenes.Mutate (1 / 10) (1 / 5) HalfMutateDraws).Size = 7 ∧
      ¬ (OversizedGenes.Mutate (1 / 10) (1 / 5) HalfMutateDraws).InBounds := by
  have hs : (OversizedGenes.Mutate (1 / 10) (1 / 5) HalfMutateDraws).Size = 7 := by
    norm_num [FCreatureGenes.Mutate, MutateFloat, FRandRange, HalfMutateDraws, OversizedGenes]
  refine ⟨hs, fun hb => ?_⟩
  have h5 := hb.Size.2
  rw [hs] at h5
  norm_num at h5

/-- C1 (amended): for every genome whose traits are within their declared
bounds, every mutation rate and strength and every outcome of the random draws,
every numeric trait of the mutated genome lies in its declared inclusive
interval and both categorical traits are one of their five enumerators. -/
theorem Mutate_preserves_bounds (g : FCreatureGenes) (MutationRate MutationStrength : ℚ)
    (d : MutateDraws) (hg : g.InBounds) :
    (g.Mutate MutationRate MutationStrength d).InBounds := by
  constructor
  · exact MutateFloat_mem _ _ _ _ _ _ (by norm_num) hg.Size
  · exact MutateFloat_mem _ _ _ _ _ _ (by norm_num) hg.Speed
  · exact MutateFloat_mem _ _ _ _ _ _ (by norm_num) hg.Strength
  · exact MutateFloat_mem _ _ _ _ _ _ (by norm_num) hg.Endurance
  · show EMovementType.IsEnumerator (MutateEnum _ _ _ _)
    unfold MutateEnum
    split_ifs
    · exact EMovementType_isEnumerator_of_le _ (RandRange_zero_four _)
    · exact hg.MovementType
  · show EAggressionLevel.IsEnumerator (MutateEnum _ _ _ _)
    unfold MutateEnum
    split_ifs
    · exact EAggressionLevel_isEnumerator_of_le _ (RandRange_zero_four _)
    · exact hg.AggressionLevel
  · exact MutateFloat_mem _ _ _ _ _ _ (by norm_num) hg.ReproductionRate
  · exact MutateFloat_mem _ _ _ _ _ _ (by norm_num) hg.LifeSpan
  · exact MutateFloat_mem _ _ _ _ _ _ (by norm_num) hg.Intelligence
  · exact MutateFloat_mem _ _ _ _ _ _ (by norm_num) hg.VisionRange
  · exact MutateFloat_mem _ _ _ _ _ _ (by norm_num) hg.SocialTendency
  · exact MutateFloat_mem _ _ _ _ _ _ (by norm_num) hg.HungerResistance
  · exact MutateFloat_mem _ _ _ _ _ _ (by norm_num) hg.DamageResistance

/-- Witness of `Mutate_preserves_bounds`: the default genome is within bounds,
and so is its mutation with rate `1` under draws that mutate every trait. -/
theorem Mutate_preserves_bounds_witness :
    ({} : FCreatureGenes).InBounds ∧
      (({} : FCreatureGenes).Mutate 1 (1 / 5) HalfMutateDraws).InBounds :=
  ⟨default_genes_inBounds,
    Mutate_preserves_bounds {} 1 (1 / 5) HalfMutateDraws default_genes_inBounds⟩

theorem BlendFloat_eq (A B Roll : ℚ) : BlendFloat A B Roll = A ∨ BlendFloat A B Roll = B := by
  unfold BlendFloat
  split_ifs
  · exact Or.inl rfl
  · exact Or.inr rfl

theorem BlendEnum_eq (A B : Nat) (Roll : ℚ) :
    BlendEnum A B Roll = A ∨ BlendEnum A B Roll = B := by
  unfold BlendEnum
  split_ifs
  · exact Or.inl rfl
  · exact Or.inr rfl

/-- C2: for every pair of genomes and every outcome of the random draws, each of
the eleven numeric traits, both categorical traits and both colours of
`Crossover(a, b)` equals the corresponding trait of `a` or that of `b`. -/
theorem Crossover_selects_parent_trait (a b : FCreatureGenes) (d : CrossoverDraws) :
    ((a.Crossover b d).Size = a.Size ∨ (a.Crossover b d).Size = b.Size) ∧
    ((a.Crossover b d).Speed = a.Speed ∨ (a.Crossover b d).Speed = b.Speed) ∧
    ((a.Crossover b d).Strength = a.Strength ∨ (a.Crossover b d).Strength = b.Strength) ∧
    ((a.Crossover b d).Endurance = a.Endurance ∨ (a.Crossover b d).Endurance = b.Endurance) ∧
    ((a.Crossover b d).MovementType = a.MovementType ∨
      (a.Crossover b d).MovementType = b.MovementType) ∧
    ((a.Crossover b d).AggressionLevel = a.AggressionLevel ∨
      (a.Crossover b d).AggressionLevel = b.AggressionLevel) ∧
    ((a.Crossover b d).ReproductionRate = a.ReproductionRate ∨
      (a.Crossover b d).ReproductionRate = b.ReproductionRate) ∧
    ((a.Crossover b d).LifeSpan = a.LifeSpan ∨ (a.Crossover b d).LifeSpan = b.LifeSpan) ∧
    ((a.Crossover b d).Intelligence = a.Intelligence ∨
      (a.Crossover b d).Intelligence = b.Intelligence) ∧
    ((a.Crossover b d).VisionRange = a.VisionRange ∨
      (a.Crossover b d).VisionRange = b.VisionRange) ∧
    ((a.Crossover b d).SocialTendency = a.SocialTendency ∨
      (a.Crossover b d).SocialTendency = b.SocialTendency) ∧
    ((a.Crossover b d).HungerResistance = a.HungerResistance ∨
      (a.Crossover b d).HungerResistance = b.HungerResistance) ∧
    ((a.Crossover b d).DamageResistance = a.DamageResistance ∨
      (a.Crossover b d).DamageResistance = b.DamageResistance) ∧
    ((a.Crossover b d).PrimaryColor = a.PrimaryColor ∨
      (a.Crossover b d).PrimaryColor = b.PrimaryColor) ∧
    ((a.Crossover b d).SecondaryColor = a.SecondaryColor ∨
      (a.Crossover b d).SecondaryColor = b.SecondaryColor) := by
  refine ⟨BlendFloat_eq _ _ _, BlendFloat_eq _ _ _, BlendFloat_eq _ _ _, BlendFloat_eq _ _ _,
    BlendEnum_eq _ _ _, BlendEnum_eq _ _ _, BlendFloat_eq _ _ _, BlendFloat_eq _ _ _,
    BlendFloat_eq _ _ _, BlendFloat_eq _ _ _, BlendFloat_eq _ _ _, BlendFloat_eq _ _ _,
    BlendFloat_eq _ _ _, ?_, ?_⟩
  · show (if _ then _ else _) = _ ∨ (if _ then _ else _) = _
    split_ifs
    · exact Or.inl rfl
    · exact Or.inr rfl
  · show (if _ then _ else _) = _ ∨ (if _ then _ else _) = _
    split_ifs
    · exact Or.inl rfl
    · exact Or.inr rfl

/-- C3: for every genome with lifespan above zero and all arguments,
`CalculateFitness` returns the maximum of `0` and
`100*(age/lifespan) + 50*offspringCount + 0.1*resourcesGathered + 25*combatWins
+ 20*(1 - |size - 1|) + 15*intelligence + 10*endurance`; the result is never
negative. -/
theorem CalculateFitness_formula (g : FCreatureGenes) (Age : ℚ) (OffspringCount : Int)
    (ResourcesGathered : ℚ) (CombatWins : Int) (_hl : 0 < g.LifeSpan) :
    g.CalculateFitness Age OffspringCount ResourcesGathered CombatWins =
        max 0 (100 * (Age / g.LifeSpan) + 50 * (OffspringCount : ℚ) +
          (1 / 10) * ResourcesGathered + 25 * (CombatWins : ℚ) + 20 * (1 - |g.Size - 1|) +
          15 * g.Intelligence + 10 * g.Endurance) ∧
      0 ≤ g.CalculateFitness Age OffspringCount ResourcesGathered CombatWins := by
  refine ⟨?_, le_max_left _ _⟩
  unfold FCreatureGenes.CalculateFitness
  simp only []
  congr 1
  ring

/-- Witness of `CalculateFitness_formula`: the default genome (lifespan `30`) at
age `15` with two offspring, `100` resources and one combat win. -/
theorem CalculateFitness_formula_witness :
    (0 : ℚ) < ({} : FCreatureGenes).LifeSpan ∧
      ({} : FCreatureGenes).CalculateFitness 15 2 100 1 =
        max 0 (100 * (15 / ({} : FCreatureGenes).LifeSpan) + 50 * ((2 : Int) : ℚ) +
          (1 / 10) * 100 + 25 * ((1 : Int) : ℚ) + 20 * (1 - |({} : FCreatureGenes).Size - 1|) +
          15 * ({} : FCreatureGenes).Intelligence + 10 * ({} : FCreatureGenes).Endurance) :=
  ⟨by norm_num, (CalculateFitness_formula {} 15 2 100 1 (by norm_num)).1⟩

theorem CalculateFitness_eq (g : FCreatureGenes) (Age : ℚ) (OffspringCount : Int)
    (ResourcesGathered : ℚ) (CombatWins : Int) :
    g.CalculateFitness Age OffspringCount ResourcesGathered CombatWins =
      max 0 (0 + Age / g.LifeSpan * 100 + (OffspringCount : ℚ) * 50 +
        ResourcesGathered * (1 / 10) + (CombatWins : ℚ) * 25 + (1 - |g.Size - 1|) * 20 +
        g.Intelligence * 15 + g.Endurance * 10) := rfl

/-- C4: for every genome with lifespan above zero, `CalculateFitness` is
non-decreasing in each of age, offspring count, resources gathered and combat
wins, the genome and the other three arguments held fixed. -/
theorem CalculateFitness_monotone (g : FCreatureGenes) (hl : 0 < g.LifeSpan) :
    (∀ (Age Age2 : ℚ) (Offspring : Int) (Resources : ℚ) (Wins : Int), Age ≤ Age2 →
      g.CalculateFitness Age Offspring Resources Wins ≤
        g.CalculateFitness Age2 Offspring Resources Wins) ∧
    (∀ (Age : ℚ) (Offspring Offspring2 : Int) (Resources : ℚ) (Wins : Int),
      Offspring ≤ Offspring2 →
      g.CalculateFitness Age Offspring Resources Wins ≤
        g.CalculateFitness Age Offspring2 Resources Wins) ∧
    (∀ (Age : ℚ) (Offspring : Int) (Resources Resources2 : ℚ) (Wins : Int),
      Resources ≤ Resources2 →
      g.CalculateFitness Age Offspring Resources Wins ≤
        g.CalculateFitness Age Offspring Resources2 Wins) ∧
    (∀ (Age : ℚ) (Offspring : Int) (Resources : ℚ) (Wins Wins2 : Int), Wins ≤ Wins2 →
      g.CalculateFitness Age Offspring Resources Wins ≤
        g.CalculateFitness Age Offspring Resources Wins2) := by
  refine ⟨?_, ?_, ?_, ?_⟩
  · intro Age Age2 Offspring Resources Wins h
    rw [CalculateFitness_eq, CalculateFitness_eq]
    have hd : Age / g.LifeSpan ≤ Age2 / g.LifeSpan := div_le_div_of_nonneg_right h hl.le
    exact max_le_max (le_refl _) (by linarith)
  · intro Age Offspring Offspring2 Resources Wins h
    rw [CalculateFitness_eq, CalculateFitness_eq]
    have hc : (Offspring : ℚ) ≤ (Offspring2 : ℚ) := by exact_mod_cast h
    exact max_le_max (le_refl _) (by linarith)
  · intro Age Offspring Resources Resources2 Wins h
    rw [CalculateFitness_eq, CalculateFitness_eq]
    exact max_le_max (le_refl _) (by linarith)
  · intro Age Offspring Resources Wins Wins2 h
    rw [CalculateFitness_eq, CalculateFitness_eq]
    have hc : (Wins : ℚ) ≤ (Wins2 : ℚ) := by exact_mod_cast h
    exact max_le_max (le_refl _) (by linarith)

/-- Witness of `CalculateFitness_monotone`: for the default genome (lifespan
`30`), ageing from `10` to `20` does not lower the score. -/
theorem CalculateFitness_monotone_witness :
    (0 : ℚ) < ({} : FCreatureGenes).LifeSpan ∧
      ({} : FCreatureGenes).CalculateFitness 10 0 0 0 ≤
        ({} : FCreatureGenes).CalculateFitness 20 0 0 0 :=
  ⟨by norm_num, (CalculateFitness_monotone {} (by norm_num)).1 10 20 0 0 0 (by norm_num)⟩

/-! ## Population manager: spawning -/

theorem RandRange_index (Num : Int) (Raw : Nat) (h : 1 ≤ Num) :
    0 ≤ RandRange 0 (Num - 1) Raw ∧ RandRange 0 (Num - 1) Raw < Num := by
  unfold RandRange
  have hr : Num - 1 - 0 + 1 = Num := by ring
  simp only [hr, zero_add]
  rw [if_pos (by omega)]
  exact ⟨Int.emod_nonneg _ (by omega), Int.emod_lt_of_pos _ (by omega)⟩

theorem ArrayGet_ok {α : Type} (Array : List α) (Index : Int) (h0 : 0 ≤ Index)
    (h1 : Index < Array.length) : ∃ a ∈ Array, ArrayGet Array Index = Except.ok a := by
  have hlt : Index.toNat < Array.length := by omega
  refine ⟨Array[Index.toNat], List.getElem_mem _, ?_⟩
  unfold ArrayGet
  rw [if_neg (by omega), List.getElem?_eq_getElem hlt]

theorem SpawnCreature_eq (m : AEcosystemManager) (Genes : FCreatureGenes)
    (h : m.CreatureClass = true) :
    m.SpawnCreature Genes =
      { m with
        ActiveCreatures :=
          m.ActiveCreatures ++ [({ Id := m.NextId } : ACreature).InitializeWithGenes Genes]
        NextId := m.NextId + 1 } := by
  simp [AEcosystemManager.SpawnCreature, h]

theorem SpawnAll_nil (m : AEcosystemManager) : m.SpawnAll [] = m := rfl

theorem SpawnAll_cons (m : AEcosystemManager) (g : FCreatureGenes) (gs : List FCreatureGenes) :
    m.SpawnAll (g :: gs) = (m.SpawnCreature g).SpawnAll gs := rfl

theorem SpawnAll_append (m : AEcosystemManager) (gs hs : List FCreatureGenes) :
    m.SpawnAll (gs ++ hs) = (m.SpawnAll gs).SpawnAll hs := by
  simp [AEcosystemManager.SpawnAll, List.foldl_append]

theorem SpawnAll_frame (m : AEcosystemManager) (gs : List FCreatureGenes) :
    m.SpawnAll gs =
      { m with
        ActiveCreatures := (m.SpawnAll gs).ActiveCreatures
        NextId := (m.SpawnAll gs).NextId } := by
  induction gs generalizing m with
  | nil => rfl
  | cons g gs ih =>
    rw [SpawnAll_cons]
    have h := ih (m.SpawnCreature g)
    by_cases hc : m.CreatureClass = true
    · rw [SpawnCreature_eq m g hc] at h ⊢
      exact h
    · have hm : m.SpawnCreature g = m := by simp [AEcosystemManager.SpawnCreature, hc]
      rw [hm] at h ⊢
      exact h

theorem SpawnAll_genes (m : AEcosystemManager) (gs : List FCreatureGenes)
    (h : m.CreatureClass = true) :
    (m.SpawnAll gs).ActiveCreatures.map (fun c => c.Genes) =
      m.ActiveCreatures.map (fun c => c.Genes) ++ gs := by
  induction gs generalizing m with
  | nil => simp [SpawnAll_nil]
  | cons g gs ih =>
    rw [SpawnAll_cons, ih _ (by rw [SpawnCreature_eq m g h]; exact h), SpawnCreature_eq m g h]
    simp [ACreature.InitializeWithGenes, ACreature.ApplyGeneticTraits]

theorem SpawnAll_valid (m : AEcosystemManager) (gs : List FCreatureGenes)
    (hv : ∀ c ∈ m.ActiveCreatures, c.bValid = true) :
    ∀ c ∈ (m.SpawnAll gs).ActiveCreatures, c.bValid = true := by
  induction gs generalizing m with
  | nil => simpa [SpawnAll_nil] using hv
  | cons g gs ih =>
    rw [SpawnAll_cons]
    apply ih
    by_cases hc : m.CreatureClass = true
    · rw [SpawnCreature_eq m g hc]
      intro c hcm
      simp only [List.mem_append, List.mem_singleton] at hcm
      rcases hcm with hcm | hcm
      · exact hv c hcm
      · rw [hcm]
        rfl
    · have hm : m.SpawnCreature g = m := by simp [AEcosystemManager.SpawnCreature, hc]
      rw [hm]
      exact hv

theorem SpawnAll_length (m : AEcosystemManager) (gs : List FCreatureGenes)
    (h : m.CreatureClass = true) :
    (m.SpawnAll gs).ActiveCreatures.length = m.ActiveCreatures.length + gs.length := by
  have := congrArg List.length (SpawnAll_genes m gs h)
  simpa using this

/-! ## Population manager: the loops of `AdvanceGeneration` -/

theorem ArrayGet_natCast {α : Type} (Array : List α) (i : Nat) (h : i < Array.length) :
    ArrayGet Array (i : Int) = Except.ok Array[i] := by
  unfold ArrayGet
  rw [if_neg (by omega)]
  simp [List.getElem?_eq_getElem h]

theorem EliteLoop_ok (ParentGenes : List FCreatureGenes) (Count i : Nat) (m : AEcosystemManager)
    (h : i + Count ≤ ParentGenes.length) :
    AEcosystemManager.EliteLoop ParentGenes i Count m =
      Except.ok (m.SpawnAll ((ParentGenes.drop i).take Count)) := by
  induction Count generalizing i m with
  | zero => simp [AEcosystemManager.EliteLoop, SpawnAll_nil]
  | succ k ih =>
    have hi : i < ParentGenes.length := by omega
    rw [AEcosystemManager.EliteLoop, ArrayGet_natCast _ _ hi]
    simp only []
    rw [ih (i + 1) _ (by omega), List.drop_eq_getElem_cons hi, List.take_succ_cons, SpawnAll_cons]

theorem EnsureDifferentParents_ok (Parent1Index Num : Int) (hN : 1 ≤ Num)
    (Redraws : List Nat) (Parent2Index : Int)
    (h2 : 0 ≤ Parent2Index ∧ Parent2Index < Num)
    (hd : Num ≤ 1 ∨ Parent2Index ≠ Parent1Index ∨
      ∃ Raw ∈ Redraws, RandRange 0 (Num - 1) Raw ≠ Parent1Index) :
    ∃ q, EnsureDifferentParents Parent1Index Num Parent2Index Redraws = Except.ok q ∧
      0 ≤ q ∧ q < Num := by
  induction Redraws generalizing Parent2Index with
  | nil =>
    refine ⟨Parent2Index, ?_, h2.1, h2.2⟩
    rw [EnsureDifferentParents, if_neg]
    rintro ⟨he, hn⟩
    rcases hd with hd | hd | ⟨r, hr, _⟩
    · omega
    · exact hd he
    · simp at hr
  | cons Raw Rest ih =>
    rw [EnsureDifferentParents]
    by_cases hc : Parent2Index = Parent1Index ∧ Num > 1
    · rw [if_pos hc]
      apply ih _ (RandRange_index Num Raw hN)
      rcases hd with hd | hd | ⟨r, hr, hne⟩
      · omega
      · exact absurd hc.1 hd
      · rcases List.mem_cons.mp hr with hr | hr
        · exact Or.inr (Or.inl (hr ▸ hne))
        · exact Or.inr (Or.inr ⟨r, hr, hne⟩)
    · rw [if_neg hc]
      exact ⟨Parent2Index, rfl, h2.1, h2.2⟩

theorem BreedOffspring_ok (m : AEcosystemManager) (ParentGenes : List FCreatureGenes)
    (d : BreedDraws) (hP : 1 ≤ ParentGenes.length)
    (hd : d.Distinct (ParentGenes.length : Int)) :
    ∃ g, m.BreedOffspring ParentGenes d = Except.ok g ∧
      BredFrom ParentGenes m.MutationRate m.MutationStrength d g := by
  have hN : (1 : Int) ≤ (ParentGenes.length : Int) := by exact_mod_cast hP
  have h1 := RandRange_index (ParentGenes.length : Int) d.Parent1 hN
  have h2 := RandRange_index (ParentGenes.length : Int) d.Parent2 hN
  have hd2 : (ParentGenes.length : Int) ≤ 1 ∨
      RandRange 0 ((ParentGenes.length : Int) - 1) d.Parent2 ≠
        RandRange 0 ((ParentGenes.length : Int) - 1) d.Parent1 ∨
      ∃ Raw ∈ d.Redraws, RandRange 0 ((ParentGenes.length : Int) - 1) Raw ≠
        RandRange 0 ((ParentGenes.length : Int) - 1) d.Parent1 := by
    rcases hd with hd | ⟨r, hr, hne⟩
    · exact Or.inl hd
    · rcases List.mem_cons.mp hr with hr | hr
      · exact Or.inr (Or.inl (hr ▸ hne))
      · exact Or.inr (Or.inr ⟨r, hr, hne⟩)
  obtain ⟨q, hq, hq0, hq1⟩ := EnsureDifferentParents_ok _ _ hN d.Redraws _ h2 hd2
  obtain ⟨g1, hg1, hget1⟩ := ArrayGet_ok ParentGenes _ h1.1 h1.2
  obtain ⟨g2, hg2, hget2⟩ := ArrayGet_ok ParentGenes q hq0 hq1
  refine ⟨_, ?_, g1, hg1, g2, hg2, rfl⟩
  unfold AEcosystemManager.BreedOffspring
  simp only [hq, hget1, hget2]

theorem BreedOffspring_congr (m n : AEcosystemManager) (ParentGenes : List FCreatureGenes)
    (d : BreedDraws) (hr : n.MutationRate = m.MutationRate)
    (hs : n.MutationStrength = m.MutationStrength) :
    n.BreedOffspring ParentGenes d = m.BreedOffspring ParentGenes d := by
  unfold AEcosystemManager.BreedOffspring
  rw [hr, hs]

theorem BreedLoop_ok (ParentGenes : List FCreatureGenes) (hP : 1 ≤ ParentGenes.length)
    (Draws : List BreedDraws) (m : AEcosystemManager) (hc : m.CreatureClass = true)
    (hlen : (m.InitialPopulation - (m.ActiveCreatures.length : Int)).toNat ≤ Draws.length)
    (hd : ∀ d ∈ Draws, d.Distinct (ParentGenes.length : Int)) :
    ∃ Offspring : List FCreatureGenes,
      AEcosystemManager.BreedLoop ParentGenes Draws m = Except.ok (m.SpawnAll Offspring) ∧
      Offspring.length = (m.InitialPopulation - (m.ActiveCreatures.length : Int)).toNat ∧
      List.Forall₂ (BredFrom ParentGenes m.MutationRate m.MutationStrength)
        (Draws.take Offspring.length) Offspring := by
  induction Draws generalizing m with
  | nil =>
    refine ⟨[], ?_, ?_, ?_⟩
    · rw [AEcosystemManager.BreedLoop, if_neg, SpawnAll_nil]
      simp at hlen
      omega
    · simp at hlen
      simp
      omega
    · simp
  | cons d ds ih =>
    by_cases hlt : (m.ActiveCreatures.length : Int) < m.InitialPopulation
    · obtain ⟨g, hg, hbred⟩ := BreedOffspring_ok m ParentGenes d hP (hd d (List.mem_cons_self _ _))
      have hm2 := SpawnCreature_eq m g hc
      have hc2 : (m.SpawnCreature g).CreatureClass = true := by rw [hm2]; exact hc
      have hi2 : (m.SpawnCreature g).InitialPopulation = m.InitialPopulation := by rw [hm2]
      have hr2 : (m.SpawnCreature g).MutationRate = m.MutationRate := by rw [hm2]
      have hs2 : (m.SpawnCreature g).MutationStrength = m.MutationStrength := by rw [hm2]
      have hl2 : (m.SpawnCreature g).ActiveCreatures.length = m.ActiveCreatures.length + 1 := by
        rw [hm2]; simp
      have hlen2 : ((m.SpawnCreature g).InitialPopulation -
          ((m.SpawnCreature g).ActiveCreatures.length : Int)).toNat ≤ ds.length := by
        rw [hi2, hl2]
        simp only [List.length_cons] at hlen
        omega
      obtain ⟨Rest, hrun, hlenR, hall⟩ :=
        ih (m.SpawnCreature g) hc2 hlen2 (fun x hx => hd x (List.mem_cons_of_mem _ hx))
      refine ⟨g :: Rest, ?_, ?_, ?_⟩
      · rw [AEcosystemManager.BreedLoop, if_pos hlt, hg]
        simp only []
        rw [hrun, SpawnAll_cons]
      · rw [List.length_cons, hlenR, hi2, hl2]
        omega
      · rw [List.length_cons, List.take_succ_cons]
        rw [hr2, hs2] at hall
        exact List.Forall₂.cons hbred hall
    · refine ⟨[], ?_, ?_, ?_⟩
      · rw [AEcosystemManager.BreedLoop, if_neg hlt, SpawnAll_nil]
      · simp
        omega
      · simp

theorem SpawnAll_InitialPopulation (m : AEcosystemManager) (gs : List FCreatureGenes) :
    (m.SpawnAll gs).InitialPopulation = m.InitialPopulation := by
  rw [SpawnAll_frame]

theorem SpawnAll_MaxPopulation (m : AEcosystemManager) (gs : List FCreatureGenes) :
    (m.SpawnAll gs).MaxPopulation = m.MaxPopulation := by
  rw [SpawnAll_frame]

theorem SpawnAll_MinPopulation (m : AEcosystemManager) (gs : List FCreatureGenes) :
    (m.SpawnAll gs).MinPopulation = m.MinPopulation := by
  rw [SpawnAll_frame]

theorem SpawnAll_CreatureClass (m : AEcosystemManager) (gs : List FCreatureGenes) :
    (m.SpawnAll gs).CreatureClass = m.CreatureClass := by
  rw [SpawnAll_frame]

theorem SpawnAll_MutationRate (m : AEcosystemManager) (gs : List FCreatureGenes) :
    (m.SpawnAll gs).MutationRate = m.MutationRate := by
  rw [SpawnAll_frame]

theorem SpawnAll_MutationStrength (m : AEcosystemManager) (gs : List FCreatureGenes) :
    (m.SpawnAll gs).MutationStrength = m.MutationStrength := by
  rw [SpawnAll_frame]

theorem SpawnAll_ElitePercentage (m : AEcosystemManager) (gs : List FCreatureGenes) :
    (m.SpawnAll gs).ElitePercentage = m.ElitePercentage := by
  rw [SpawnAll_frame]

theorem SpawnAll_bAutoGenerationAdvance (m : AEcosystemManager) (gs : List FCreatureGenes) :
    (m.SpawnAll gs).bAutoGenerationAdvance = m.bAutoGenerationAdvance := by
  rw [SpawnAll_frame]

theorem SpawnAll_GenerationTimeLimit (m : AEcosystemManager) (gs : List FCreatureGenes) :
    (m.SpawnAll gs).GenerationTimeLimit = m.GenerationTimeLimit := by
  rw [SpawnAll_frame]

theorem SpawnAll_CurrentStats (m : AEcosystemManager) (gs : List FCreatureGenes) :
    (m.SpawnAll gs).CurrentStats = m.CurrentStats := by
  rw [SpawnAll_frame]

theorem SpawnAll_CreatureHistory (m : AEcosystemManager) (gs : List FCreatureGenes) :
    (m.SpawnAll gs).CreatureHistory = m.CreatureHistory := by
  rw [SpawnAll_frame]

theorem SpawnAll_CurrentGenerationTime (m : AEcosystemManager) (gs : List FCreatureGenes) :
    (m.SpawnAll gs).CurrentGenerationTime = m.CurrentGenerationTime := by
  rw [SpawnAll_frame]

theorem SpawnAll_LastStatsUpdateTime (m : AEcosystemManager) (gs : List FCreatureGenes) :
    (m.SpawnAll gs).LastStatsUpdateTime = m.LastStatsUpdateTime := by
  rw [SpawnAll_frame]

theorem SpawnAll_StatsUpdateInterval (m : AEcosystemManager) (gs : List FCreatureGenes) :
    (m.SpawnAll gs).StatsUpdateInterval = m.StatsUpdateInterval := by
  rw [SpawnAll_frame]

theorem SpawnAll_bGenerationInProgress (m : AEcosystemManager) (gs : List FCreatureGenes) :
    (m.SpawnAll gs).bGenerationInProgress = m.bGenerationInProgress := by
  rw [SpawnAll_frame]

theorem SpawnAll_Events (m : AEcosystemManager) (gs : List FCreatureGenes) :
    (m.SpawnAll gs).Events = m.Events := by
  rw [SpawnAll_frame]

/-! ## Population manager: parent selection -/

theorem RoundToInt_half (n : Nat) : RoundToInt ((n : ℚ) * (1 / 2)) = ((n : Int) + 1) / 2 := by
  unfold RoundToInt
  have h : (n : ℚ) * (1 / 2) + 1 / 2 = (((n : Int) + 1 : Int) : ℚ) / ((2 : Nat) : ℚ) := by
    push_cast
    ring
  rw [h, Rat.floor_intCast_div_natCast]
  rfl

theorem RoundToInt_elite (n : Nat) (e : ℚ) (h0 : 0 ≤ e) (h1 : e ≤ 1) :
    0 ≤ RoundToInt ((n : ℚ) * e) ∧ RoundToInt ((n : ℚ) * e) ≤ (n : Int) := by
  unfold RoundToInt
  have hn : (0 : ℚ) ≤ (n : ℚ) := Nat.cast_nonneg n
  constructor
  · apply Int.floor_nonneg.mpr
    have := mul_nonneg hn h0
    linarith
  · have hlt : ⌊(n : ℚ) * e + 1 / 2⌋ < (n : Int) + 1 := by
      apply Int.floor_lt.mpr
      have := mul_le_mul_of_nonneg_left h1 hn
      push_cast
      linarith
    omega

theorem CurrentRecords_length (m : AEcosystemManager) :
    m.CurrentRecords.length = m.ValidCount := by
  simp [AEcosystemManager.CurrentRecords, AEcosystemManager.ValidCount]

theorem SortByFitness_length (Records : List FCreatureRecord) :
    (SortByFitness Records).length = Records.length :=
  List.length_insertionSort _ _

theorem SelectParents_length (m : AEcosystemManager) :
    m.SelectParentsForReproduction.length =
      min m.ValidCount (max 2 ((m.ValidCount + 1) / 2)) := by
  unfold AEcosystemManager.SelectParentsForReproduction
  simp only [List.length_map, List.length_take, SortByFitness_length, CurrentRecords_length,
    Int.cast_natCast, RoundToInt_half]
  omega

theorem SelectParents_congr (m n : AEcosystemManager)
    (h : n.ActiveCreatures = m.ActiveCreatures) :
    n.SelectParentsForReproduction = m.SelectParentsForReproduction := by
  have hrec : n.CurrentRecords =
      m.CurrentRecords.map (fun R => { R with Generation := n.CurrentStats.Generation }) := by
    simp [AEcosystemManager.CurrentRecords, h, List.map_map, AEcosystemManager.RecordOf,
      Function.comp_def]
  have hsort : SortByFitness (m.CurrentRecords.map
        (fun R => { R with Generation := n.CurrentStats.Generation })) =
      (SortByFitness m.CurrentRecords).map
        (fun R => { R with Generation := n.CurrentStats.Generation }) := by
    unfold SortByFitness
    exact (List.map_insertionSort FitnessOrder FitnessOrder
      (fun R => { R with Generation := n.CurrentStats.Generation }) m.CurrentRecords
      (fun a _ b _ => Iff.rfl)).symm
  unfold AEcosystemManager.SelectParentsForReproduction
  simp only [hrec, hsort, List.length_map, ← List.map_take, List.map_map, Function.comp_def]

/-! ## Population manager: a completed generation advance -/

theorem AdvanceGeneration_ok (m : AEcosystemManager) (Draws : List BreedDraws)
    (hflag : m.bGenerationInProgress = false) (hcls : m.CreatureClass = true)
    (hlive : 1 ≤ m.ValidCount) (he0 : 0 ≤ m.ElitePercentage) (he1 : m.ElitePercentage ≤ 1)
    (hdraws : m.DrawsSuffice Draws) :
    ∃ Offspring : List FCreatureGenes,
      m.AdvanceGeneration Draws =
        Except.ok (m.NextGeneration
          (m.SelectParentsForReproduction.take m.EliteCount.toNat ++ Offspring)) ∧
      Offspring.length = (m.InitialPopulation - m.EliteCount).toNat ∧
      List.Forall₂ (BredFrom m.SelectParentsForReproduction m.MutationRate m.MutationStrength)
        (Draws.take Offspring.length) Offspring := by
  have hPlen := SelectParents_length m
  have hP1 : 1 ≤ m.SelectParentsForReproduction.length := by omega
  have hE := RoundToInt_elite m.SelectParentsForReproduction.length m.ElitePercentage he0 he1
  have hE0 : 0 ≤ m.EliteCount := hE.1
  have hE1 : m.EliteCount.toNat ≤ m.SelectParentsForReproduction.length := by
    have := hE.2
    unfold AEcosystemManager.EliteCount
    omega
  let Started : AEcosystemManager := { m with
    bGenerationInProgress := true
    CurrentStats := { m.CurrentStats with Generation := m.CurrentStats.Generation + 1 }
    ActiveCreatures := [] }
  have hsel : ({ m with
      bGenerationInProgress := true
      CurrentStats := { m.CurrentStats with Generation := m.CurrentStats.Generation + 1 } } :
        AEcosystemManager).SelectParentsForReproduction = m.SelectParentsForReproduction :=
    SelectParents_congr m _ rfl
  have helite := EliteLoop_ok m.SelectParentsForReproduction m.EliteCount.toNat 0 Started
    (by omega)
  rw [List.drop_zero] at helite
  have hlenS : (Started.SpawnAll
      (m.SelectParentsForReproduction.take m.EliteCount.toNat)).ActiveCreatures.length =
        m.EliteCount.toNat := by
    rw [SpawnAll_length Started _ hcls]
    simp only [List.length_take, Started, List.length_nil]
    omega
  obtain ⟨Offspring, hrun, hlenO, hall⟩ := BreedLoop_ok m.SelectParentsForReproduction hP1 Draws
    (Started.SpawnAll (m.SelectParentsForReproduction.take m.EliteCount.toNat))
    (by rw [SpawnAll_CreatureClass]; exact hcls)
    (by
      rw [SpawnAll_InitialPopulation, hlenS]
      have := hdraws.1
      show (m.InitialPopulation - ((m.EliteCount.toNat : Nat) : Int)).toNat ≤ Draws.length
      omega)
    hdraws.2
  rw [SpawnAll_InitialPopulation, hlenS] at hlenO
  rw [SpawnAll_MutationRate, SpawnAll_MutationStrength] at hall
  refine ⟨Offspring, ?_, ?_, hall⟩
  · unfold AEcosystemManager.AdvanceGeneration
    rw [if_neg (by simp [hflag])]
    simp only [hsel]
    have helite2 : AEcosystemManager.EliteLoop m.SelectParentsForReproduction 0
        (RoundToInt ((m.SelectParentsForReproduction.length : ℚ) * m.ElitePercentage)).toNat
        Started = Except.ok (Started.SpawnAll
          (m.SelectParentsForReproduction.take m.EliteCount.toNat)) := helite
    simp only [Started] at helite2 hrun
    rw [helite2]
    simp only []
    rw [hrun]
    simp only [AEcosystemManager.NextGeneration, SpawnAll_append]
  · show Offspring.length = (m.InitialPopulation - m.EliteCount).toNat
    rw [hlenO]
    show (m.InitialPopulation - ((m.EliteCount.toNat : Nat) : Int)).toNat = _
    omega

theorem NextGeneration_genes (m : AEcosystemManager) (Cohort : List FCreatureGenes)
    (h : m.CreatureClass = true) :
    (m.NextGeneration Cohort).ActiveCreatures.map (fun c => c.Genes) = Cohort := by
  have := SpawnAll_genes ({ m with
    bGenerationInProgress := true
    CurrentStats := { m.CurrentStats with Generation := m.CurrentStats.Generation + 1 }
    ActiveCreatures := [] }) Cohort h
  simpa [AEcosystemManager.NextGeneration] using this

theorem NextGeneration_length (m : AEcosystemManager) (Cohort : List FCreatureGenes)
    (h : m.CreatureClass = true) :
    (m.NextGeneration Cohort).ActiveCreatures.length = Cohort.length := by
  have := congrArg List.length (NextGeneration_genes m Cohort h)
  simpa using this

theorem NextGeneration_valid (m : AEcosystemManager) (Cohort : List FCreatureGenes) :
    ∀ c ∈ (m.NextGeneration Cohort).ActiveCreatures, c.bValid = true :=
  SpawnAll_valid ({ m with
    bGenerationInProgress := true
    CurrentStats := { m.CurrentStats with Generation := m.CurrentStats.Generation + 1 }
    ActiveCreatures := [] }) Cohort (by simp)

theorem NextGeneration_Generation (m : AEcosystemManager) (Cohort : List FCreatureGenes) :
    (m.NextGeneration Cohort).CurrentStats.Generation = m.CurrentStats.Generation + 1 := by
  simp [AEcosystemManager.NextGeneration, SpawnAll_CurrentStats]

theorem NextGeneration_Events (m : AEcosystemManager) (Cohort : List FCreatureGenes) :
    (m.NextGeneration Cohort).Events =
      m.Events ++ [ManagerEvent.GenerationComplete (m.CurrentStats.Generation + 1)] := by
  simp [AEcosystemManager.NextGeneration, SpawnAll_CurrentStats, SpawnAll_Events]

theorem NextGeneration_CurrentGenerationTime (m : AEcosystemManager)
    (Cohort : List FCreatureGenes) : (m.NextGeneration Cohort).CurrentGenerationTime = 0 := rfl

theorem NextGeneration_bGenerationInProgress (m : AEcosystemManager)
    (Cohort : List FCreatureGenes) :
    (m.NextGeneration Cohort).bGenerationInProgress = false := rfl

theorem ValidCount_of_all_valid (m : AEcosystemManager)
    (h : ∀ c ∈ m.ActiveCreatures, c.bValid = true) :
    m.ValidCount = m.ActiveCreatures.length := by
  unfold AEcosystemManager.ValidCount
  rw [List.filter_eq_self.mpr h]

theorem EliteCount_eq (m : AEcosystemManager) :
    m.EliteCount =
      RoundToInt (((min m.ValidCount (max 2 ((m.ValidCount + 1) / 2)) : Nat) : ℚ) *
        m.ElitePercentage) := by
  unfold AEcosystemManager.EliteCount
  rw [SelectParents_length]

theorem CrowdedManager_ValidCount : CrowdedManager.ValidCount = 200 := by
  rw [ValidCount_of_all_valid]
  · simp [CrowdedManager]
  · intro c hc
    simp only [CrowdedManager, List.mem_map] at hc
    obtain ⟨i, _, rfl⟩ := hc
    rfl

theorem CrowdedManager_EliteCount : CrowdedManager.EliteCount = 60 := by
  rw [EliteCount_eq, CrowdedManager_ValidCount]
  have he : CrowdedManager.ElitePercentage = 3 / 5 := rfl
  rw [he]
  unfold RoundToInt
  rw [Int.floor_eq_iff]
  norm_num

/-- C5, evaluated at a failing input: with the default `InitialPopulation = 50`,
an elite percentage of `60%` and `200` live creatures, `AdvanceGeneration`
returns with `60` live creatures, not `50`: the `100` selected parents give `60`
elites, all of which are spawned before the loop that fills up to
`InitialPopulation` is reached. -/
theorem AdvanceGeneration_elite_overshoot :
    ∃ m, CrowdedManager.AdvanceGeneration [] = Except.ok m ∧
      m.ActiveCreatures.length = 60 ∧ m.InitialPopulation = 50 := by
  have hdraws : CrowdedManager.DrawsSuffice [] := by
    refine ⟨?_, fun d hd => absurd hd (List.not_mem_nil d)⟩
    rw [CrowdedManager_EliteCount]
    decide
  obtain ⟨Offspring, hrun, hlen, _⟩ := AdvanceGeneration_ok CrowdedManager [] rfl rfl
    (by rw [CrowdedManager_ValidCount]; decide)
    (by norm_num [CrowdedManager]) (by norm_num [CrowdedManager]) hdraws
  refine ⟨_, hrun, ?_, ?_⟩
  · rw [NextGeneration_length _ _ rfl, List.length_append, List.length_take, hlen,
      CrowdedManager_EliteCount, SelectParents_length, CrowdedManager_ValidCount]
    decide
  · simp only [AEcosystemManager.NextGeneration, SpawnAll_InitialPopulation]
    rfl

theorem LoneCreatureManager_ValidCount : LoneCreatureManager.ValidCount = 1 := rfl

/-- C6, as stated, fails: with a single live creature the selection returns one
parent, whereas `max(2, round(1/2))` is `2`. -/
theorem SelectParents_lone_creature :
    LoneCreatureManager.ValidCount = 1 ∧
      LoneCreatureManager.SelectParentsForReproduction.length = 1 ∧
      (LoneCreatureManager.SelectParentsForReproduction.length : Int) ≠
        max 2 (RoundToInt ((LoneCreatureManager.ValidCount : ℚ) / 2)) := by
  have hlen : LoneCreatureManager.SelectParentsForReproduction.length = 1 := by
    rw [SelectParents_length, LoneCreatureManager_ValidCount]
    decide
  refine ⟨LoneCreatureManager_ValidCount, hlen, ?_⟩
  rw [hlen, LoneCreatureManager_ValidCount]
  have h : RoundToInt (((1 : Nat) : ℚ) / 2) = 1 := by
    unfold RoundToInt
    rw [Int.floor_eq_iff]
    norm_num
  rw [h]
  decide

/-- C6 (amended): for every live population, with `n` the number of valid live
creatures, the parent selection returns the genomes of a prefix `Selected` of the
creatures' records ranked by current fitness: `Selected` together with the
unselected records `Rest` is a rearrangement of the records of the valid live
creatures, `Selected` is in non-increasing fitness order, every selected
record's fitness is at least that of every unselected one, and the number of
parents is `min(n, max(2, round(n/2)))`, which is at least 2 whenever `n ≥ 2`
(and is `n` itself for `n < 2`). -/
theorem SelectParents_top_half (m : AEcosystemManager) :
    ∃ Selected Rest : List FCreatureRecord,
      m.SelectParentsForReproduction = Selected.map (fun Record => Record.Genes) ∧
      (Selected ++ Rest).Perm (m.CurrentRecords) ∧
      Selected.Pairwise (fun A B => B.FitnessScore ≤ A.FitnessScore) ∧
      (∀ A ∈ Selected, ∀ B ∈ Rest, B.FitnessScore ≤ A.FitnessScore) ∧
      (Selected.length : Int) =
        min (m.ValidCount : Int) (max 2 (RoundToInt ((m.ValidCount : ℚ) / 2))) ∧
      (2 ≤ m.ValidCount → 2 ≤ Selected.length) ∧
      (m.ValidCount < 2 → Selected.length = m.ValidCount) := by
  have hsorted : (SortByFitness m.CurrentRecords).Sorted FitnessOrder :=
    List.sorted_insertionSort FitnessOrder _
  have hlen : (SortByFitness m.CurrentRecords).length = m.ValidCount := by
    rw [SortByFitness_length, CurrentRecords_length]
  have hround : RoundToInt ((m.ValidCount : ℚ) / 2) = ((m.ValidCount : Int) + 1) / 2 := by
    rw [← RoundToInt_half]
    congr 1
    ring
  let k : Nat := (min (max 2 (RoundToInt (((SortByFitness m.CurrentRecords).length : Int) *
    (1 / 2)))) ((SortByFitness m.CurrentRecords).length : Int)).toNat
  have hk : ((SortByFitness m.CurrentRecords).take k).length =
      min m.ValidCount (max 2 ((m.ValidCount + 1) / 2)) := by
    simp only [k, List.length_take, hlen, Int.cast_natCast, RoundToInt_half]
    omega
  refine ⟨(SortByFitness m.CurrentRecords).take k, (SortByFitness m.CurrentRecords).drop k,
    rfl, ?_, ?_, ?_, ?_, ?_, ?_⟩
  · rw [List.take_append_drop]
    exact List.perm_insertionSort _ _
  · have hp : ((SortByFitness m.CurrentRecords).take k).Pairwise FitnessOrder :=
      List.Pairwise.sublist (List.take_sublist _ _) hsorted
    exact hp.imp (fun hab => not_lt.mp hab)
  · intro A hA B hB
    exact not_lt.mp (hsorted.rel_of_mem_take_of_mem_drop hA hB)
  · rw [hk, hround]
    omega
  · intro h
    rw [hk]
    omega
  · intro h
    rw [hk]
    omega

/-- Witness of `SelectParents_top_half`: for two live creatures the selection
returns two parents. -/
theorem SelectParents_top_half_witness :
    2 ≤ PairManager.ValidCount ∧ PairManager.SelectParentsForReproduction.length = 2 := by
  obtain ⟨Selected, Rest, hsel, _, _, _, hlen, _, _⟩ := SelectParents_top_half PairManager
  have hv : PairManager.ValidCount = 2 := rfl
  refine ⟨by rw [hv], ?_⟩
  rw [hsel, List.length_map]
  rw [hv] at hlen
  have h : RoundToInt (((2 : Nat) : ℚ) / 2) = 1 := by
    unfold RoundToInt
    rw [Int.floor_eq_iff]
    norm_num
  rw [h] at hlen
  have h2 : min ((2 : Nat) : Int) (max 2 1) = 2 := by decide
  rw [h2] at hlen
  exact_mod_cast hlen

theorem PairManager_ValidCount : PairManager.ValidCount = 2 := rfl

theorem PairManager_EliteCount : PairManager.EliteCount = 0 := by
  rw [EliteCount_eq, PairManager_ValidCount]
  have he : PairManager.ElitePercentage = 1 / 5 := rfl
  rw [he]
  unfold RoundToInt
  rw [Int.floor_eq_iff]
  norm_num

theorem PairBreedDraws_Distinct_two : PairBreedDraws.Distinct 2 :=
  Or.inr ⟨1, List.mem_cons_self _ _, by decide⟩

theorem PairManager_DrawsSuffice : PairManager.DrawsSuffice PairManagerDraws := by
  have hP : PairManager.SelectParentsForReproduction.length = 2 := by
    rw [SelectParents_length, PairManager_ValidCount]
    decide
  refine ⟨?_, ?_⟩
  · rw [PairManager_EliteCount]
    decide
  · intro d hd
    rw [hP]
    simp only [PairManagerDraws, List.mem_cons, List.mem_singleton, List.not_mem_nil,
      or_false, or_self] at hd
    rw [hd]
    exact PairBreedDraws_Distinct_two

/-- C7: when `AdvanceGeneration` runs (no advance in progress, creature class
set, at least one valid live creature, `ElitePercentage` in `[0, 1]`, enough
draws), it returns, and with `P` the selected parents in rank order and
`E = round(|P| * ElitePercentage)`: `E ≤ |P|`, the genomes of the first `E`
creatures of the new cohort are, in order, exactly `P[0..E-1]`, and the genomes
of all later creatures are, in order, each the `Mutate` with the configured rate
and strength of the `Crossover` of two members of `P`, bred with the successive
entries of the draws. -/
theorem AdvanceGeneration_elite_then_bred (m : AEcosystemManager) (Draws : List BreedDraws)
    (hflag : m.bGenerationInProgress = false) (hcls : m.CreatureClass = true)
    (hlive : 1 ≤ m.ValidCount) (he0 : 0 ≤ m.ElitePercentage) (he1 : m.ElitePercentage ≤ 1)
    (hdraws : m.DrawsSuffice Draws) :
    ∃ n, m.AdvanceGeneration Draws = Except.ok n ∧
      m.EliteCount.toNat ≤ m.SelectParentsForReproduction.length ∧
      (n.ActiveCreatures.map (fun c => c.Genes)).take m.EliteCount.toNat =
        m.SelectParentsForReproduction.take m.EliteCount.toNat ∧
      List.Forall₂ (BredFrom m.SelectParentsForReproduction m.MutationRate m.MutationStrength)
        (Draws.take (n.ActiveCreatures.length - m.EliteCount.toNat))
        ((n.ActiveCreatures.map (fun c => c.Genes)).drop m.EliteCount.toNat) := by
  obtain ⟨Offspring, hrun, _, hall⟩ :=
    AdvanceGeneration_ok m Draws hflag hcls hlive he0 he1 hdraws
  have hE : m.EliteCount.toNat ≤ m.SelectParentsForReproduction.length := by
    have := (RoundToInt_elite m.SelectParentsForReproduction.length m.ElitePercentage he0 he1).2
    unfold AEcosystemManager.EliteCount
    omega
  have htake : (m.SelectParentsForReproduction.take m.EliteCount.toNat).length =
      m.EliteCount.toNat := by
    rw [List.length_take]
    omega
  refine ⟨_, hrun, hE, ?_, ?_⟩
  · rw [NextGeneration_genes _ _ hcls, List.take_left' htake]
  · rw [NextGeneration_length _ _ hcls, NextGeneration_genes _ _ hcls, List.drop_left' htake,
      List.length_append, htake, Nat.add_sub_cancel_left]
    exact hall

/-- Witness of `AdvanceGeneration_elite_then_bred`: two live creatures, initial
population `3`, three offspring draws. -/
theorem AdvanceGeneration_elite_then_bred_witness :
    ∃ n, PairManager.AdvanceGeneration PairManagerDraws = Except.ok n ∧
      (n.ActiveCreatures.map (fun c => c.Genes)).take PairManager.EliteCount.toNat =
        PairManager.SelectParentsForReproduction.take PairManager.EliteCount.toNat := by
  obtain ⟨n, hrun, _, htake, _⟩ := AdvanceGeneration_elite_then_bred PairManager
    PairManagerDraws rfl rfl (by rw [PairManager_ValidCount]; decide)
    (by norm_num [PairManager]) (by norm_num [PairManager]) PairManager_DrawsSuffice
  exact ⟨n, hrun, htake⟩

/-- C10: a call of `AdvanceGeneration` made while the in-progress flag is set
returns the manager unchanged (generation counter, timer, live set, events and
all else).  A call made while the flag is clear, with the creature class set, at
least one valid live creature, `ElitePercentage` in `[0, 1]` and enough draws,
returns with the generation counter incremented by exactly 1, the generation
timer at 0, exactly one event appended to the log, `GenerationComplete` carrying
the new generation number, and the in-progress flag clear. -/
theorem AdvanceGeneration_guard_and_effects (m : AEcosystemManager) (Draws : List BreedDraws) :
    (m.bGenerationInProgress = true → m.AdvanceGeneration Draws = Except.ok m) ∧
    (m.bGenerationInProgress = false → m.CreatureClass = true → 1 ≤ m.ValidCount →
      0 ≤ m.ElitePercentage → m.ElitePercentage ≤ 1 → m.DrawsSuffice Draws →
      ∃ n, m.AdvanceGeneration Draws = Except.ok n ∧
        n.CurrentStats.Generation = m.CurrentStats.Generation + 1 ∧
        n.CurrentGenerationTime = 0 ∧
        n.Events = m.Events ++
          [ManagerEvent.GenerationComplete (m.CurrentStats.Generation + 1)] ∧
        n.bGenerationInProgress = false) := by
  constructor
  · intro h
    unfold AEcosystemManager.AdvanceGeneration
    rw [if_pos h]
  · intro hflag hcls hlive he0 he1 hdraws
    obtain ⟨Offspring, hrun, _, _⟩ :=
      AdvanceGeneration_ok m Draws hflag hcls hlive he0 he1 hdraws
    exact ⟨_, hrun, NextGeneration_Generation _ _, NextGeneration_CurrentGenerationTime _ _,
      NextGeneration_Events _ _, NextGeneration_bGenerationInProgress _ _⟩

/-- Witness of `AdvanceGeneration_guard_and_effects`: the guarded call on
`BusyManager` changes nothing, and the call on `PairManager` (generation 0, empty
event log) returns at generation 1 with the single event `GenerationComplete 1`. -/
theorem AdvanceGeneration_guard_and_effects_witness :
    BusyManager.AdvanceGeneration PairManagerDraws = Except.ok BusyManager ∧
    ∃ n, PairManager.AdvanceGeneration PairManagerDraws = Except.ok n ∧
      n.CurrentStats.Generation = 1 ∧ n.CurrentGenerationTime = 0 ∧
      n.Events = [ManagerEvent.GenerationComplete 1] ∧ n.bGenerationInProgress = false := by
  refine ⟨(AdvanceGeneration_guard_and_effects BusyManager PairManagerDraws).1 rfl, ?_⟩
  obtain ⟨n, hrun, hgen, htime, hev, hflag⟩ :=
    (AdvanceGeneration_guard_and_effects PairManager PairManagerDraws).2 rfl rfl
      (by rw [PairManager_ValidCount]; decide) (by norm_num [PairManager])
      (by norm_num [PairManager]) PairManager_DrawsSuffice
  exact ⟨n, hrun, hgen, htime, hev, hflag⟩

/-! ## Population manager: the tick and the generation trigger -/

theorem NextGeneration_InitialPopulation (m : AEcosystemManager) (Cohort : List FCreatureGenes) :
    (m.NextGeneration Cohort).InitialPopulation = m.InitialPopulation := by
  simp only [AEcosystemManager.NextGeneration, SpawnAll_InitialPopulation]

theorem NextGeneration_MaxPopulation (m : AEcosystemManager) (Cohort : List FCreatureGenes) :
    (m.NextGeneration Cohort).MaxPopulation = m.MaxPopulation := by
  simp only [AEcosystemManager.NextGeneration, SpawnAll_MaxPopulation]

theorem NextGeneration_MinPopulation (m : AEcosystemManager) (Cohort : List FCreatureGenes) :
    (m.NextGeneration Cohort).MinPopulation = m.MinPopulation := by
  simp only [AEcosystemManager.NextGeneration, SpawnAll_MinPopulation]

theorem NextGeneration_CreatureClass (m : AEcosystemManager) (Cohort : List FCreatureGenes) :
    (m.NextGeneration Cohort).CreatureClass = m.CreatureClass := by
  simp only [AEcosystemManager.NextGeneration, SpawnAll_CreatureClass]

theorem NextGeneration_MutationRate (m : AEcosystemManager) (Cohort : List FCreatureGenes) :
    (m.NextGeneration Cohort).MutationRate = m.MutationRate := by
  simp only [AEcosystemManager.NextGeneration, SpawnAll_MutationRate]

theorem NextGeneration_MutationStrength (m : AEcosystemManager) (Cohort : List FCreatureGenes) :
    (m.NextGeneration Cohort).MutationStrength = m.MutationStrength := by
  simp only [AEcosystemManager.NextGeneration, SpawnAll_MutationStrength]

theorem NextGeneration_ElitePercentage (m : AEcosystemManager) (Cohort : List FCreatureGenes) :
    (m.NextGeneration Cohort).ElitePercentage = m.ElitePercentage := by
  simp only [AEcosystemManager.NextGeneration, SpawnAll_ElitePercentage]

theorem NextGeneration_bAutoGenerationAdvance (m : AEcosystemManager) (Cohort : List FCreatureGenes) :
    (m.NextGeneration Cohort).bAutoGenerationAdvance = m.bAutoGenerationAdvance := by
  simp only [AEcosystemManager.NextGeneration, SpawnAll_bAutoGenerationAdvance]

theorem NextGeneration_GenerationTimeLimit (m : AEcosystemManager) (Cohort : List FCreatureGenes) :
    (m.NextGeneration Cohort).GenerationTimeLimit = m.GenerationTimeLimit := by
  simp only [AEcosystemManager.NextGeneration, SpawnAll_GenerationTimeLimit]

theorem NextGeneration_LastStatsUpdateTime (m : AEcosystemManager) (Cohort : List FCreatureGenes) :
    (m.NextGeneration Cohort).LastStatsUpdateTime = m.LastStatsUpdateTime := by
  simp only [AEcosystemManager.NextGeneration, SpawnAll_LastStatsUpdateTime]

theorem NextGeneration_StatsUpdateInterval (m : AEcosystemManager) (Cohort : List FCreatureGenes) :
    (m.NextGeneration Cohort).StatsUpdateInterval = m.StatsUpdateInterval := by
  simp only [AEcosystemManager.NextGeneration, SpawnAll_StatsUpdateInterval]

theorem NextGeneration_TotalPopulation (m : AEcosystemManager) (Cohort : List FCreatureGenes) :
    (m.NextGeneration Cohort).CurrentStats.TotalPopulation = m.CurrentStats.TotalPopulation := by
  simp only [AEcosystemManager.NextGeneration, SpawnAll_CurrentStats]

theorem CheckGenerationConditions_eq (m : AEcosystemManager) (Draws : List BreedDraws) :
    m.CheckGenerationConditions Draws =
      if m.CurrentGenerationTime ≥ m.GenerationTimeLimit ∨
          m.CurrentStats.TotalPopulation ≤ m.MinPopulation ∨
          m.CurrentStats.TotalPopulation ≥ m.MaxPopulation then
        m.AdvanceGeneration Draws
      else Except.ok m := by
  unfold AEcosystemManager.CheckGenerationConditions
  by_cases h1 : m.CurrentGenerationTime ≥ m.GenerationTimeLimit <;>
    by_cases h2 : m.CurrentStats.TotalPopulation ≤ m.MinPopulation <;>
    by_cases h3 : m.CurrentStats.TotalPopulation ≥ m.MaxPopulation <;>
    simp [h1, h2, h3]

theorem Tick_without_stats_update (m : AEcosystemManager) (DeltaTime WorldTime : ℚ)
    (Draws : List BreedDraws)
    (hstat : ¬ (WorldTime - m.LastStatsUpdateTime > m.StatsUpdateInterval))
    (hauto : m.bAutoGenerationAdvance = true) :
    m.Tick DeltaTime WorldTime Draws =
      match ({ m with CurrentGenerationTime := m.CurrentGenerationTime + DeltaTime } :
        AEcosystemManager).CheckGenerationConditions Draws with
      | Except.error e => Except.error e
      | Except.ok n => Except.ok n.CleanupDeadCreatures := by
  unfold AEcosystemManager.Tick
  simp only [if_neg hstat, hauto, if_true]

theorem CleanupDeadCreatures_of_all_valid (m : AEcosystemManager)
    (h : ∀ c ∈ m.ActiveCreatures, c.bValid = true) : m.CleanupDeadCreatures = m := by
  unfold AEcosystemManager.CleanupDeadCreatures
  rw [List.filter_eq_self.mpr h]

theorem Tick_stale_low (m : AEcosystemManager) (DeltaTime WorldTime : ℚ)
    (Draws : List BreedDraws)
    (hstat : ¬ (WorldTime - m.LastStatsUpdateTime > m.StatsUpdateInterval))
    (hauto : m.bAutoGenerationAdvance = true)
    (hpop : m.CurrentStats.TotalPopulation ≤ m.MinPopulation)
    (hflag : m.bGenerationInProgress = false) (hcls : m.CreatureClass = true)
    (hlive : 1 ≤ m.ValidCount) (he0 : 0 ≤ m.ElitePercentage) (he1 : m.ElitePercentage ≤ 1)
    (hdraws : m.DrawsSuffice Draws) :
    ∃ Offspring : List FCreatureGenes,
      m.Tick DeltaTime WorldTime Draws =
        Except.ok (({ m with CurrentGenerationTime := m.CurrentGenerationTime + DeltaTime } :
          AEcosystemManager).NextGeneration
            (m.SelectParentsForReproduction.take m.EliteCount.toNat ++ Offspring)) ∧
      Offspring.length = (m.InitialPopulation - m.EliteCount).toNat := by
  obtain ⟨Offspring, hrun, hlen, _⟩ := AdvanceGeneration_ok
    ({ m with CurrentGenerationTime := m.CurrentGenerationTime + DeltaTime } :
      AEcosystemManager) Draws hflag hcls hlive he0 he1 hdraws
  refine ⟨Offspring, ?_, hlen⟩
  rw [Tick_without_stats_update m DeltaTime WorldTime Draws hstat hauto,
    CheckGenerationConditions_eq, if_pos (Or.inr (Or.inl hpop)), hrun]
  simp only []
  rw [CleanupDeadCreatures_of_all_valid _ (NextGeneration_valid _ _)]
  rfl

theorem PairBreedDraws_Distinct_twentyfive : PairBreedDraws.Distinct 25 :=
  Or.inr ⟨1, List.mem_cons_self _ _, by decide⟩

theorem Stale_ValidCount {m : AEcosystemManager}
    (h : m.StaleAfterInitialize) : m.ValidCount = 50 := by
  rw [ValidCount_of_all_valid m h.Valid, h.Live]

theorem Stale_ParentCount {m : AEcosystemManager}
    (h : m.StaleAfterInitialize) : m.SelectParentsForReproduction.length = 25 := by
  rw [SelectParents_length, Stale_ValidCount h]
  decide

theorem Stale_EliteCount {m : AEcosystemManager}
    (h : m.StaleAfterInitialize) : m.EliteCount = 5 := by
  rw [EliteCount_eq, Stale_ValidCount h, h.ElitePercentage]
  unfold RoundToInt
  rw [Int.floor_eq_iff]
  norm_num

theorem Stale_DrawsSuffice {m : AEcosystemManager}
    (h : m.StaleAfterInitialize) : m.DrawsSuffice FortyFiveDraws := by
  refine ⟨?_, ?_⟩
  · rw [Stale_EliteCount h, h.InitialPopulation]
    decide
  · intro d hd
    rw [Stale_ParentCount h, List.eq_of_mem_replicate hd]
    exact PairBreedDraws_Distinct_twentyfive

theorem Stale_Tick {m : AEcosystemManager} (h : m.StaleAfterInitialize)
    (DeltaTime WorldTime : ℚ) (hw : WorldTime ≤ 1) :
    ∃ n, m.Tick DeltaTime WorldTime FortyFiveDraws = Except.ok n ∧
      n.StaleAfterInitialize ∧
      n.CurrentStats.Generation = m.CurrentStats.Generation + 1 ∧
      n.CurrentGenerationTime = 0 ∧
      n.Events = m.Events ++
        [ManagerEvent.GenerationComplete (m.CurrentStats.Generation + 1)] := by
  obtain ⟨Offspring, hrun, hlen⟩ := Tick_stale_low m DeltaTime WorldTime FortyFiveDraws
    (by rw [h.LastStatsUpdateTime, h.StatsUpdateInterval]; linarith)
    h.bAutoGenerationAdvance (by rw [h.TotalPopulation, h.MinPopulation]; decide)
    h.bGenerationInProgress h.CreatureClass (by rw [Stale_ValidCount h]; decide)
    (by rw [h.ElitePercentage]; norm_num) (by rw [h.ElitePercentage]; norm_num)
    (Stale_DrawsSuffice h)
  refine ⟨_, hrun, ?_, NextGeneration_Generation _ _, NextGeneration_CurrentGenerationTime _ _,
    NextGeneration_Events _ _⟩
  constructor
  · rw [NextGeneration_bAutoGenerationAdvance]; exact h.bAutoGenerationAdvance
  · rw [NextGeneration_TotalPopulation]; exact h.TotalPopulation
  · rw [NextGeneration_MinPopulation]; exact h.MinPopulation
  · rw [NextGeneration_MaxPopulation]; exact h.MaxPopulation
  · rw [NextGeneration_GenerationTimeLimit]; exact h.GenerationTimeLimit
  · exact NextGeneration_bGenerationInProgress _ _
  · rw [NextGeneration_CreatureClass]; exact h.CreatureClass
  · exact NextGeneration_valid _ _
  · have hc : ({ m with CurrentGenerationTime := m.CurrentGenerationTime + DeltaTime } :
        AEcosystemManager).CreatureClass = true := h.CreatureClass
    rw [NextGeneration_length _ _ hc, List.length_append, List.length_take, hlen,
      Stale_EliteCount h, Stale_ParentCount h, h.InitialPopulation]
    decide
  · rw [NextGeneration_ElitePercentage]; exact h.ElitePercentage
  · rw [NextGeneration_InitialPopulation]; exact h.InitialPopulation
  · rw [NextGeneration_LastStatsUpdateTime]; exact h.LastStatsUpdateTime
  · rw [NextGeneration_StatsUpdateInterval]; exact h.StatsUpdateInterval

theorem InitialSpawnLoop_eq (Draws : Nat → GenerateDraws) (Count i : Nat)
    (m : AEcosystemManager) :
    AEcosystemManager.InitialSpawnLoop Draws i Count m =
      m.SpawnAll ((List.range' i Count).map (fun j => FCreatureGenes.GenerateRandom (Draws j))) := by
  induction Count generalizing i m with
  | zero => rfl
  | succ k ih =>
    rw [AEcosystemManager.InitialSpawnLoop, ih, List.range'_succ, List.map_cons, SpawnAll_cons]

theorem InitializeEcosystem_eq (m : AEcosystemManager) (Draws : Nat → GenerateDraws)
    (h : m.CreatureClass = true) :
    m.InitializeEcosystem Draws =
      ({ m with
        ActiveCreatures := []
        CreatureHistory := []
        PendingOffspring := []
        CurrentStats := {}
        CurrentGenerationTime := 0 } : AEcosystemManager).SpawnAll
        ((List.range' 0 m.InitialPopulation.toNat).map
          (fun j => FCreatureGenes.GenerateRandom (Draws j))) := by
  unfold AEcosystemManager.InitializeEcosystem
  simp only [h, Bool.not_true, Bool.false_eq_true, if_false]
  rw [InitialSpawnLoop_eq]

theorem FreshManager_stale : FreshManager.StaleAfterInitialize := by
  have heq := InitializeEcosystem_eq ({ CreatureClass := true } : AEcosystemManager)
    (fun _ => HalfGenerateDraws) rfl
  have hF : FreshManager = _ := heq
  constructor
  · rw [hF, SpawnAll_bAutoGenerationAdvance]
  · rw [hF, SpawnAll_CurrentStats]
  · rw [hF, SpawnAll_MinPopulation]
  · rw [hF, SpawnAll_MaxPopulation]
  · rw [hF, SpawnAll_GenerationTimeLimit]
  · rw [hF, SpawnAll_bGenerationInProgress]
  · rw [hF, SpawnAll_CreatureClass]
  · rw [hF]
    exact SpawnAll_valid _ _ (by simp)
  · rw [hF, SpawnAll_length _ _ rfl]
    simp
  · rw [hF, SpawnAll_ElitePercentage]
  · rw [hF, SpawnAll_InitialPopulation]
  · rw [hF, SpawnAll_LastStatsUpdateTime]
  · rw [hF, SpawnAll_StatsUpdateInterval]

theorem FreshManager_Events : FreshManager.Events = [] := by
  have heq := InitializeEcosystem_eq ({ CreatureClass := true } : AEcosystemManager)
    (fun _ => HalfGenerateDraws) rfl
  have hF : FreshManager = _ := heq
  rw [hF, SpawnAll_Events]

theorem FreshManager_Generation : FreshManager.CurrentStats.Generation = 0 := by
  have heq := InitializeEcosystem_eq ({ CreatureClass := true } : AEcosystemManager)
    (fun _ => HalfGenerateDraws) rfl
  have hF : FreshManager = _ := heq
  rw [hF, SpawnAll_CurrentStats]

theorem FreshManager_CurrentGenerationTime : FreshManager.CurrentGenerationTime = 0 := by
  have heq := InitializeEcosystem_eq ({ CreatureClass := true } : AEcosystemManager)
    (fun _ => HalfGenerateDraws) rfl
  have hF : FreshManager = _ := heq
  rw [hF, SpawnAll_CurrentGenerationTime]

/-- C8, evaluated at two failing inputs.  (a) On the first tick after
`InitializeEcosystem` (world time `0.1`, tick length `0.1`) a generation advance
is started, raising the generation counter and broadcasting
`GenerationComplete 1`, although the elapsed time `0.1` is below the limit `300`
and the `50` live creatures are strictly between `MinPopulation = 10` and
`MaxPopulation = 200`: the trigger reads the cached `TotalPopulation`, still `0`.
(b) On a tick between two statistics updates with `10` live creatures, at most
`MinPopulation`, but a cached `TotalPopulation` of `11`, no advance is started. -/
theorem Tick_trigger_reads_cached_population :
    (∃ n, FreshManager.Tick (1 / 10) (1 / 10) FortyFiveDraws = Except.ok n ∧
      n.CurrentStats.Generation = FreshManager.CurrentStats.Generation + 1 ∧
      n.Events = [ManagerEvent.GenerationComplete 1] ∧
      FreshManager.CurrentGenerationTime + 1 / 10 < FreshManager.GenerationTimeLimit ∧
      FreshManager.MinPopulation < (FreshManager.ActiveCreatures.length : Int) ∧
      (FreshManager.ActiveCreatures.length : Int) < FreshManager.MaxPopulation) ∧
    (∃ n, StaleStatsManager.Tick (1 / 10) (41 / 2) [] = Except.ok n ∧
      n.CurrentStats.Generation = StaleStatsManager.CurrentStats.Generation ∧
      n.Events = [] ∧
      (StaleStatsManager.ActiveCreatures.length : Int) ≤ StaleStatsManager.MinPopulation) := by
  constructor
  · have hs := FreshManager_stale
    obtain ⟨n, hrun, _, hgen, _, hev⟩ := Stale_Tick hs (1 / 10) (1 / 10) (by norm_num)
    refine ⟨n, hrun, hgen, ?_, ?_, ?_, ?_⟩
    · rw [hev, FreshManager_Events, FreshManager_Generation]
      rfl
    · rw [FreshManager_CurrentGenerationTime, hs.GenerationTimeLimit]
      norm_num
    · rw [hs.MinPopulation, hs.Live]
      decide
    · rw [hs.MaxPopulation, hs.Live]
      decide
  · refine ⟨({ StaleStatsManager with
      CurrentGenerationTime := StaleStatsManager.CurrentGenerationTime + 1 / 10 } :
        AEcosystemManager).CleanupDeadCreatures, ?_, ?_, ?_, ?_⟩
    · rw [Tick_without_stats_update _ _ _ _ (by norm_num [StaleStatsManager]) rfl,
        CheckGenerationConditions_eq, if_neg (by norm_num [StaleStatsManager])]
    · rfl
    · rfl
    · simp [StaleStatsManager]

/-- C9, evaluated at a failing run: from `InitializeEcosystem` with the default
configuration at world time `0`, the first two ticks of length `0.1` each start
a generation advance.  After them the event log holds `GenerationComplete 1` and
`GenerationComplete 2`, the generation counter is `2` and `50` creatures are
live, although on both ticks the elapsed generation time `0.1` is below the
limit `300`. -/
theorem Run_advances_before_time_limit :
    ∃ n1 n2, FreshManager.Tick (1 / 10) (1 / 10) FortyFiveDraws = Except.ok n1 ∧
      n1.Tick (1 / 10) (1 / 5) FortyFiveDraws = Except.ok n2 ∧
      n2.Events = [ManagerEvent.GenerationComplete 1, ManagerEvent.GenerationComplete 2] ∧
      n2.CurrentStats.Generation = 2 ∧
      n2.ActiveCreatures.length = 50 ∧
      FreshManager.CurrentGenerationTime + 1 / 10 < FreshManager.GenerationTimeLimit ∧
      n1.CurrentGenerationTime + 1 / 10 < n1.GenerationTimeLimit := by
  have hs := FreshManager_stale
  obtain ⟨n1, hrun1, hs1, hgen1, htime1, hev1⟩ :=
    Stale_Tick hs (1 / 10) (1 / 10) (by norm_num)
  obtain ⟨n2, hrun2, hs2, hgen2, _, hev2⟩ := Stale_Tick hs1 (1 / 10) (1 / 5) (by norm_num)
  refine ⟨n1, n2, hrun1, hrun2, ?_, ?_, hs2.Live, ?_, ?_⟩
  · rw [hev2, hev1, hgen1, FreshManager_Events, FreshManager_Generation]
    rfl
  · rw [hgen2, hgen1, FreshManager_Generation]
    rfl
  · rw [FreshManager_CurrentGenerationTime, hs.GenerationTimeLimit]
    norm_num
  · rw [htime1, hs1.GenerationTimeLimit]
    norm_num

/-! ## Population manager: a generation advance without parents -/

theorem SelectParents_of_no_valid (m : AEcosystemManager) (h : m.ValidCount = 0) :
    m.SelectParentsForReproduction = [] := by
  apply List.eq_nil_of_length_eq_zero
  rw [SelectParents_length, h]
  rfl

theorem RoundToInt_zero_mul (e : ℚ) : RoundToInt (((0 : Nat) : ℚ) * e) = 0 := by
  unfold RoundToInt
  rw [Int.floor_eq_iff]
  norm_num

theorem BreedOffspring_nil (m : AEcosystemManager) (d : BreedDraws) :
    m.BreedOffspring [] d = Except.error Fault.ArrayIndexOutOfRange := by
  have hr : ∀ Raw : Nat, RandRange 0 (((([] : List FCreatureGenes).length : Nat) : Int) - 1) Raw
      = 0 := by
    intro Raw
    simp [RandRange]
  have he : ∀ Redraws : List Nat,
      EnsureDifferentParents 0 ((([] : List FCreatureGenes).length : Nat) : Int) 0 Redraws =
        Except.ok 0 := by
    intro Redraws
    cases Redraws <;> simp [EnsureDifferentParents]
  unfold AEcosystemManager.BreedOffspring
  simp only [hr, he]
  simp [ArrayGet]

theorem AdvanceGeneration_of_no_valid (m : AEcosystemManager) (d : BreedDraws)
    (Draws : List BreedDraws) (hflag : m.bGenerationInProgress = false)
    (hv : m.ValidCount = 0) (hi : 0 < m.InitialPopulation) :
    m.AdvanceGeneration (d :: Draws) = Except.error Fault.ArrayIndexOutOfRange := by
  have hsel : ({ m with
      bGenerationInProgress := true
      CurrentStats := { m.CurrentStats with Generation := m.CurrentStats.Generation + 1 } } :
        AEcosystemManager).SelectParentsForReproduction = [] := by
    exact (SelectParents_congr m ({ m with
      bGenerationInProgress := true
      CurrentStats := { m.CurrentStats with Generation := m.CurrentStats.Generation + 1 } } :
        AEcosystemManager) rfl).trans (SelectParents_of_no_valid m hv)
  unfold AEcosystemManager.AdvanceGeneration
  rw [if_neg (by simp [hflag])]
  simp only [hsel, List.length_nil, RoundToInt_zero_mul, Int.toNat_zero,
    AEcosystemManager.EliteLoop, AEcosystemManager.BreedLoop, BreedOffspring_nil]
  simp [hi]

/-- C11, evaluated at a failing input: with no live creature left (a size the
`live population <= MinPopulation` trigger admits) the parent list is empty,
the first offspring iteration draws index `RandRange(0, -1) = 0` and reads
`ParentGenes[0]` out of range, whatever the random draws; the same happens
when the call comes from the tick's trigger. -/
theorem AdvanceGeneration_extinct_reads_out_of_range (d : BreedDraws)
    (Draws : List BreedDraws) :
    ExtinctManager.ActiveCreatures.length = 0 ∧
      ExtinctManager.SelectParentsForReproduction = [] ∧
      ExtinctManager.AdvanceGeneration (d :: Draws) =
        Except.error Fault.ArrayIndexOutOfRange ∧
      ExtinctManager.Tick (1 / 10) (1 / 10) (d :: Draws) =
        Except.error Fault.ArrayIndexOutOfRange := by
  refine ⟨rfl, SelectParents_of_no_valid ExtinctManager rfl,
    AdvanceGeneration_of_no_valid ExtinctManager d Draws rfl rfl (by decide), ?_⟩
  rw [Tick_without_stats_update _ _ _ _ (by norm_num [ExtinctManager]) rfl,
    CheckGenerationConditions_eq, if_pos (Or.inr (Or.inl (by decide))),
    AdvanceGeneration_of_no_valid ({ ExtinctManager with
      CurrentGenerationTime := ExtinctManager.CurrentGenerationTime + 1 / 10 } :
        AEcosystemManager) d Draws rfl rfl
      (show (0 : Int) < ExtinctManager.InitialPopulation by decide)]

/-! ## Creature lifecycle: reproduction -/

theorem CanReproduce_eq_true_iff (c : ACreature) :
    c.CanReproduce = true ↔
      c.Age ≥ c.MaturityAge ∧ c.Energy > 50 ∧ c.Hunger < 70 ∧ c.ReproductionCooldown ≤ 0 ∧
        c.Health > 30 := by
  unfold ACreature.CanReproduce
  simp only [Bool.and_eq_true, decide_eq_true_eq, and_assoc]

theorem MaturityAge_of_initialised (c : ACreature)
    (hinit : c.InitializeWithGenes c.Genes = c) : c.MaturityAge = c.Genes.LifeSpan * (1 / 5) := by
  have h := congrArg ACreature.MaturityAge hinit
  exact h.symm

/-- C12: for every creature initialised with its genome (its cached parameters
are those `InitializeWithGenes` computes from its genome, so maturity age is
`0.2 * lifespan`), `CanReproduce()` is true iff age ≥ 0.2·lifespan and
energy > 50 and hunger < 70 and cooldown ≤ 0 and health > 30; energy = 50,
hunger = 70 and health = 30 each make it false, and age = 0.2·lifespan with
cooldown = 0 passes when the other three guards hold. -/
theorem CanReproduce_iff_five_guards (c : ACreature)
    (hinit : c.InitializeWithGenes c.Genes = c) :
    (c.CanReproduce = true ↔
      c.Age ≥ (1 / 5) * c.Genes.LifeSpan ∧ c.Energy > 50 ∧ c.Hunger < 70 ∧
        c.ReproductionCooldown ≤ 0 ∧ c.Health > 30) ∧
    (c.Energy = 50 → c.CanReproduce = false) ∧
    (c.Hunger = 70 → c.CanReproduce = false) ∧
    (c.Health = 30 → c.CanReproduce = false) ∧
    (c.Age = (1 / 5) * c.Genes.LifeSpan → c.ReproductionCooldown = 0 → c.Energy > 50 →
      c.Hunger < 70 → c.Health > 30 → c.CanReproduce = true) := by
  have hm : c.MaturityAge = (1 / 5) * c.Genes.LifeSpan := by
    rw [MaturityAge_of_initialised c hinit]
    ring
  have hiff := CanReproduce_eq_true_iff c
  rw [hm] at hiff
  refine ⟨hiff, ?_, ?_, ?_, ?_⟩
  · intro h
    rw [Bool.eq_false_iff]
    intro ht
    have := (hiff.mp ht).2.1
    rw [h] at this
    exact lt_irrefl _ this
  · intro h
    rw [Bool.eq_false_iff]
    intro ht
    have := (hiff.mp ht).2.2.1
    rw [h] at this
    exact lt_irrefl _ this
  · intro h
    rw [Bool.eq_false_iff]
    intro ht
    have := (hiff.mp ht).2.2.2.2
    rw [h] at this
    exact lt_irrefl _ this
  · intro ha hc he hh hl
    exact hiff.mpr ⟨ha.ge, he, hh, hc.le, hl⟩

/-- Witness of `CanReproduce_iff_five_guards`: a creature exactly at its
maturity age with cooldown `0` can reproduce with energy `51`, and cannot with
energy `50`. -/
theorem CanReproduce_iff_five_guards_witness :
    MatureCreature.InitializeWithGenes MatureCreature.Genes = MatureCreature ∧
      MatureCreature.CanReproduce = true ∧ TiredCreature.CanReproduce = false :=
  ⟨rfl,
    (CanReproduce_iff_five_guards MatureCreature rfl).2.2.2.2
      (by norm_num [MatureCreature, ACreature.InitializeWithGenes, ACreature.ApplyGeneticTraits])
      rfl
      (by norm_num [MatureCreature])
      (by norm_num [MatureCreature, ACreature.InitializeWithGenes, ACreature.ApplyGeneticTraits,
        NewCreature])
      (by norm_num [MatureCreature, ACreature.InitializeWithGenes, ACreature.ApplyGeneticTraits,
        NewCreature]),
    (CanReproduce_iff_five_guards TiredCreature rfl).2.1 rfl⟩

theorem TiredCreature_CanReproduce : TiredCreature.CanReproduce = false := by
  rw [Bool.eq_false_iff]
  intro ht
  have h := ((CanReproduce_eq_true_iff TiredCreature).mp ht).2.1
  norm_num [TiredCreature] at h

theorem MatureCreature_CanReproduce : MatureCreature.CanReproduce = true := by
  rw [CanReproduce_eq_true_iff]
  norm_num [MatureCreature, ACreature.InitializeWithGenes, ACreature.ApplyGeneticTraits,
    NewCreature]

theorem MatureMate_CanReproduce : MatureMate.CanReproduce = true := by
  rw [CanReproduce_eq_true_iff]
  norm_num [MatureMate, ACreature.InitializeWithGenes, ACreature.ApplyGeneticTraits,
    NewCreature]

/-- C13: whenever the mate is absent or at least one of the two creatures does
not satisfy `CanReproduce()`, `AttemptReproduction` returns false, broadcasts
nothing and leaves both creatures exactly as they were (so energy, cooldown and
offspring count are unchanged); the same call repeated on the state it leaves,
with any draws, again gives that result. -/
theorem AttemptReproduction_refused (c : ACreature) (Mate : Option ACreature)
    (cd cd2 : CrossoverDraws) (md md2 : MutateDraws)
    (h : Mate = none ∨ c.CanReproduce = false ∨ ∃ M, Mate = some M ∧ M.CanReproduce = false) :
    c.AttemptReproduction Mate cd md =
        { Self := c, Mate := Mate, Events := [], ReturnValue := false } ∧
      (c.AttemptReproduction Mate cd md).Self.AttemptReproduction
          (c.AttemptReproduction Mate cd md).Mate cd2 md2 =
        { Self := c, Mate := Mate, Events := [], ReturnValue := false } := by
  have key : ∀ (x : CrossoverDraws) (y : MutateDraws), c.AttemptReproduction Mate x y =
      { Self := c, Mate := Mate, Events := [], ReturnValue := false } := by
    intro x y
    unfold ACreature.AttemptReproduction
    rcases h with h | h | ⟨M, hM, hMc⟩
    · subst h
      rfl
    · cases Mate with
      | none => rfl
      | some M => simp [h]
    · subst hM
      simp [hMc]
  refine ⟨key cd md, ?_⟩
  rw [key cd md]
  exact key cd2 md2

/-- Witness of `AttemptReproduction_refused`: a creature with energy `50`
approaching an eligible mate is refused and nothing changes. -/
theorem AttemptReproduction_refused_witness :
    TiredCreature.CanReproduce = false ∧
      TiredCreature.AttemptReproduction (some MatureMate) HalfCrossoverDraws HalfMutateDraws =
        { Self := TiredCreature, Mate := some MatureMate, Events := [], ReturnValue := false } :=
  ⟨TiredCreature_CanReproduce,
    (AttemptReproduction_refused TiredCreature (some MatureMate) HalfCrossoverDraws
      HalfCrossoverDraws HalfMutateDraws HalfMutateDraws
      (Or.inr (Or.inl TiredCreature_CanReproduce))).1⟩

/-- C14: for every two distinct creatures that both satisfy `CanReproduce()`,
`AttemptReproduction` returns true; afterwards each parent's energy is exactly
`30` lower, each parent's cooldown is `20` divided by its own genome's
reproduction rate, each parent's offspring count is exactly `1` higher, every
other member of both parents is as before, and exactly one reproduction event
has been broadcast, carrying both parents and the offspring genome
`Mutate(Crossover(genomeA, genomeB), 0.1, 0.2)`. -/
theorem AttemptReproduction_success (c Mate : ACreature) (cd : CrossoverDraws)
    (md : MutateDraws) (_hne : c.Id ≠ Mate.Id) (hc : c.CanReproduce = true)
    (hm : Mate.CanReproduce = true) :
    c.AttemptReproduction (some Mate) cd md =
      { Self := { c with
          Energy := c.Energy - 30
          ReproductionCooldown := 20 / c.Genes.ReproductionRate
          OffspringCount := c.OffspringCount + 1 }
        Mate := some { Mate with
          Energy := Mate.Energy - 30
          ReproductionCooldown := 20 / Mate.Genes.ReproductionRate
          OffspringCount := Mate.OffspringCount + 1 }
        Events := [CreatureEvent.Reproduction c.Id Mate.Id
          ((FCreatureGenes.Crossover c.Genes Mate.Genes cd).Mutate (1 / 10) (1 / 5) md)]
        ReturnValue := true } := by
  unfold ACreature.AttemptReproduction
  simp [hc, hm]

/-- Witness of `AttemptReproduction_success`: two mature creatures with energy
`51` mate; the call returns true and the caller's energy is `21` afterwards. -/
theorem AttemptReproduction_success_witness :
    MatureCreature.CanReproduce = true ∧ MatureMate.CanReproduce = true ∧
      (MatureCreature.AttemptReproduction (some MatureMate) HalfCrossoverDraws
        HalfMutateDraws).ReturnValue = true ∧
      (MatureCreature.AttemptReproduction (some MatureMate) HalfCrossoverDraws
        HalfMutateDraws).Self.Energy = 21 := by
  have h := AttemptReproduction_success MatureCreature MatureMate HalfCrossoverDraws
    HalfMutateDraws (by decide) MatureCreature_CanReproduce MatureMate_CanReproduce
  refine ⟨MatureCreature_CanReproduce, MatureMate_CanReproduce, ?_, ?_⟩
  · rw [h]
  · rw [h]
    norm_num [MatureCreature]

/-! ## Creature lifecycle: damage and death -/

theorem CalculateFitnessScore_nonneg (c : ACreature) : 0 ≤ c.CalculateFitnessScore :=
  le_max_left _ _

/-- C15: for every creature with damage resistance above zero, every amount
≥ 0 and every attacker, `TakeDamage` sets health to
`max(0, health - amount/damageResistance)`.  If the new health is `0`, exactly
one death event is broadcast, carrying the creature and its fitness score, which
is ≥ 0, the creature's state is `Dying` and the attacker's combat-win counter is
exactly `1` higher (nothing else of the attacker changes).  If the new health is
above `0`, nothing is broadcast, the attacker is unchanged and only the health of
the creature has changed. -/
theorem TakeDamage_effects (c Attacker : ACreature) (DamageAmount : ℚ)
    (_hr : 0 < c.Genes.DamageResistance) (_ha : 0 ≤ DamageAmount) :
    (c.TakeDamage DamageAmount (some Attacker)).Self.Health =
        max 0 (c.Health - DamageAmount / c.Genes.DamageResistance) ∧
    ((c.TakeDamage DamageAmount (some Attacker)).Self.Health = 0 →
      (c.TakeDamage DamageAmount (some Attacker)).Events =
          [CreatureEvent.Death c.Id c.CalculateFitnessScore] ∧
        0 ≤ c.CalculateFitnessScore ∧
        (c.TakeDamage DamageAmount (some Attacker)).Self.CurrentState = ECreatureState.Dying ∧
        (c.TakeDamage DamageAmount (some Attacker)).Attacker =
          some { Attacker with CombatWins := Attacker.CombatWins + 1 }) ∧
    (0 < (c.TakeDamage DamageAmount (some Attacker)).Self.Health →
      (c.TakeDamage DamageAmount (some Attacker)).Events = [] ∧
        (c.TakeDamage DamageAmount (some Attacker)).Attacker = some Attacker ∧
        (c.TakeDamage DamageAmount (some Attacker)).Self =
          { c with Health := max 0 (c.Health - DamageAmount / c.Genes.DamageResistance) }) := by
  by_cases hd : max 0 (c.Health - DamageAmount / c.Genes.DamageResistance) ≤ 0
  · have hrun : c.TakeDamage DamageAmount (some Attacker) =
        { Self := ({ c with
            Health := max 0 (c.Health - DamageAmount / c.Genes.DamageResistance) } :
              ACreature).SetCreatureState ECreatureState.Dying
          Attacker := some { Attacker with CombatWins := Attacker.CombatWins + 1 }
          Events := [CreatureEvent.Death c.Id c.CalculateFitnessScore] } := by
      unfold ACreature.TakeDamage
      simp only [hd, if_true]
      rfl
    rw [hrun]
    refine ⟨rfl, fun _ => ⟨rfl, CalculateFitnessScore_nonneg c, rfl, rfl⟩, fun hpos => ?_⟩
    exact absurd hd (not_le.mpr hpos)
  · have hrun : c.TakeDamage DamageAmount (some Attacker) =
        { Self := { c with
            Health := max 0 (c.Health - DamageAmount / c.Genes.DamageResistance) }
          Attacker := some Attacker
          Events := [] } := by
      unfold ACreature.TakeDamage
      simp only [hd, if_false]
    rw [hrun]
    refine ⟨rfl, fun h0 => ?_, fun _ => ⟨rfl, rfl, rfl⟩⟩
    exact absurd (le_of_eq h0) hd

/-- Witness of `TakeDamage_effects`: health `5`, amount `10`, damage resistance
`1` give health `0`, one death event and one more combat win for the attacker. -/
theorem TakeDamage_effects_witness :
    (0 : ℚ) < WoundedCreature.Genes.DamageResistance ∧
      (WoundedCreature.TakeDamage 10 (some AttackerCreature)).Self.Health = 0 ∧
      (WoundedCreature.TakeDamage 10 (some AttackerCreature)).Events =
        [CreatureEvent.Death WoundedCreature.Id WoundedCreature.CalculateFitnessScore] ∧
      (WoundedCreature.TakeDamage 10 (some AttackerCreature)).Attacker =
        some { AttackerCreature with CombatWins := AttackerCreature.CombatWins + 1 } := by
  have hr : (0 : ℚ) < WoundedCreature.Genes.DamageResistance := by
    norm_num [WoundedCreature, ACreature.InitializeWithGenes, ACreature.ApplyGeneticTraits]
  have h := TakeDamage_effects WoundedCreature AttackerCreature 10 hr (by norm_num)
  have h0 : (WoundedCreature.TakeDamage 10 (some AttackerCreature)).Self.Health = 0 := by
    rw [h.1]
    norm_num [WoundedCreature, ACreature.InitializeWithGenes, ACreature.ApplyGeneticTraits,
      NewCreature]
  exact ⟨hr, h0, (h.2.1 h0).1, (h.2.1 h0).2.2.2⟩

/-! ## Creature lifecycle: the live-record invariant -/

theorem initialised_default_LiveInvariant (Id : Nat) :
    ((NewCreature Id).InitializeWithGenes {}).LiveInvariant := by
  constructor <;>
    norm_num [NewCreature, ACreature.InitializeWithGenes, ACreature.ApplyGeneticTraits]

/-- C16, evaluated at failing inputs.  Each creature below satisfies the
live-record invariant before the operation and not after it.  (a) A tick of
`0.1` on a healthy creature whose cooldown has `0.05` left leaves the cooldown at
`-0.05`.  (b) A tick of `0.1` in poor visibility on a creature without energy
leaves its energy at `-0.02` (it lives on with health `99`).  (c) A tick of `0.1`
on a creature without energy and with health `0.5` leaves its health at `-0.5`.
(d) `Attack` by a creature with energy `3` leaves its energy at `-2`. -/
theorem LiveInvariant_broken_by_tick_and_attack :
    (CoolingCreature.LiveInvariant ∧
      (CoolingCreature.Tick (1 / 10) none false).1.ReproductionCooldown = -(1 / 20) ∧
      (CoolingCreature.Tick (1 / 10) none false).2 = [] ∧
      ¬ (CoolingCreature.Tick (1 / 10) none false).1.LiveInvariant) ∧
    (ExhaustedCreature.LiveInvariant ∧
      (ExhaustedCreature.Tick (1 / 10) (some FoggyWeather) true).1.Energy = -(1 / 50) ∧
      (ExhaustedCreature.Tick (1 / 10) (some FoggyWeather) true).1.Health = 99 ∧
      (ExhaustedCreature.Tick (1 / 10) (some FoggyWeather) true).2 = [] ∧
      ¬ (ExhaustedCreature.Tick (1 / 10) (some FoggyWeather) true).1.LiveInvariant) ∧
    (StarvingCreature.LiveInvariant ∧
      (StarvingCreature.Tick (1 / 10) none false).1.Health = -(1 / 2) ∧
      ¬ (StarvingCreature.Tick (1 / 10) none false).1.LiveInvariant) ∧
    (WearyCreature.LiveInvariant ∧
      (WearyCreature.Attack (some AttackerCreature) 100 10).Self.Energy = -2 ∧
      ¬ (WearyCreature.Attack (some AttackerCreature) 100 10).Self.LiveInvariant) := by
  have ha : (CoolingCreature.Tick (1 / 10) none false).1.ReproductionCooldown = -(1 / 20) := by
    norm_num [ACreature.Tick, ACreature.UpdateLifeStats, ACreature.UpdateWeatherEffects,
      ACreature.Die, ACreature.SetCreatureState, CoolingCreature, NewCreature,
      ACreature.InitializeWithGenes, ACreature.ApplyGeneticTraits]
  have ha2 : (CoolingCreature.Tick (1 / 10) none false).2 = [] := by
    norm_num [ACreature.Tick, ACreature.UpdateLifeStats, ACreature.UpdateWeatherEffects,
      ACreature.Die, ACreature.SetCreatureState, CoolingCreature, NewCreature,
      ACreature.InitializeWithGenes, ACreature.ApplyGeneticTraits]
  have hb : (ExhaustedCreature.Tick (1 / 10) (some FoggyWeather) true).1.Energy = -(1 / 50) := by
    norm_num [ACreature.Tick, ACreature.UpdateLifeStats, ACreature.UpdateWeatherEffects,
      ACreature.Die, ACreature.SetCreatureState, ExhaustedCreature, FoggyWeather, NewCreature,
      ACreature.InitializeWithGenes, ACreature.ApplyGeneticTraits]
  have hb2 : (ExhaustedCreature.Tick (1 / 10) (some FoggyWeather) true).1.Health = 99 := by
    norm_num [ACreature.Tick, ACreature.UpdateLifeStats, ACreature.UpdateWeatherEffects,
      ACreature.Die, ACreature.SetCreatureState, ExhaustedCreature, FoggyWeather, NewCreature,
      ACreature.InitializeWithGenes, ACreature.ApplyGeneticTraits]
  have hb3 : (ExhaustedCreature.Tick (1 / 10) (some FoggyWeather) true).2 = [] := by
    norm_num [ACreature.Tick, ACreature.UpdateLifeStats, ACreature.UpdateWeatherEffects,
      ACreature.Die, ACreature.SetCreatureState, ExhaustedCreature, FoggyWeather, NewCreature,
      ACreature.InitializeWithGenes, ACreature.ApplyGeneticTraits]
  have hc : (StarvingCreature.Tick (1 / 10) none false).1.Health = -(1 / 2) := by
    norm_num [ACreature.Tick, ACreature.UpdateLifeStats, ACreature.UpdateWeatherEffects,
      ACreature.Die, ACreature.SetCreatureState, StarvingCreature, NewCreature,
      ACreature.InitializeWithGenes, ACreature.ApplyGeneticTraits]
  have hd : (WearyCreature.Attack (some AttackerCreature) 100 10).Self.Energy = -2 := by
    norm_num [ACreature.Attack, ACreature.TakeDamage, ACreature.Die,
      ACreature.SetCreatureState, WearyCreature, AttackerCreature, NewCreature,
      ACreature.InitializeWithGenes, ACreature.ApplyGeneticTraits]
  refine ⟨⟨?_, ha, ha2, fun h => ?_⟩, ⟨?_, hb, hb2, hb3, fun h => ?_⟩, ⟨?_, hc, fun h => ?_⟩,
    ⟨?_, hd, fun h => ?_⟩⟩
  · constructor <;>
      norm_num [CoolingCreature, NewCreature, ACreature.InitializeWithGenes,
        ACreature.ApplyGeneticTraits]
  · have := h.ReproductionCooldown
    rw [ha] at this
    norm_num at this
  · constructor <;>
      norm_num [ExhaustedCreature, NewCreature, ACreature.InitializeWithGenes,
        ACreature.ApplyGeneticTraits]
  · have := h.Energy.1
    rw [hb] at this
    norm_num at this
  · constructor <;>
      norm_num [StarvingCreature, NewCreature, ACreature.InitializeWithGenes,
        ACreature.ApplyGeneticTraits]
  · have := h.Health.1
    rw [hc] at this
    norm_num at this
  · constructor <;>
      norm_num [WearyCreature, NewCreature, ACreature.InitializeWithGenes,
        ACreature.ApplyGeneticTraits]
  · have := h.Energy.1
    rw [hd] at this
    norm_num at this

/-! ## Population manager: ledger query and reproduction handler -/

/-- C17: for every ledger and every `Count ≥ 0`, `GetTopPerformers(Count)`
returns the genomes of a list `Returned` of ledger entries such that `Returned`
together with the entries `Rest` not returned is a rearrangement of the ledger,
`Returned` is in non-increasing order of recorded fitness, every returned
entry's fitness is at least that of every entry not returned, and the number
returned is `min(Count, ledger size)`; the result is the same for every manager
with the same ledger (the live creatures play no part), and the call, a `const`
member returning only the genomes, leaves the ledger as it is. -/
theorem GetTopPerformers_top_of_ledger (m : AEcosystemManager) (Count : Int)
    (hn : 0 ≤ Count) :
    (∃ Returned Rest : List FCreatureRecord,
      m.GetTopPerformers Count = Returned.map (fun Record => Record.Genes) ∧
      (Returned ++ Rest).Perm m.CreatureHistory ∧
      Returned.Pairwise (fun A B => B.FitnessScore ≤ A.FitnessScore) ∧
      (∀ A ∈ Returned, ∀ B ∈ Rest, B.FitnessScore ≤ A.FitnessScore) ∧
      Returned.length = min Count.toNat m.CreatureHistory.length) ∧
    (∀ n : AEcosystemManager, n.CreatureHistory = m.CreatureHistory →
      n.GetTopPerformers Count = m.GetTopPerformers Count) := by
  have hsorted : (SortByFitness m.CreatureHistory).Sorted FitnessOrder :=
    List.sorted_insertionSort FitnessOrder _
  have hlen := SortByFitness_length m.CreatureHistory
  constructor
  · refine ⟨(SortByFitness m.CreatureHistory).take
        (min Count ((SortByFitness m.CreatureHistory).length : Int)).toNat,
      (SortByFitness m.CreatureHistory).drop
        (min Count ((SortByFitness m.CreatureHistory).length : Int)).toNat,
      rfl, ?_, ?_, ?_, ?_⟩
    · rw [List.take_append_drop]
      exact List.perm_insertionSort _ _
    · have hp : ((SortByFitness m.CreatureHistory).take
          (min Count ((SortByFitness m.CreatureHistory).length : Int)).toNat).Pairwise
            FitnessOrder :=
        List.Pairwise.sublist (List.take_sublist _ _) hsorted
      exact hp.imp (fun hab => not_lt.mp hab)
    · intro A hA B hB
      exact not_lt.mp (hsorted.rel_of_mem_take_of_mem_drop hA hB)
    · rw [List.length_take, hlen]
      omega
  · intro n h
    unfold AEcosystemManager.GetTopPerformers
    rw [h]

/-- Witness of `GetTopPerformers_top_of_ledger`: from a ledger of two entries,
`GetTopPerformers(1)` returns one genome. -/
theorem GetTopPerformers_top_of_ledger_witness :
    (0 : Int) ≤ 1 ∧ (TwoRecordManager.GetTopPerformers 1).length = 1 := by
  obtain ⟨⟨Returned, Rest, hres, _, _, _, hlen⟩, _⟩ :=
    GetTopPerformers_top_of_ledger TwoRecordManager 1 (by decide)
  refine ⟨by decide, ?_⟩
  rw [hres, List.length_map, hlen]
  rfl

theorem OnCreatureReproduction_MaxPopulation (m : AEcosystemManager) (g : FCreatureGenes) :
    (m.OnCreatureReproduction g).MaxPopulation = m.MaxPopulation := by
  unfold AEcosystemManager.OnCreatureReproduction
  split_ifs
  · have h := SpawnAll_MaxPopulation m [g]
    exact h
  · rfl

theorem OnCreatureReproduction_length_le (m : AEcosystemManager) (g : FCreatureGenes)
    (h : (m.ActiveCreatures.length : Int) ≤ m.MaxPopulation) :
    ((m.OnCreatureReproduction g).ActiveCreatures.length : Int) ≤ m.MaxPopulation := by
  unfold AEcosystemManager.OnCreatureReproduction
  split_ifs with hlt
  · by_cases hc : m.CreatureClass = true
    · rw [SpawnCreature_eq m g hc]
      simp only [List.length_append, List.length_singleton]
      push_cast
      omega
    · have hm : m.SpawnCreature g = m := by simp [AEcosystemManager.SpawnCreature, hc]
      rw [hm]
      exact h
  · exact h

/-- C18: on a reproduction event, when the live count is strictly below
`MaxPopulation` (and the creature class is set, so that the spawn succeeds)
exactly one creature is appended to the live set and it carries the event's
offspring genome; otherwise the manager, and with it the live set, is left
unchanged.  Consequently, from any state with live count at most
`MaxPopulation`, no sequence of reproduction events raises the live count above
`MaxPopulation`. -/
theorem OnCreatureReproduction_cap (m : AEcosystemManager) (g : FCreatureGenes) :
    (m.CreatureClass = true → (m.ActiveCreatures.length : Int) < m.MaxPopulation →
      ∃ c : ACreature, c.Genes = g ∧
        (m.OnCreatureReproduction g).ActiveCreatures = m.ActiveCreatures ++ [c]) ∧
    (¬ ((m.ActiveCreatures.length : Int) < m.MaxPopulation) →
      m.OnCreatureReproduction g = m) ∧
    (∀ Offspring : List FCreatureGenes, (m.ActiveCreatures.length : Int) ≤ m.MaxPopulation →
      (((Offspring.foldl AEcosystemManager.OnCreatureReproduction m).ActiveCreatures.length :
        Nat) : Int) ≤ m.MaxPopulation) := by
  refine ⟨?_, ?_, ?_⟩
  · intro hc hlt
    refine ⟨({ Id := m.NextId } : ACreature).InitializeWithGenes g, rfl, ?_⟩
    unfold AEcosystemManager.OnCreatureReproduction
    rw [if_pos hlt, SpawnCreature_eq m g hc]
  · intro hge
    unfold AEcosystemManager.OnCreatureReproduction
    rw [if_neg hge]
  · intro Offspring
    induction Offspring generalizing m with
    | nil => intro h; exact h
    | cons x xs ih =>
      intro h
      rw [List.foldl_cons]
      have := ih (m.OnCreatureReproduction x)
        (by rw [OnCreatureReproduction_MaxPopulation]
            exact OnCreatureReproduction_length_le m x h)
      rw [OnCreatureReproduction_MaxPopulation] at this
      exact this

/-- Witness of `OnCreatureReproduction_cap`: with two live creatures and the
default `MaxPopulation = 200`, a reproduction event adds a third. -/
theorem OnCreatureReproduction_cap_witness :
    PairManager.CreatureClass = true ∧
      ((PairManager.ActiveCreatures.length : Nat) : Int) < PairManager.MaxPopulation ∧
      ∃ c : ACreature, c.Genes = OversizedGenes ∧
        (PairManager.OnCreatureReproduction OversizedGenes).ActiveCreatures =
          PairManager.ActiveCreatures ++ [c] :=
  ⟨rfl, by decide,
    (OnCreatureReproduction_cap PairManager OversizedGenes).1 rfl (by decide)⟩

/-! ## Resource field: damage -/

theorem NutrientValueOf_of_ConfigFor (e : ANaniteEnvironment) (FoliageType : Nat)
    (Config : FNaniteFoliageConfig) (h : e.ConfigFor FoliageType = some Config) :
    e.NutrientValueOf FoliageType = Config.NutrientValue := by
  unfold ANaniteEnvironment.NutrientValueOf
  rw [h]

theorem DamageInstance_eq (e : ANaniteEnvironment) (Dist : FVector → FVector → ℚ)
    (Location : FVector) (Radius Damage : ℚ) (I : FFoliageInstanceData)
    (hI : ∃ Config, e.ConfigFor I.FoliageType = some Config) :
    e.DamageInstance Dist Location Radius Damage I =
      if I.bIsDestroyed = true ∨ Radius < Dist I.Transform.GetLocation Location then
        (I, [], false)
      else if I.Health - Damage * (1 - Dist I.Transform.GetLocation Location / Radius) ≤ 0 then
        ({ I with
            Health := I.Health - Damage * (1 - Dist I.Transform.GetLocation Location / Radius)
            bIsDestroyed := true
            TimeUntilRegrowth := I.RegrowthTime },
          [{ Location := I.Transform.GetLocation
             FoliageType := I.FoliageType
             NutrientValue := e.NutrientValueOf I.FoliageType }],
          true)
      else
        ({ I with
            Health := I.Health - Damage * (1 - Dist I.Transform.GetLocation Location / Radius) },
          [], true) := by
  obtain ⟨Config, hC⟩ := hI
  have hN := NutrientValueOf_of_ConfigFor e I.FoliageType Config hC
  unfold ANaniteEnvironment.DamageInstance
  by_cases hd : I.bIsDestroyed = true
  · simp [hd]
  · by_cases hr : Dist I.Transform.GetLocation Location ≤ Radius
    · by_cases hh : I.Health -
          Damage * (1 - Dist I.Transform.GetLocation Location / Radius) ≤ 0
      · simp [hd, hr, not_lt.mpr hr, hh, hC, hN]
      · simp [hd, hr, not_lt.mpr hr, hh]
    · simp [hd, hr, not_le.mp hr]

theorem DamageLoop_fst (e : ANaniteEnvironment) (Dist : FVector → FVector → ℚ)
    (Location : FVector) (Radius Damage : ℚ) (l : List FFoliageInstanceData) :
    (ANaniteEnvironment.DamageLoop e Dist Location Radius Damage l).1 =
      l.map (fun I => (e.DamageInstance Dist Location Radius Damage I).1) := by
  induction l with
  | nil => rfl
  | cons I Rest ih => simp [ANaniteEnvironment.DamageLoop, ih]

theorem DamageLoop_events (e : ANaniteEnvironment) (Dist : FVector → FVector → ℚ)
    (Location : FVector) (Radius Damage : ℚ) (l : List FFoliageInstanceData)
    (hl : ∀ I ∈ l, ∃ Config, e.ConfigFor I.FoliageType = some Config) :
    (ANaniteEnvironment.DamageLoop e Dist Location Radius Damage l).2.1 =
      (l.filter (fun I => !I.bIsDestroyed &&
          decide (Dist I.Transform.GetLocation Location ≤ Radius) &&
          decide (I.Health -
            Damage * (1 - Dist I.Transform.GetLocation Location / Radius) ≤ 0))).map
        (fun I =>
          { Location := I.Transform.GetLocation
            FoliageType := I.FoliageType
            NutrientValue := e.NutrientValueOf I.FoliageType }) := by
  induction l with
  | nil => rfl
  | cons I Rest ih =>
    have hrest := ih (fun J hJ => hl J (List.mem_cons_of_mem _ hJ))
    have hstep := DamageInstance_eq e Dist Location Radius Damage I
      (hl I (List.mem_cons_self _ _))
    simp only [ANaniteEnvironment.DamageLoop, hrest, hstep]
    by_cases hd : I.bIsDestroyed = true
    · simp [hd, List.filter_cons]
    · by_cases hr : Dist I.Transform.GetLocation Location ≤ Radius
      · by_cases hh : I.Health -
            Damage * (1 - Dist I.Transform.GetLocation Location / Radius) ≤ 0
        · simp [hd, hr, not_lt.mpr hr, hh, sub_nonpos.mp hh, List.filter_cons]
        · simp [hd, hr, not_lt.mpr hr, hh, mt sub_nonpos.mpr hh, List.filter_cons]
      · simp [hd, hr, not_le.mp hr, List.filter_cons]

theorem GroveEnvironment_TypesConfigured : GroveEnvironment.TypesConfigured := by
  intro I hI
  simp only [GroveEnvironment, List.mem_cons, List.mem_singleton, List.not_mem_nil,
    or_false] at hI
  rcases hI with hI | hI | hI <;> subst hI <;> exact ⟨_, rfl, rfl⟩

/-- C19: for every resource field whose instances belong to configured
categories, every location, every radius above zero and every amount,
`DamageFoliage` relates each instance before (`Old`) to the instance at the same
position afterwards (`New`) as follows.  If `Old` is destroyed or farther than
the radius, it is untouched.  If `Old` is not destroyed and at distance
`d ≤ radius`, its health is lowered by exactly `amount * (1 - d/radius)` (the
full amount at `d = 0`, nothing at `d = radius`), its category, transform and
regrowth time are kept, and it is marked destroyed with its countdown set to its
regrowth time exactly when the new health is ≤ 0.  The broadcasts added are, in
instance order, exactly one destruction event for each instance whose health
thereby became ≤ 0, carrying its position, its category and that category's
configured nutrient value.  On a destroyed instance the loop body changes
nothing and broadcasts nothing, so a later call leaves it alone. -/
theorem DamageFoliage_effects (e : ANaniteEnvironment) (Dist : FVector → FVector → ℚ)
    (Location : FVector) (Radius Damage : ℚ) (hR : 0 < Radius) (hcfg : e.TypesConfigured) :
    List.Forall₂
      (fun Old New : FFoliageInstanceData =>
        ((Old.bIsDestroyed = true ∨ Radius < Dist Old.Transform.GetLocation Location) →
          New = Old) ∧
        (Old.bIsDestroyed = false → Dist Old.Transform.GetLocation Location ≤ Radius →
          New.Health =
            Old.Health - Damage * (1 - Dist Old.Transform.GetLocation Location / Radius) ∧
          (Dist Old.Transform.GetLocation Location = 0 → New.Health = Old.Health - Damage) ∧
          (Dist Old.Transform.GetLocation Location = Radius → New.Health = Old.Health) ∧
          New.FoliageType = Old.FoliageType ∧ New.Transform = Old.Transform ∧
          New.RegrowthTime = Old.RegrowthTime ∧
          (New.Health ≤ 0 →
            New.bIsDestroyed = true ∧ New.TimeUntilRegrowth = Old.RegrowthTime) ∧
          (0 < New.Health →
            New.bIsDestroyed = false ∧ New.TimeUntilRegrowth = Old.TimeUntilRegrowth)))
      e.FoliageInstances (e.DamageFoliage Dist Location Radius Damage).1.FoliageInstances ∧
    (e.DamageFoliage Dist Location Radius Damage).1.Events =
      e.Events ++
        (e.FoliageInstances.filter (fun I => !I.bIsDestroyed &&
            decide (Dist I.Transform.GetLocation Location ≤ Radius) &&
            decide (I.Health -
              Damage * (1 - Dist I.Transform.GetLocation Location / Radius) ≤ 0))).map
          (fun I =>
            { Location := I.Transform.GetLocation
              FoliageType := I.FoliageType
              NutrientValue := e.NutrientValueOf I.FoliageType }) ∧
    (∀ I ∈ e.FoliageInstances, I.bIsDestroyed = true →
      e.DamageInstance Dist Location Radius Damage I = (I, [], false)) := by
  have hl : ∀ I ∈ e.FoliageInstances, ∃ Config, e.ConfigFor I.FoliageType = some Config :=
    fun I hI => (hcfg I hI).imp (fun _ h => h.1)
  refine ⟨?_, ?_, ?_⟩
  · show List.Forall₂ _ e.FoliageInstances
      (ANaniteEnvironment.DamageLoop e Dist Location Radius Damage e.FoliageInstances).1
    rw [DamageLoop_fst, List.forall₂_map_right_iff, List.forall₂_same]
    intro I hI
    rw [DamageInstance_eq e Dist Location Radius Damage I (hl I hI)]
    refine ⟨fun hout => by rw [if_pos hout], fun hd hr => ?_⟩
    have hnot : ¬ (I.bIsDestroyed = true ∨ Radius < Dist I.Transform.GetLocation Location) := by
      rintro (h | h)
      · rw [hd] at h
        exact Bool.false_ne_true h
      · exact absurd hr (not_le.mpr h)
    rw [if_neg hnot]
    have hzero : Dist I.Transform.GetLocation Location = 0 →
        I.Health - Damage * (1 - Dist I.Transform.GetLocation Location / Radius) =
          I.Health - Damage := by
      intro h0
      rw [h0]
      simp
    have hfull : Dist I.Transform.GetLocation Location = Radius →
        I.Health - Damage * (1 - Dist I.Transform.GetLocation Location / Radius) =
          I.Health := by
      intro hRd
      rw [hRd, div_self (ne_of_gt hR)]
      simp
    by_cases hh : I.Health -
        Damage * (1 - Dist I.Transform.GetLocation Location / Radius) ≤ 0
    · rw [if_pos hh]
      exact ⟨rfl, hzero, hfull, rfl, rfl, rfl, fun _ => ⟨rfl, rfl⟩,
        fun hpos => absurd hh (not_le.mpr hpos)⟩
    · rw [if_neg hh]
      exact ⟨rfl, hzero, hfull, rfl, rfl, rfl, fun hle => absurd hle hh,
        fun _ => ⟨hd, rfl⟩⟩
  · show e.Events ++
      (ANaniteEnvironment.DamageLoop e Dist Location Radius Damage e.FoliageInstances).2.1 = _
    rw [DamageLoop_events e Dist Location Radius Damage e.FoliageInstances hl]
  · intro I hI hd
    rw [DamageInstance_eq e Dist Location Radius Damage I (hl I hI), if_pos (Or.inl hd)]

/-- Witness of `DamageFoliage_effects`: damage `150` with radius `100` at the
origin of the grove destroys the tree at distance `0` and broadcasts one event
for it, with the nutrient value `25` of trees. -/
theorem DamageFoliage_effects_witness :
    (0 : ℚ) < 100 ∧ GroveEnvironment.TypesConfigured ∧
      (GroveEnvironment.DamageFoliage AxisDist {} 100 150).1.Events =
        [{ Location := { X := 0 }, FoliageType := EFoliageType.Tree, NutrientValue := 25 }] := by
  refine ⟨by norm_num, GroveEnvironment_TypesConfigured, ?_⟩
  rw [(DamageFoliage_effects GroveEnvironment AxisDist {} 100 150 (by norm_num)
    GroveEnvironment_TypesConfigured).2.1]
  norm_num [GroveEnvironment, AxisDist, FTransform.GetLocation, List.filter,
    ANaniteEnvironment.NutrientValueOf, ANaniteEnvironment.ConfigFor, FindRef]

/-! ## Resource field: consumption -/

theorem ConsumeInstance_eq (e : ANaniteEnvironment) (Dist : FVector → FVector → ℚ)
    (Location : FVector) (ConsumeRadius : ℚ) (I : FFoliageInstanceData)
    (hI : ∃ Config, e.ConfigFor I.FoliageType = some Config) :
    e.ConsumeInstance Dist Location ConsumeRadius I =
      if I.bIsDestroyed = true ∨ ConsumeRadius < Dist I.Transform.GetLocation Location then
        (I, 0)
      else
        ({ I with bIsDestroyed := true, TimeUntilRegrowth := I.RegrowthTime },
          e.NutrientValueOf I.FoliageType) := by
  obtain ⟨Config, hC⟩ := hI
  have hN := NutrientValueOf_of_ConfigFor e I.FoliageType Config hC
  unfold ANaniteEnvironment.ConsumeInstance
  by_cases hd : I.bIsDestroyed = true
  · simp [hd]
  · by_cases hr : Dist I.Transform.GetLocation Location ≤ ConsumeRadius
    · simp [hd, hr, not_lt.mpr hr, hC, hN]
    · simp [hd, hr, not_le.mp hr]

theorem ConsumeLoop_eq (e : ANaniteEnvironment) (Dist : FVector → FVector → ℚ)
    (Location : FVector) (ConsumeRadius : ℚ) (l : List FFoliageInstanceData)
    (TotalNutrients : ℚ) :
    ANaniteEnvironment.ConsumeLoop e Dist Location ConsumeRadius l TotalNutrients =
      (l.map (fun I => (e.ConsumeInstance Dist Location ConsumeRadius I).1),
        TotalNutrients +
          (l.map (fun I => (e.ConsumeInstance Dist Location ConsumeRadius I).2)).sum) := by
  induction l generalizing TotalNutrients with
  | nil => simp [ANaniteEnvironment.ConsumeLoop]
  | cons I Rest ih =>
    simp only [ANaniteEnvironment.ConsumeLoop, ih, List.map_cons, List.sum_cons]
    rw [add_assoc]

theorem ConsumeLoop_total (e : ANaniteEnvironment) (Dist : FVector → FVector → ℚ)
    (Location : FVector) (ConsumeRadius : ℚ) (l : List FFoliageInstanceData)
    (hl : ∀ I ∈ l, ∃ Config, e.ConfigFor I.FoliageType = some Config) :
    (l.map (fun I => (e.ConsumeInstance Dist Location ConsumeRadius I).2)).sum =
      ((l.filter (fun I => !I.bIsDestroyed &&
          decide (Dist I.Transform.GetLocation Location ≤ ConsumeRadius))).map
        (fun I => e.NutrientValueOf I.FoliageType)).sum := by
  induction l with
  | nil => rfl
  | cons I Rest ih =>
    have hrest := ih (fun J hJ => hl J (List.mem_cons_of_mem _ hJ))
    have hstep := ConsumeInstance_eq e Dist Location ConsumeRadius I
      (hl I (List.mem_cons_self _ _))
    rw [List.map_cons, List.sum_cons, hrest, hstep]
    by_cases hd : I.bIsDestroyed = true
    · simp [hd, List.filter_cons]
    · by_cases hr : Dist I.Transform.GetLocation Location ≤ ConsumeRadius
      · simp [hd, hr, not_lt.mpr hr, List.filter_cons]
      · simp [hd, hr, not_le.mp hr, List.filter_cons]

/-- C20: for every resource field whose instances belong to configured
categories, every location and every radius, `ConsumeFoliage` returns exactly the
sum, over the instances that are not destroyed and at distance ≤ radius before
the call, of the nutrient value configured for the instance's category; each of
those instances is afterwards destroyed with its countdown set to its regrowth
time and otherwise as before, every other instance is unchanged, nothing is
broadcast, and the result is `0` when no non-destroyed instance is in range. -/
theorem ConsumeFoliage_effects (e : ANaniteEnvironment) (Dist : FVector → FVector → ℚ)
    (Location : FVector) (ConsumeRadius : ℚ) (hcfg : e.TypesConfigured) :
    (e.ConsumeFoliage Dist Location ConsumeRadius).2 =
      ((e.FoliageInstances.filter (fun I => !I.bIsDestroyed &&
          decide (Dist I.Transform.GetLocation Location ≤ ConsumeRadius))).map
        (fun I => e.NutrientValueOf I.FoliageType)).sum ∧
    List.Forall₂
      (fun Old New : FFoliageInstanceData =>
        (Old.bIsDestroyed = false → Dist Old.Transform.GetLocation Location ≤ ConsumeRadius →
          New = { Old with bIsDestroyed := true, TimeUntilRegrowth := Old.RegrowthTime }) ∧
        ((Old.bIsDestroyed = true ∨ ConsumeRadius < Dist Old.Transform.GetLocation Location) →
          New = Old))
      e.FoliageInstances (e.ConsumeFoliage Dist Location ConsumeRadius).1.FoliageInstances ∧
    (e.ConsumeFoliage Dist Location ConsumeRadius).1.Events = e.Events ∧
    ((∀ I ∈ e.FoliageInstances, I.bIsDestroyed = true ∨
        ConsumeRadius < Dist I.Transform.GetLocation Location) →
      (e.ConsumeFoliage Dist Location ConsumeRadius).2 = 0) := by
  have hl : ∀ I ∈ e.FoliageInstances, ∃ Config, e.ConfigFor I.FoliageType = some Config :=
    fun I hI => (hcfg I hI).imp (fun _ h => h.1)
  have hrun : e.ConsumeFoliage Dist Location ConsumeRadius =
      ({ e with FoliageInstances :=
          e.FoliageInstances.map (fun I => (e.ConsumeInstance Dist Location ConsumeRadius I).1) },
        (e.FoliageInstances.map
          (fun I => (e.ConsumeInstance Dist Location ConsumeRadius I).2)).sum) := by
    unfold ANaniteEnvironment.ConsumeFoliage
    simp only [ConsumeLoop_eq, zero_add]
  have htotal := ConsumeLoop_total e Dist Location ConsumeRadius e.FoliageInstances hl
  rw [hrun]
  refine ⟨htotal, ?_, rfl, ?_⟩
  · rw [List.forall₂_map_right_iff, List.forall₂_same]
    intro I hI
    rw [ConsumeInstance_eq e Dist Location ConsumeRadius I (hl I hI)]
    refine ⟨fun hd hr => ?_, fun hout => by rw [if_pos hout]⟩
    rw [if_neg]
    rintro (h | h)
    · rw [hd] at h
      exact Bool.false_ne_true h
    · exact absurd hr (not_le.mpr h)
  · intro hnone
    show (e.FoliageInstances.map
      (fun I => (e.ConsumeInstance Dist Location ConsumeRadius I).2)).sum = 0
    apply List.sum_eq_zero
    intro x hx
    obtain ⟨I, hI, rfl⟩ := List.mem_map.mp hx
    rw [ConsumeInstance_eq e Dist Location ConsumeRadius I (hl I hI), if_pos (hnone I hI)]

/-- Witness of `ConsumeFoliage_effects`: consuming with radius `60` at the origin
of the grove takes the trees at distance `0` and `50` and returns `50`. -/
theorem ConsumeFoliage_effects_witness :
    GroveEnvironment.TypesConfigured ∧
      (GroveEnvironment.ConsumeFoliage AxisDist {} 60).2 = 50 := by
  refine ⟨GroveEnvironment_TypesConfigured, ?_⟩
  rw [(ConsumeFoliage_effects GroveEnvironment AxisDist {} 60
    GroveEnvironment_TypesConfigured).1]
  norm_num [GroveEnvironment, AxisDist, FTransform.GetLocation, List.filter,
    ANaniteEnvironment.NutrientValueOf, ANaniteEnvironment.ConfigFor, FindRef]

/-! ## Resource field: generated fields belong to configured categories -/

theorem FindRef_TMapAdd (Map : List (Nat × Nat)) (Key Value Other : Nat) :
    FindRef (TMapAdd Map Key Value) Other =
      if Other = Key then Value else FindRef Map Other := by
  induction Map with
  | nil =>
    by_cases h : Other = Key
    · simp [TMapAdd, FindRef, h]
    · simp [TMapAdd, FindRef, h, Ne.symm h]
  | cons kv Rest ih =>
    obtain ⟨k, v⟩ := kv
    by_cases hk : k = Key
    · by_cases h : Other = Key
      · simp [TMapAdd, FindRef, hk, h]
      · simp [TMapAdd, FindRef, hk, h, Ne.symm h]
    · by_cases hko : k = Other
      · have h : ¬ Other = Key := fun h => hk (hko.trans h)
        simp [TMapAdd, FindRef, hk, hko, h]
      · simp [TMapAdd, FindRef, hk, hko, ih]

theorem ConfigFor_eq (e : ANaniteEnvironment) (FoliageType : Nat) :
    e.ConfigFor FoliageType =
      e.FoliageConfigs[FindRef e.FoliageTypeIndices FoliageType]? := by
  unfold ANaniteEnvironment.ConfigFor
  by_cases h : FindRef e.FoliageTypeIndices FoliageType < e.FoliageConfigs.length
  · simp only [h, if_true]
  · simp only [h, if_false]
    exact (List.getElem?_eq_none (not_lt.mp h)).symm

theorem SetupFoliageLoop_spec (Remaining : List FNaniteFoliageConfig) (i : Nat)
    (e : ANaniteEnvironment) (Done : List FNaniteFoliageConfig)
    (hsplit : e.FoliageConfigs = Done ++ Remaining) (hi : Done.length = i)
    (hok : ∀ t ∈ e.FoliageComponents, ∃ Config,
      e.FoliageConfigs[FindRef e.FoliageTypeIndices t]? = some Config ∧
        Config.FoliageType = t) :
    (ANaniteEnvironment.SetupFoliageLoop i Remaining e).FoliageConfigs = e.FoliageConfigs ∧
    (ANaniteEnvironment.SetupFoliageLoop i Remaining e).FoliageInstances =
      e.FoliageInstances ∧
    ∀ t ∈ (ANaniteEnvironment.SetupFoliageLoop i Remaining e).FoliageComponents, ∃ Config,
      e.FoliageConfigs[FindRef
        (ANaniteEnvironment.SetupFoliageLoop i Remaining e).FoliageTypeIndices t]? =
          some Config ∧ Config.FoliageType = t := by
  induction Remaining generalizing i e Done with
  | nil => exact ⟨rfl, rfl, hok⟩
  | cons Config Rest ih =>
    have hsplit2 : e.FoliageConfigs = (Done ++ [Config]) ++ Rest := by
      rw [hsplit, List.append_assoc, List.singleton_append]
    have hi2 : (Done ++ [Config]).length = i + 1 := by
      rw [List.length_append, hi, List.length_singleton]
    have hget : e.FoliageConfigs[i]? = some Config := by
      rw [hsplit, ← hi, List.getElem?_append_right (le_refl _)]
      simp
    rw [ANaniteEnvironment.SetupFoliageLoop]
    by_cases hmesh : Config.NaniteMesh = true
    · simp only [hmesh, Bool.not_true, Bool.false_eq_true, if_false]
      have hstep := ih (i + 1)
        ({ e with
          FoliageComponents :=
            if Config.FoliageType ∈ e.FoliageComponents then e.FoliageComponents
            else e.FoliageComponents ++ [Config.FoliageType]
          FoliageTypeIndices := TMapAdd e.FoliageTypeIndices Config.FoliageType i } :
            ANaniteEnvironment)
        (Done ++ [Config]) hsplit2 hi2
        (by
          intro t ht
          simp only [FindRef_TMapAdd]
          by_cases hte : t = Config.FoliageType
          · rw [if_pos hte]
            exact ⟨Config, hget, hte.symm⟩
          · rw [if_neg hte]
            apply hok
            by_cases hmem : Config.FoliageType ∈ e.FoliageComponents
            · simpa [hmem] using ht
            · simp only [hmem, if_false, List.mem_append, List.mem_singleton] at ht
              rcases ht with ht | ht
              · exact ht
              · exact absurd ht hte)
      exact hstep
    · simp only [hmesh, Bool.not_false, if_true]
      exact ih (i + 1) e (Done ++ [Config]) hsplit2 hi2 hok

theorem SpawnInstancesLoop_spec (Config : FNaniteFoliageConfig)
    (Draws : Nat → FoliageSpawnDraws) (Count i : Nat) (e : ANaniteEnvironment)
    (hok : ∀ I ∈ e.FoliageInstances, I.FoliageType ∈ e.FoliageComponents) :
    (ANaniteEnvironment.SpawnInstancesLoop Config Draws i Count e).FoliageComponents =
        e.FoliageComponents ∧
    (ANaniteEnvironment.SpawnInstancesLoop Config Draws i Count e).FoliageConfigs =
        e.FoliageConfigs ∧
    (ANaniteEnvironment.SpawnInstancesLoop Config Draws i Count e).FoliageTypeIndices =
        e.FoliageTypeIndices ∧
    ∀ I ∈ (ANaniteEnvironment.SpawnInstancesLoop Config Draws i Count e).FoliageInstances,
      I.FoliageType ∈ e.FoliageComponents := by
  induction Count generalizing i e with
  | zero => exact ⟨rfl, rfl, rfl, hok⟩
  | succ k ih =>
    rw [ANaniteEnvironment.SpawnInstancesLoop]
    by_cases hmem : Config.FoliageType ∈ e.FoliageComponents
    · have hstep := ih (i + 1) (e.SpawnFoliageInstance Config (Draws i))
        (by
          intro I hI
          simp only [ANaniteEnvironment.SpawnFoliageInstance, hmem, if_true,
            List.mem_append, List.mem_singleton] at hI ⊢
          rcases hI with hI | hI
          · exact hok I hI
          · rw [hI]
            exact hmem)
      simpa [ANaniteEnvironment.SpawnFoliageInstance, hmem] using hstep
    · have hsame : e.SpawnFoliageInstance Config (Draws i) = e := by
        simp [ANaniteEnvironment.SpawnFoliageInstance, hmem]
      rw [hsame]
      exact ih (i + 1) e hok

theorem GenerateLoop_spec (Draws : Nat → Nat → FoliageSpawnDraws)
    (Remaining : List FNaniteFoliageConfig) (ConfigIndex : Nat) (e : ANaniteEnvironment)
    (hok : ∀ I ∈ e.FoliageInstances, I.FoliageType ∈ e.FoliageComponents) :
    (ANaniteEnvironment.GenerateLoop Draws ConfigIndex Remaining e).FoliageComponents =
        e.FoliageComponents ∧
    (ANaniteEnvironment.GenerateLoop Draws ConfigIndex Remaining e).FoliageConfigs =
        e.FoliageConfigs ∧
    (ANaniteEnvironment.GenerateLoop Draws ConfigIndex Remaining e).FoliageTypeIndices =
        e.FoliageTypeIndices ∧
    ∀ I ∈ (ANaniteEnvironment.GenerateLoop Draws ConfigIndex Remaining e).FoliageInstances,
      I.FoliageType ∈ e.FoliageComponents := by
  induction Remaining generalizing ConfigIndex e with
  | nil => exact ⟨rfl, rfl, rfl, hok⟩
  | cons Config Rest ih =>
    rw [ANaniteEnvironment.GenerateLoop]
    obtain ⟨h1, h2, h3, h4⟩ := SpawnInstancesLoop_spec Config (Draws ConfigIndex)
      Config.InstanceCount.toNat 0 e hok
    obtain ⟨g1, g2, g3, g4⟩ := ih (ConfigIndex + 1)
      (ANaniteEnvironment.SpawnInstancesLoop Config (Draws ConfigIndex) 0
        Config.InstanceCount.toNat e)
      (by rw [h1]; exact h4)
    exact ⟨g1.trans h1, g2.trans h2, g3.trans h3, fun I hI => h1 ▸ g4 I hI⟩

theorem GenerateFoliage_TypesConfigured (e : ANaniteEnvironment)
    (Draws : Nat → Nat → FoliageSpawnDraws) (hfresh : e.FoliageComponents = []) :
    (e.SetupFoliageComponents.GenerateFoliage Draws).TypesConfigured := by
  obtain ⟨s1, _, s3⟩ := SetupFoliageLoop_spec e.FoliageConfigs 0 e [] rfl rfl
    (by rw [hfresh]; intro t ht; exact absurd ht (List.not_mem_nil t))
  obtain ⟨g1, g2, g3, g4⟩ := GenerateLoop_spec Draws
    e.SetupFoliageComponents.FoliageConfigs 0
    ({ e.SetupFoliageComponents with FoliageInstances := [] } : ANaniteEnvironment)
    (by intro I hI; exact absurd hI (List.not_mem_nil I))
  intro I hI
  have hmem : I.FoliageType ∈ e.SetupFoliageComponents.FoliageComponents := g4 I hI
  obtain ⟨Config, hC, hT⟩ := s3 I.FoliageType hmem
  refine ⟨Config, ?_, hT⟩
  rw [ConfigFor_eq]
  have hcfg : (e.SetupFoliageComponents.GenerateFoliage Draws).FoliageConfigs =
      e.FoliageConfigs := g2.trans s1
  have hidx : (e.SetupFoliageComponents.GenerateFoliage Draws).FoliageTypeIndices =
      e.SetupFoliageComponents.FoliageTypeIndices := g3
  rw [hcfg, hidx]
  exact hC

theorem DamageFoliage_TypesConfigured (e : ANaniteEnvironment)
    (Dist : FVector → FVector → ℚ) (Location : FVector) (Radius Damage : ℚ)
    (hcfg : e.TypesConfigured) :
    (e.DamageFoliage Dist Location Radius Damage).1.TypesConfigured := by
  intro New hNew
  have hmem : New ∈ e.FoliageInstances.map
      (fun I => (e.DamageInstance Dist Location Radius Damage I).1) := by
    rw [← DamageLoop_fst]
    exact hNew
  obtain ⟨Old, hOld, rfl⟩ := List.mem_map.mp hmem
  obtain ⟨Config, hC, hT⟩ := hcfg Old hOld
  have htype : (e.DamageInstance Dist Location Radius Damage Old).1.FoliageType =
      Old.FoliageType := by
    rw [DamageInstance_eq e Dist Location Radius Damage Old ⟨Config, hC⟩]
    split_ifs <;> rfl
  rw [htype]
  exact ⟨Config, hC, hT⟩

theorem ConsumeFoliage_TypesConfigured (e : ANaniteEnvironment)
    (Dist : FVector → FVector → ℚ) (Location : FVector) (ConsumeRadius : ℚ)
    (hcfg : e.TypesConfigured) :
    (e.ConsumeFoliage Dist Location ConsumeRadius).1.TypesConfigured := by
  intro New hNew
  have hmem : New ∈ e.FoliageInstances.map
      (fun I => (e.ConsumeInstance Dist Location ConsumeRadius I).1) := by
    have h := ConsumeLoop_eq e Dist Location ConsumeRadius e.FoliageInstances 0
    have h1 : (e.ConsumeFoliage Dist Location ConsumeRadius).1.FoliageInstances =
        e.FoliageInstances.map
          (fun I => (e.ConsumeInstance Dist Location ConsumeRadius I).1) := by
      show (ANaniteEnvironment.ConsumeLoop e Dist Location ConsumeRadius
        e.FoliageInstances 0).1 = _
      rw [h]
    rw [← h1]
    exact hNew
  obtain ⟨Old, hOld, rfl⟩ := List.mem_map.mp hmem
  obtain ⟨Config, hC, hT⟩ := hcfg Old hOld
  have htype : (e.ConsumeInstance Dist Location ConsumeRadius Old).1.FoliageType =
      Old.FoliageType := by
    rw [ConsumeInstance_eq e Dist Location ConsumeRadius Old ⟨Config, hC⟩]
    split_ifs <;> rfl
  rw [htype]
  exact ⟨Config, hC, hT⟩

/-! ## Creature lifecycle: operations that keep the live-record invariant -/

theorem TakeDamage_LiveInvariant (c : ACreature) (DamageAmount : ℚ)
    (Attacker : Option ACreature) (hinv : c.LiveInvariant)
    (hr : 0 < c.Genes.DamageResistance) (ha : 0 ≤ DamageAmount) :
    (c.TakeDamage DamageAmount Attacker).Self.LiveInvariant := by
  have hq : 0 ≤ DamageAmount / c.Genes.DamageResistance := div_nonneg ha hr.le
  have hH : 0 ≤ max 0 (c.Health - DamageAmount / c.Genes.DamageResistance) ∧
      max 0 (c.Health - DamageAmount / c.Genes.DamageResistance) ≤ 100 := by
    refine ⟨le_max_left _ _, max_le (by norm_num) ?_⟩
    have := hinv.Health.2
    linarith
  unfold ACreature.TakeDamage
  simp only []
  split_ifs
  · exact ⟨hinv.Energy, hinv.Hunger, hH, hinv.Age, hinv.ReproductionCooldown⟩
  · exact ⟨hinv.Energy, hinv.Hunger, hH, hinv.Age, hinv.ReproductionCooldown⟩

theorem ConsumeFood_LiveInvariant (c : ACreature) (FoodValue : ℚ) (hinv : c.LiveInvariant)
    (hv : 0 ≤ FoodValue) : (c.ConsumeFood FoodValue).LiveInvariant := by
  have hE := hinv.Energy
  have hU := hinv.Hunger
  refine ⟨⟨?_, ?_⟩, ⟨?_, ?_⟩, hinv.Health, hinv.Age, hinv.ReproductionCooldown⟩
  · show 0 ≤ min 100 (c.Energy + FoodValue)
    exact le_min (by norm_num) (by linarith)
  · show min 100 (c.Energy + FoodValue) ≤ 100
    exact min_le_left _ _
  · show 0 ≤ max 0 (c.Hunger - FoodValue * (1 / 2))
    exact le_max_left _ _
  · show max 0 (c.Hunger - FoodValue * (1 / 2)) ≤ 100
    exact max_le (by norm_num) (by linarith)

theorem AttemptReproduction_LiveInvariant (c Mate : ACreature) (cd : CrossoverDraws)
    (md : MutateDraws) (hinv : c.LiveInvariant) (hmate : Mate.LiveInvariant)
    (hg : c.Genes.InBounds) (hgm : Mate.Genes.InBounds) :
    (c.AttemptReproduction (some Mate) cd md).Self.LiveInvariant ∧
      ∀ M, (c.AttemptReproduction (some Mate) cd md).Mate = some M → M.LiveInvariant := by
  by_cases hc : c.CanReproduce = true
  · by_cases hm : Mate.CanReproduce = true
    · have hce := ((CanReproduce_eq_true_iff c).mp hc).2.1
      have hme := ((CanReproduce_eq_true_iff Mate).mp hm).2.1
      have hrun : c.AttemptReproduction (some Mate) cd md =
          { Self := { c with
              Energy := c.Energy - 30
              ReproductionCooldown := 20 / c.Genes.ReproductionRate
              OffspringCount := c.OffspringCount + 1 }
            Mate := some { Mate with
              Energy := Mate.Energy - 30
              ReproductionCooldown := 20 / Mate.Genes.ReproductionRate
              OffspringCount := Mate.OffspringCount + 1 }
            Events := [CreatureEvent.Reproduction c.Id Mate.Id
              ((FCreatureGenes.Crossover c.Genes Mate.Genes cd).Mutate (1 / 10) (1 / 5) md)]
            ReturnValue := true } := by
        unfold ACreature.AttemptReproduction
        simp [hc, hm]
      rw [hrun]
      have hrc : (0 : ℚ) ≤ 20 / c.Genes.ReproductionRate :=
        div_nonneg (by norm_num) (le_trans (by norm_num) hg.ReproductionRate.1)
      have hrm : (0 : ℚ) ≤ 20 / Mate.Genes.ReproductionRate :=
        div_nonneg (by norm_num) (le_trans (by norm_num) hgm.ReproductionRate.1)
      have hE := hinv.Energy.2
      have hEm := hmate.Energy.2
      refine ⟨⟨⟨?_, ?_⟩, hinv.Hunger, hinv.Health, hinv.Age, hrc⟩, ?_⟩
      · show 0 ≤ c.Energy - 30
        linarith
      · show c.Energy - 30 ≤ 100
        linarith
      · intro M hM
        have hMe : M = { Mate with
            Energy := Mate.Energy - 30
            ReproductionCooldown := 20 / Mate.Genes.ReproductionRate
            OffspringCount := Mate.OffspringCount + 1 } := (Option.some.inj hM).symm
        rw [hMe]
        refine ⟨⟨?_, ?_⟩, hmate.Hunger, hmate.Health, hmate.Age, hrm⟩
        · show 0 ≤ Mate.Energy - 30
          linarith
        · show Mate.Energy - 30 ≤ 100
          linarith
    · have hrun : c.AttemptReproduction (some Mate) cd md =
          { Self := c, Mate := some Mate, Events := [], ReturnValue := false } := by
        unfold ACreature.AttemptReproduction
        simp [hm]
      rw [hrun]
      exact ⟨hinv, fun M hM => (Option.some.inj hM) ▸ hmate⟩
  · have hrun : c.AttemptReproduction (some Mate) cd md =
        { Self := c, Mate := some Mate, Events := [], ReturnValue := false } := by
      unfold ACreature.AttemptReproduction
      simp [hc]
    rw [hrun]
    exact ⟨hinv, fun M hM => (Option.some.inj hM) ▸ hmate⟩

/-! ## Resource field: the two states of an instance -/

theorem DamageInstance_frame (e : ANaniteEnvironment) (Dist : FVector → FVector → ℚ)
    (Location : FVector) (Radius Damage : ℚ) (I : FFoliageInstanceData) :
    (e.DamageInstance Dist Location Radius Damage I).1.Transform = I.Transform ∧
    (e.DamageInstance Dist Location Radius Damage I).1.FoliageType = I.FoliageType ∧
    (e.DamageInstance Dist Location Radius Damage I).1.RegrowthTime = I.RegrowthTime := by
  unfold ANaniteEnvironment.DamageInstance
  by_cases hd : I.bIsDestroyed = true
  · simp [hd]
  · simp only [hd, Bool.false_eq_true, if_false]
    split_ifs
    · cases e.ConfigFor I.FoliageType <;> exact ⟨rfl, rfl, rfl⟩
    · exact ⟨rfl, rfl, rfl⟩
    · exact ⟨rfl, rfl, rfl⟩

theorem DamageInstance_state (e : ANaniteEnvironment) (Dist : FVector → FVector → ℚ)
    (Location : FVector) (Radius Damage : ℚ) (I : FFoliageInstanceData)
    (hr : 0 < I.RegrowthTime) (hI : I.IsActive ∨ I.IsRegrowing) :
    (e.DamageInstance Dist Location Radius Damage I).1.IsActive ∨
      (e.DamageInstance Dist Location Radius Damage I).1.IsRegrowing := by
  unfold ANaniteEnvironment.DamageInstance
  by_cases hd : I.bIsDestroyed = true
  · simp only [hd, if_true]
    exact hI
  · simp only [hd, Bool.false_eq_true, if_false]
    have hact : I.IsActive := by
      rcases hI with h | h
      · exact h
      · exact absurd h.1 hd
    split_ifs with h1 h2
    · right
      cases e.ConfigFor I.FoliageType <;> exact ⟨rfl, hr⟩
    · left
      exact ⟨by simp, not_le.mp h2⟩
    · left
      exact hact

theorem ConsumeInstance_frame (e : ANaniteEnvironment) (Dist : FVector → FVector → ℚ)
    (Location : FVector) (ConsumeRadius : ℚ) (I : FFoliageInstanceData) :
    (e.ConsumeInstance Dist Location ConsumeRadius I).1.Transform = I.Transform ∧
    (e.ConsumeInstance Dist Location ConsumeRadius I).1.FoliageType = I.FoliageType ∧
    (e.ConsumeInstance Dist Location ConsumeRadius I).1.RegrowthTime = I.RegrowthTime := by
  unfold ANaniteEnvironment.ConsumeInstance
  by_cases hd : I.bIsDestroyed = true
  · simp [hd]
  · simp only [hd, Bool.false_eq_true, if_false]
    split_ifs
    · cases e.ConfigFor I.FoliageType <;> exact ⟨rfl, rfl, rfl⟩
    · exact ⟨rfl, rfl, rfl⟩

theorem ConsumeInstance_state (e : ANaniteEnvironment) (Dist : FVector → FVector → ℚ)
    (Location : FVector) (ConsumeRadius : ℚ) (I : FFoliageInstanceData)
    (hr : 0 < I.RegrowthTime) (hI : I.IsActive ∨ I.IsRegrowing) :
    (e.ConsumeInstance Dist Location ConsumeRadius I).1.IsActive ∨
      (e.ConsumeInstance Dist Location ConsumeRadius I).1.IsRegrowing := by
  unfold ANaniteEnvironment.ConsumeInstance
  by_cases hd : I.bIsDestroyed = true
  · simp only [hd, if_true]
    exact hI
  · simp only [hd, Bool.false_eq_true, if_false]
    split_ifs
    · cases e.ConfigFor I.FoliageType with
      | none => exact hI
      | some Config => exact Or.inr ⟨rfl, hr⟩
    · exact hI

theorem RegenerateInstance_frame (e : ANaniteEnvironment) (I : FFoliageInstanceData) :
    (e.RegenerateInstance I).Transform = I.Transform ∧
    (e.RegenerateInstance I).FoliageType = I.FoliageType ∧
    (e.RegenerateInstance I).RegrowthTime = I.RegrowthTime := by
  unfold ANaniteEnvironment.RegenerateInstance
  dsimp only
  split_ifs <;> exact ⟨rfl, rfl, rfl⟩

theorem RegenerateInstance_state (e : ANaniteEnvironment) (I : FFoliageInstanceData)
    (hI : I.IsActive ∨ I.IsRegrowing) :
    (e.RegenerateInstance I).IsActive ∨ (e.RegenerateInstance I).IsRegrowing := by
  unfold ANaniteEnvironment.RegenerateInstance
  by_cases hd : I.bIsDestroyed = true
  · simp only [hd, Bool.not_true, Bool.false_eq_true, if_false]
    split_ifs with h
    · exact Or.inl ⟨rfl, by norm_num⟩
    · exact Or.inr ⟨rfl, not_le.mp h⟩
  · have hf : I.bIsDestroyed = false := by simpa using hd
    simp only [hf, Bool.not_false, if_true]
    exact hI

theorem Apply_instances (e : ANaniteEnvironment) (Op : FieldOperation) :
    ∃ f : FFoliageInstanceData → FFoliageInstanceData,
      (e.Apply Op).FoliageInstances = e.FoliageInstances.map f ∧
      (∀ I, (f I).Transform = I.Transform ∧ (f I).FoliageType = I.FoliageType ∧
        (f I).RegrowthTime = I.RegrowthTime) ∧
      ∀ I, 0 < I.RegrowthTime → (I.IsActive ∨ I.IsRegrowing) →
        ((f I).IsActive ∨ (f I).IsRegrowing) := by
  cases Op with
  | Damage Dist Location Radius Damage =>
    refine ⟨fun I => (e.DamageInstance Dist Location Radius Damage I).1, ?_,
      DamageInstance_frame e Dist Location Radius Damage,
      DamageInstance_state e Dist Location Radius Damage⟩
    exact DamageLoop_fst e Dist Location Radius Damage e.FoliageInstances
  | Consume Dist Location ConsumeRadius =>
    refine ⟨fun I => (e.ConsumeInstance Dist Location ConsumeRadius I).1, ?_,
      ConsumeInstance_frame e Dist Location ConsumeRadius,
      ConsumeInstance_state e Dist Location ConsumeRadius⟩
    show (ANaniteEnvironment.ConsumeLoop e Dist Location ConsumeRadius e.FoliageInstances 0).1 = _
    rw [ConsumeLoop_eq]
  | Regrow =>
    exact ⟨e.RegenerateInstance, rfl, RegenerateInstance_frame e,
      fun I _ hI => RegenerateInstance_state e I hI⟩
  | Tick WorldTime =>
    by_cases h : e.bEnableRegrowth = true ∧ WorldTime - e.LastRegrowthCheck > e.RegrowthCheckInterval
    · refine ⟨e.RegenerateInstance, ?_, RegenerateInstance_frame e,
        fun I _ hI => RegenerateInstance_state e I hI⟩
      simp only [ANaniteEnvironment.Apply, ANaniteEnvironment.Tick, h, and_self, if_true,
        ANaniteEnvironment.RegenerateDestroyedFoliage]
    · refine ⟨id, ?_, fun I => ⟨rfl, rfl, rfl⟩, fun I _ hI => hI⟩
      simp only [ANaniteEnvironment.Apply, ANaniteEnvironment.Tick, h, if_false, List.map_id]

theorem Apply_Sites (e : ANaniteEnvironment) (Op : FieldOperation) :
    (e.Apply Op).Sites = e.Sites := by
  obtain ⟨f, hf, hframe, _⟩ := Apply_instances e Op
  unfold ANaniteEnvironment.Sites
  rw [hf, List.map_map]
  apply List.map_congr_left
  intro I _
  simp only [Function.comp_apply, (hframe I).1, (hframe I).2.1]

theorem Run_Sites (Ops : List FieldOperation) (e : ANaniteEnvironment) :
    (e.Run Ops).Sites = e.Sites := by
  induction Ops generalizing e with
  | nil => rfl
  | cons Op Rest ih =>
    show ((e.Apply Op).Run Rest).Sites = e.Sites
    rw [ih, Apply_Sites]

theorem Apply_two_states (e : ANaniteEnvironment) (Op : FieldOperation)
    (he : ∀ I ∈ e.FoliageInstances, 0 < I.RegrowthTime ∧ (I.IsActive ∨ I.IsRegrowing)) :
    ∀ I ∈ (e.Apply Op).FoliageInstances,
      0 < I.RegrowthTime ∧ (I.IsActive ∨ I.IsRegrowing) := by
  obtain ⟨f, hf, hframe, hstate⟩ := Apply_instances e Op
  intro I hI
  rw [hf, List.mem_map] at hI
  obtain ⟨J, hJ, rfl⟩ := hI
  obtain ⟨hr, hs⟩ := he J hJ
  exact ⟨by rw [(hframe J).2.2]; exact hr, hstate J hr hs⟩

theorem Run_two_states (Ops : List FieldOperation) (e : ANaniteEnvironment)
    (he : ∀ I ∈ e.FoliageInstances, 0 < I.RegrowthTime ∧ (I.IsActive ∨ I.IsRegrowing)) :
    ∀ I ∈ (e.Run Ops).FoliageInstances,
      0 < I.RegrowthTime ∧ (I.IsActive ∨ I.IsRegrowing) := by
  induction Ops generalizing e with
  | nil => exact he
  | cons Op Rest ih => exact ih (e.Apply Op) (Apply_two_states e Op he)

theorem SpawnFoliageInstance_fresh (e : ANaniteEnvironment) (Config : FNaniteFoliageConfig)
    (d : FoliageSpawnDraws)
    (he : ∀ I ∈ e.FoliageInstances, 0 < I.RegrowthTime ∧ I.IsActive) :
    ∀ I ∈ (e.SpawnFoliageInstance Config d).FoliageInstances,
      0 < I.RegrowthTime ∧ I.IsActive := by
  unfold ANaniteEnvironment.SpawnFoliageInstance
  dsimp only
  by_cases h : Config.FoliageType ∈ e.FoliageComponents
  · rw [if_pos h]
    intro I hI
    rw [List.mem_append, List.mem_singleton] at hI
    rcases hI with hI | rfl
    · exact he I hI
    · refine ⟨?_, rfl, by norm_num⟩
      dsimp only
      split_ifs <;> norm_num
  · rw [if_neg h]
    exact he

theorem SpawnInstancesLoop_fresh (Config : FNaniteFoliageConfig)
    (Draws : Nat → FoliageSpawnDraws) (Count i : Nat) (e : ANaniteEnvironment)
    (he : ∀ I ∈ e.FoliageInstances, 0 < I.RegrowthTime ∧ I.IsActive) :
    ∀ I ∈ (ANaniteEnvironment.SpawnInstancesLoop Config Draws i Count e).FoliageInstances,
      0 < I.RegrowthTime ∧ I.IsActive := by
  induction Count generalizing i e with
  | zero => exact he
  | succ k ih =>
    rw [ANaniteEnvironment.SpawnInstancesLoop]
    exact ih (i + 1) _ (SpawnFoliageInstance_fresh e Config (Draws i) he)

theorem GenerateLoop_fresh (Draws : Nat → Nat → FoliageSpawnDraws)
    (Remaining : List FNaniteFoliageConfig) (ConfigIndex : Nat) (e : ANaniteEnvironment)
    (he : ∀ I ∈ e.FoliageInstances, 0 < I.RegrowthTime ∧ I.IsActive) :
    ∀ I ∈ (ANaniteEnvironment.GenerateLoop Draws ConfigIndex Remaining e).FoliageInstances,
      0 < I.RegrowthTime ∧ I.IsActive := by
  induction Remaining generalizing ConfigIndex e with
  | nil => exact he
  | cons Config Rest ih =>
    rw [ANaniteEnvironment.GenerateLoop]
    exact ih (ConfigIndex + 1) _ (SpawnInstancesLoop_fresh Config (Draws ConfigIndex) _ 0 e he)

theorem InitializeEnvironment_fresh (e : ANaniteEnvironment)
    (Draws : Nat → Nat → FoliageSpawnDraws) :
    ∀ I ∈ (e.InitializeEnvironment Draws).FoliageInstances,
      0 < I.RegrowthTime ∧ I.IsActive := by
  unfold ANaniteEnvironment.InitializeEnvironment ANaniteEnvironment.GenerateFoliage
  exact GenerateLoop_fresh Draws _ 0 _ (fun I hI => absurd hI (List.not_mem_nil I))

/-- C21: `DamageFoliage`, `ConsumeFoliage`, `RegenerateDestroyedFoliage` and the
actor's tick never add or remove an instance and never change an instance's
position or category, from whatever field they are called on; and in every
field reached from a freshly initialised one by any sequence of these calls,
each instance is in exactly one of the two states active (not destroyed, health
above `0`) and destroyed with a remaining regrowth time above `0`. -/
theorem Field_instances_two_states (e : ANaniteEnvironment)
    (Draws : Nat → Nat → FoliageSpawnDraws) (Ops : List FieldOperation) :
    (∀ (Field : ANaniteEnvironment) (Op : FieldOperation),
      (Field.Apply Op).Sites = Field.Sites) ∧
    ((e.InitializeEnvironment Draws).Run Ops).Sites = (e.InitializeEnvironment Draws).Sites ∧
    ∀ Instance ∈ ((e.InitializeEnvironment Draws).Run Ops).FoliageInstances,
      Xor' Instance.IsActive Instance.IsRegrowing := by
  refine ⟨Apply_Sites, Run_Sites Ops _, ?_⟩
  intro I hI
  have h := (Run_two_states Ops (e.InitializeEnvironment Draws)
    (fun J hJ => ⟨(InitializeEnvironment_fresh e Draws J hJ).1,
      Or.inl (InitializeEnvironment_fresh e Draws J hJ).2⟩) I hI).2
  rcases h with h | h
  · exact Or.inl ⟨h, fun h2 => absurd (h.1.symm.trans h2.1) (by decide)⟩
  · exact Or.inr ⟨h, fun h2 => absurd (h.1.symm.trans h2.1) (by decide)⟩

/-! ## Weather system: the end of a transition -/

theorem UpdateTimeOfDay_frame (s : ADynamicWeatherSystem) (DeltaTime : ℚ) :
    (s.UpdateTimeOfDay DeltaTime).CurrentWeatherSettings = s.CurrentWeatherSettings ∧
    (s.UpdateTimeOfDay DeltaTime).TargetWeatherSettings = s.TargetWeatherSettings ∧
    (s.UpdateTimeOfDay DeltaTime).WeatherTransitionTimer = s.WeatherTransitionTimer ∧
    (s.UpdateTimeOfDay DeltaTime).WeatherTransitionDuration = s.WeatherTransitionDuration ∧
    (s.UpdateTimeOfDay DeltaTime).bWeatherTransitioning = s.bWeatherTransitioning ∧
    (s.UpdateTimeOfDay DeltaTime).LastWeatherChangeTime = s.LastWeatherChangeTime ∧
    (s.UpdateTimeOfDay DeltaTime).WeatherChangeInterval = s.WeatherChangeInterval ∧
    (s.UpdateTimeOfDay DeltaTime).bDynamicWeather = s.bDynamicWeather := by
  unfold ADynamicWeatherSystem.UpdateTimeOfDay
  dsimp only
  split_ifs <;> exact ⟨rfl, rfl, rfl, rfl, rfl, rfl, rfl, rfl⟩

theorem RandomWeatherChange_quiet (s : ADynamicWeatherSystem) (CurrentTime : ℚ) (Raw : Nat)
    (hq : ¬ (CurrentTime - s.LastWeatherChangeTime > s.WeatherChangeInterval)) :
    s.RandomWeatherChange CurrentTime Raw = s := by
  unfold ADynamicWeatherSystem.RandomWeatherChange
  rw [if_neg hq]

theorem HandleWeatherTransition_frame (s : ADynamicWeatherSystem) (DeltaTime : ℚ) :
    (s.HandleWeatherTransition DeltaTime).TargetWeatherSettings = s.TargetWeatherSettings ∧
    (s.HandleWeatherTransition DeltaTime).WeatherTransitionDuration =
      s.WeatherTransitionDuration ∧
    (s.HandleWeatherTransition DeltaTime).LastWeatherChangeTime = s.LastWeatherChangeTime ∧
    (s.HandleWeatherTransition DeltaTime).WeatherChangeInterval = s.WeatherChangeInterval ∧
    (s.HandleWeatherTransition DeltaTime).bDynamicWeather = s.bDynamicWeather := by
  unfold ADynamicWeatherSystem.HandleWeatherTransition
  dsimp only
  split_ifs <;> exact ⟨rfl, rfl, rfl, rfl, rfl⟩

theorem HandleWeatherTransition_idle (s : ADynamicWeatherSystem) (DeltaTime : ℚ)
    (hflag : s.bWeatherTransitioning = false) : s.HandleWeatherTransition DeltaTime = s := by
  unfold ADynamicWeatherSystem.HandleWeatherTransition
  simp only [hflag, Bool.false_eq_true, if_false]

theorem HandleWeatherTransition_running (s : ADynamicWeatherSystem) (DeltaTime : ℚ)
    (hflag : s.bWeatherTransitioning = true) (hD : 0 < s.WeatherTransitionDuration)
    (hlt : s.WeatherTransitionTimer + DeltaTime < s.WeatherTransitionDuration) :
    (s.HandleWeatherTransition DeltaTime).bWeatherTransitioning = true ∧
    (s.HandleWeatherTransition DeltaTime).WeatherTransitionTimer =
      s.WeatherTransitionTimer + DeltaTime := by
  have hA : ¬ ((s.WeatherTransitionTimer + DeltaTime) / s.WeatherTransitionDuration ≥ 1) := by
    rw [ge_iff_le, le_div_iff₀ hD, one_mul]
    exact not_le.mpr hlt
  unfold ADynamicWeatherSystem.HandleWeatherTransition
  simp only [hflag, if_true, hA, if_false]
  exact ⟨trivial, trivial⟩

theorem HandleWeatherTransition_finishing (s : ADynamicWeatherSystem) (DeltaTime : ℚ)
    (hflag : s.bWeatherTransitioning = true) (hD : 0 < s.WeatherTransitionDuration)
    (hge : s.WeatherTransitionDuration ≤ s.WeatherTransitionTimer + DeltaTime) :
    (s.HandleWeatherTransition DeltaTime).bWeatherTransitioning = false ∧
    (s.HandleWeatherTransition DeltaTime).CurrentWeatherSettings = s.TargetWeatherSettings := by
  have hA : (s.WeatherTransitionTimer + DeltaTime) / s.WeatherTransitionDuration ≥ 1 := by
    rw [ge_iff_le, le_div_iff₀ hD, one_mul]
    exact hge
  unfold ADynamicWeatherSystem.HandleWeatherTransition
  simp only [hflag, if_true, hA]
  exact ⟨trivial, trivial⟩

theorem UpdateWeatherEffects_quiet (s : ADynamicWeatherSystem) (DeltaTime CurrentTime : ℚ)
    (Raw : Nat) (hq : ¬ (CurrentTime - s.LastWeatherChangeTime > s.WeatherChangeInterval)) :
    s.UpdateWeatherEffects DeltaTime CurrentTime Raw = s.HandleWeatherTransition DeltaTime := by
  unfold ADynamicWeatherSystem.UpdateWeatherEffects
  obtain ⟨_, _, h3, h4, _⟩ := HandleWeatherTransition_frame s DeltaTime
  exact RandomWeatherChange_quiet _ CurrentTime Raw (by rw [h3, h4]; exact hq)

theorem Weather_Tick_quiet (s : ADynamicWeatherSystem) (DeltaTime CurrentTime : ℚ) (Raw : Nat)
    (hdyn : s.bDynamicWeather = true)
    (hq : ¬ (CurrentTime - s.LastWeatherChangeTime > s.WeatherChangeInterval)) :
    s.Tick DeltaTime CurrentTime Raw =
      (if s.bDynamicTimeOfDay then s.UpdateTimeOfDay DeltaTime
        else s).HandleWeatherTransition DeltaTime := by
  unfold ADynamicWeatherSystem.Tick
  obtain ⟨_, _, _, _, _, h6, h7, h8⟩ := UpdateTimeOfDay_frame s DeltaTime
  by_cases hb : s.bDynamicTimeOfDay = true
  · simp only [hb, if_true, h8, hdyn]
    exact UpdateWeatherEffects_quiet _ DeltaTime CurrentTime Raw (by rw [h6, h7]; exact hq)
  · simp only [hb, Bool.false_eq_true, if_false, hdyn, if_true]
    exact UpdateWeatherEffects_quiet _ DeltaTime CurrentTime Raw hq

theorem Weather_Tick_idle (s : ADynamicWeatherSystem) (DeltaTime CurrentTime : ℚ) (Raw : Nat)
    (hdyn : s.bDynamicWeather = true)
    (hq : ¬ (CurrentTime - s.LastWeatherChangeTime > s.WeatherChangeInterval))
    (hflag : s.bWeatherTransitioning = false) :
    (s.Tick DeltaTime CurrentTime Raw).bWeatherTransitioning = false ∧
    (s.Tick DeltaTime CurrentTime Raw).CurrentWeatherSettings = s.CurrentWeatherSettings ∧
    (s.Tick DeltaTime CurrentTime Raw).LastWeatherChangeTime = s.LastWeatherChangeTime ∧
    (s.Tick DeltaTime CurrentTime Raw).WeatherChangeInterval = s.WeatherChangeInterval ∧
    (s.Tick DeltaTime CurrentTime Raw).bDynamicWeather = true := by
  rw [Weather_Tick_quiet s DeltaTime CurrentTime Raw hdyn hq]
  obtain ⟨h1, _, _, _, h5, h6, h7, h8⟩ := UpdateTimeOfDay_frame s DeltaTime
  by_cases hb : s.bDynamicTimeOfDay = true
  · simp only [hb, if_true]
    rw [HandleWeatherTransition_idle _ DeltaTime (by rw [h5]; exact hflag)]
    exact ⟨by rw [h5]; exact hflag, h1, h6, h7, by rw [h8]; exact hdyn⟩
  · simp only [hb, Bool.false_eq_true, if_false]
    rw [HandleWeatherTransition_idle _ DeltaTime hflag]
    exact ⟨hflag, rfl, rfl, rfl, hdyn⟩

theorem Weather_Tick_running (s : ADynamicWeatherSystem) (DeltaTime CurrentTime : ℚ) (Raw : Nat)
    (hdyn : s.bDynamicWeather = true)
    (hq : ¬ (CurrentTime - s.LastWeatherChangeTime > s.WeatherChangeInterval))
    (hflag : s.bWeatherTransitioning = true) (hD : 0 < s.WeatherTransitionDuration)
    (hlt : s.WeatherTransitionTimer + DeltaTime < s.WeatherTransitionDuration) :
    (s.Tick DeltaTime CurrentTime Raw).bWeatherTransitioning = true ∧
    (s.Tick DeltaTime CurrentTime Raw).TargetWeatherSettings = s.TargetWeatherSettings ∧
    (s.Tick DeltaTime CurrentTime Raw).WeatherTransitionTimer =
      s.WeatherTransitionTimer + DeltaTime ∧
    (s.Tick DeltaTime CurrentTime Raw).WeatherTransitionDuration =
      s.WeatherTransitionDuration ∧
    (s.Tick DeltaTime CurrentTime Raw).LastWeatherChangeTime = s.LastWeatherChangeTime ∧
    (s.Tick DeltaTime CurrentTime Raw).WeatherChangeInterval = s.WeatherChangeInterval ∧
    (s.Tick DeltaTime CurrentTime Raw).bDynamicWeather = true := by
  rw [Weather_Tick_quiet s DeltaTime CurrentTime Raw hdyn hq]
  obtain ⟨_, h2, h3, h4, h5, h6, h7, h8⟩ := UpdateTimeOfDay_frame s DeltaTime
  by_cases hb : s.bDynamicTimeOfDay = true
  · simp only [hb, if_true]
    obtain ⟨f1, f2, f3, f4, f5⟩ := HandleWeatherTransition_frame (s.UpdateTimeOfDay DeltaTime)
      DeltaTime
    obtain ⟨r1, r2⟩ := HandleWeatherTransition_running (s.UpdateTimeOfDay DeltaTime) DeltaTime
      (by rw [h5]; exact hflag) (by rw [h4]; exact hD) (by rw [h3, h4]; exact hlt)
    exact ⟨r1, by rw [f1, h2], by rw [r2, h3], by rw [f2, h4], by rw [f3, h6], by rw [f4, h7],
      by rw [f5, h8]; exact hdyn⟩
  · simp only [hb, Bool.false_eq_true, if_false]
    obtain ⟨f1, f2, f3, f4, f5⟩ := HandleWeatherTransition_frame s DeltaTime
    obtain ⟨r1, r2⟩ := HandleWeatherTransition_running s DeltaTime hflag hD hlt
    exact ⟨r1, f1, r2, f2, f3, f4, by rw [f5]; exact hdyn⟩

theorem Weather_Tick_finishing (s : ADynamicWeatherSystem) (DeltaTime CurrentTime : ℚ) (Raw : Nat)
    (hdyn : s.bDynamicWeather = true)
    (hq : ¬ (CurrentTime - s.LastWeatherChangeTime > s.WeatherChangeInterval))
    (hflag : s.bWeatherTransitioning = true) (hD : 0 < s.WeatherTransitionDuration)
    (hge : s.WeatherTransitionDuration ≤ s.WeatherTransitionTimer + DeltaTime) :
    (s.Tick DeltaTime CurrentTime Raw).bWeatherTransitioning = false ∧
    (s.Tick DeltaTime CurrentTime Raw).CurrentWeatherSettings = s.TargetWeatherSettings ∧
    (s.Tick DeltaTime CurrentTime Raw).LastWeatherChangeTime = s.LastWeatherChangeTime ∧
    (s.Tick DeltaTime CurrentTime Raw).WeatherChangeInterval = s.WeatherChangeInterval ∧
    (s.Tick DeltaTime CurrentTime Raw).bDynamicWeather = true := by
  rw [Weather_Tick_quiet s DeltaTime CurrentTime Raw hdyn hq]
  obtain ⟨_, h2, h3, h4, h5, h6, h7, h8⟩ := UpdateTimeOfDay_frame s DeltaTime
  by_cases hb : s.bDynamicTimeOfDay = true
  · simp only [hb, if_true]
    obtain ⟨_, _, f3, f4, f5⟩ := HandleWeatherTransition_frame (s.UpdateTimeOfDay DeltaTime)
      DeltaTime
    obtain ⟨r1, r2⟩ := HandleWeatherTransition_finishing (s.UpdateTimeOfDay DeltaTime)
      DeltaTime (by rw [h5]; exact hflag) (by rw [h4]; exact hD) (by rw [h3, h4]; exact hge)
    exact ⟨r1, by rw [r2, h2], by rw [f3, h6], by rw [f4, h7], by rw [f5, h8]; exact hdyn⟩
  · simp only [hb, Bool.false_eq_true, if_false]
    obtain ⟨_, _, f3, f4, f5⟩ := HandleWeatherTransition_frame s DeltaTime
    obtain ⟨r1, r2⟩ := HandleWeatherTransition_finishing s DeltaTime hflag hD hge
    exact ⟨r1, r2, f3, f4, by rw [f5]; exact hdyn⟩

theorem Weather_Elapsed_append (l1 l2 : List WeatherTick) :
    WeatherTick.Elapsed (l1 ++ l2) = WeatherTick.Elapsed l1 + WeatherTick.Elapsed l2 := by
  unfold WeatherTick.Elapsed
  rw [List.map_append, List.sum_append]

theorem Weather_Elapsed_nonneg (l : List WeatherTick) (h : ∀ t ∈ l, 0 ≤ t.DeltaTime) :
    0 ≤ WeatherTick.Elapsed l := by
  unfold WeatherTick.Elapsed
  apply List.sum_nonneg
  intro x hx
  rw [List.mem_map] at hx
  obtain ⟨t, ht, rfl⟩ := hx
  exact h t ht

theorem Weather_RunTicks_append (s : ADynamicWeatherSystem) (l1 l2 : List WeatherTick) :
    s.RunTicks (l1 ++ l2) = (s.RunTicks l1).RunTicks l2 := by
  unfold ADynamicWeatherSystem.RunTicks
  rw [List.foldl_append]

theorem Weather_RunTicks_cons (s : ADynamicWeatherSystem) (t : WeatherTick) (Rest : List WeatherTick) :
    s.RunTicks (t :: Rest) = (s.Tick t.DeltaTime t.CurrentTime t.Raw).RunTicks Rest := rfl

theorem Weather_RunTicks_running (Ticks : List WeatherTick) (s : ADynamicWeatherSystem)
    (hdyn : s.bDynamicWeather = true) (hflag : s.bWeatherTransitioning = true)
    (hD : 0 < s.WeatherTransitionDuration)
    (hq : ∀ t ∈ Ticks, ¬ (t.CurrentTime - s.LastWeatherChangeTime > s.WeatherChangeInterval))
    (hdt : ∀ t ∈ Ticks, 0 ≤ t.DeltaTime)
    (hlt : s.WeatherTransitionTimer + WeatherTick.Elapsed Ticks < s.WeatherTransitionDuration) :
    (s.RunTicks Ticks).bWeatherTransitioning = true ∧
    (s.RunTicks Ticks).TargetWeatherSettings = s.TargetWeatherSettings ∧
    (s.RunTicks Ticks).WeatherTransitionTimer =
      s.WeatherTransitionTimer + WeatherTick.Elapsed Ticks ∧
    (s.RunTicks Ticks).WeatherTransitionDuration = s.WeatherTransitionDuration ∧
    (s.RunTicks Ticks).LastWeatherChangeTime = s.LastWeatherChangeTime ∧
    (s.RunTicks Ticks).WeatherChangeInterval = s.WeatherChangeInterval ∧
    (s.RunTicks Ticks).bDynamicWeather = true := by
  induction Ticks generalizing s with
  | nil =>
    refine ⟨hflag, rfl, ?_, rfl, rfl, rfl, hdyn⟩
    simp [ADynamicWeatherSystem.RunTicks, WeatherTick.Elapsed]
  | cons t Rest ih =>
    have hsum : WeatherTick.Elapsed (t :: Rest) = t.DeltaTime + WeatherTick.Elapsed Rest := by
      simp [WeatherTick.Elapsed]
    have hrest : 0 ≤ WeatherTick.Elapsed Rest :=
      Weather_Elapsed_nonneg Rest (fun u hu => hdt u (List.mem_cons_of_mem _ hu))
    rw [hsum] at hlt
    obtain ⟨r1, r2, r3, r4, r5, r6, r7⟩ := Weather_Tick_running s t.DeltaTime t.CurrentTime t.Raw
      hdyn (hq t (List.mem_cons_self _ _)) hflag hD (by linarith)
    obtain ⟨i1, i2, i3, i4, i5, i6, i7⟩ := ih (s.Tick t.DeltaTime t.CurrentTime t.Raw) r7 r1
      (by rw [r4]; exact hD)
      (by rw [r5, r6]; exact fun u hu => hq u (List.mem_cons_of_mem _ hu))
      (fun u hu => hdt u (List.mem_cons_of_mem _ hu))
      (by rw [r3, r4]; linarith)
    rw [Weather_RunTicks_cons]
    refine ⟨i1, by rw [i2, r2], ?_, by rw [i4, r4], by rw [i5, r5], by rw [i6, r6], i7⟩
    rw [i3, r3, hsum]
    ring

theorem Weather_RunTicks_idle (Ticks : List WeatherTick) (s : ADynamicWeatherSystem)
    (hdyn : s.bDynamicWeather = true) (hflag : s.bWeatherTransitioning = false)
    (hq : ∀ t ∈ Ticks, ¬ (t.CurrentTime - s.LastWeatherChangeTime > s.WeatherChangeInterval)) :
    (s.RunTicks Ticks).bWeatherTransitioning = false ∧
    (s.RunTicks Ticks).CurrentWeatherSettings = s.CurrentWeatherSettings := by
  induction Ticks generalizing s with
  | nil => exact ⟨hflag, rfl⟩
  | cons t Rest ih =>
    obtain ⟨r1, r2, r3, r4, r5⟩ := Weather_Tick_idle s t.DeltaTime t.CurrentTime t.Raw hdyn
      (hq t (List.mem_cons_self _ _)) hflag
    obtain ⟨i1, i2⟩ := ih (s.Tick t.DeltaTime t.CurrentTime t.Raw) r5 r1
      (by rw [r3, r4]; exact fun u hu => hq u (List.mem_cons_of_mem _ hu))
    rw [Weather_RunTicks_cons]
    exact ⟨i1, by rw [← r2]; exact i2⟩

theorem SetWeather_started (s : ADynamicWeatherSystem) (B : EWeatherType) (T : ℚ)
    (hB : s.CurrentWeatherSettings.WeatherType ≠ B) :
    (s.SetWeather B T).bWeatherTransitioning = true ∧
    (s.SetWeather B T).WeatherTransitionTimer = 0 ∧
    (s.SetWeather B T).WeatherTransitionDuration = T ∧
    (s.SetWeather B T).TargetWeatherSettings.WeatherType = B ∧
    (s.SetWeather B T).CurrentWeatherSettings = s.CurrentWeatherSettings ∧
    (s.SetWeather B T).LastWeatherChangeTime = s.LastWeatherChangeTime ∧
    (s.SetWeather B T).WeatherChangeInterval = s.WeatherChangeInterval ∧
    (s.SetWeather B T).bDynamicWeather = s.bDynamicWeather := by
  unfold ADynamicWeatherSystem.SetWeather
  rw [if_neg (fun h => hB h.symm)]
  refine ⟨rfl, rfl, rfl, ?_, rfl, rfl, rfl, rfl⟩
  cases B <;> rfl

theorem ClearSky_SetWeather_HeavyRain :
    ClearSky.SetWeather EWeatherType.HeavyRain 10 =
      { ClearSky with
        TargetWeatherSettings :=
          { WeatherType := EWeatherType.HeavyRain
            CloudCoverage := 1
            RainIntensity := 4 / 5
            FogDensity := 2 / 5
            LightIntensity := 4 / 5
            SkyTint := { R := 3 / 10, G := 2 / 5, B := 1 / 2, A := 1 }
            Temperature := 3 / 10 }
        WeatherTransitionDuration := 10
        WeatherTransitionTimer := 0
        bWeatherTransitioning := true
        Events := [WeatherEvent.WeatherChanged EWeatherType.HeavyRain EWeatherType.Clear] } :=
  rfl

theorem ClearSky_SetWeather_Storm :
    ClearSky.SetWeather EWeatherType.Storm 10 =
      { ClearSky with
        TargetWeatherSettings :=
          { WeatherType := EWeatherType.Storm
            CloudCoverage := 1
            RainIntensity := 1
            FogDensity := 3 / 10
            WindStrength := 4 / 5
            LightIntensity := 1 / 2
            SkyTint := { R := 1 / 5, G := 3 / 10, B := 2 / 5, A := 1 }
            Temperature := 1 / 5 }
        WeatherTransitionDuration := 10
        WeatherTransitionTimer := 0
        bWeatherTransitioning := true
        Events := [WeatherEvent.WeatherChanged EWeatherType.Storm EWeatherType.Clear] } :=
  rfl

/-- C23: the interpolation of a transition is not linear in the elapsed time
and depends on the tick size.  From the clear sky (cloud coverage `0`, wind
`0.2`) `SetWeather(HeavyRain, 10)` sets the cloud target `1`; after `2` seconds
the linear value is `0.2`, which one tick of `2` seconds gives, but two ticks
of `1` second give `0.28`, and at the midpoint `5` seconds five ticks of `1`
second give `0.8488` instead of `0.5`: every tick interpolates from the value
the previous tick left, not from the value at the call.  And the wind is not
interpolated at all: `5` seconds into `SetWeather(Storm, 10)`, with target
wind `0.8`, it is still `0.2`. -/
theorem Transition_depends_on_tick_size :
    ((ClearSky.SetWeather EWeatherType.HeavyRain 10).RunTicks
        [⟨2, 2, 0⟩]).CurrentWeatherSettings.CloudCoverage = 1 / 5 ∧
    ((ClearSky.SetWeather EWeatherType.HeavyRain 10).RunTicks
        [⟨1, 1, 0⟩, ⟨1, 2, 0⟩]).CurrentWeatherSettings.CloudCoverage = 7 / 25 ∧
    ((ClearSky.SetWeather EWeatherType.HeavyRain 10).RunTicks
        [⟨1, 1, 0⟩, ⟨1, 2, 0⟩, ⟨1, 3, 0⟩, ⟨1, 4, 0⟩,
          ⟨1, 5, 0⟩]).CurrentWeatherSettings.CloudCoverage = 1061 / 1250 ∧
    (ClearSky.SetWeather EWeatherType.Storm 10).TargetWeatherSettings.WindStrength = 4 / 5 ∧
    ((ClearSky.SetWeather EWeatherType.Storm 10).RunTicks
        [⟨5, 5, 0⟩]).CurrentWeatherSettings.WindStrength = 1 / 5 := by
  rw [ClearSky_SetWeather_HeavyRain, ClearSky_SetWeather_Storm]
  refine ⟨?_, ?_, ?_, ?_, ?_⟩ <;>
    norm_num [ADynamicWeatherSystem.RunTicks, ADynamicWeatherSystem.Tick,
      ADynamicWeatherSystem.UpdateTimeOfDay, ADynamicWeatherSystem.GetTimeOfDayEnum,
      ADynamicWeatherSystem.UpdateWeatherEffects, ADynamicWeatherSystem.HandleWeatherTransition,
      ADynamicWeatherSystem.RandomWeatherChange, ClearSky, Lerp]

/-! ## Weather system: the creature-facing modifiers -/

theorem Clamp_of_mem (X Min Max : ℚ) (h1 : Min ≤ X) (h2 : X ≤ Max) : Clamp X Min Max = X := by
  unfold Clamp
  rw [if_neg (not_lt.mpr h1)]
  split_ifs with h
  · rfl
  · exact le_antisymm (not_lt.mp h) h2

theorem GetTimeOfDayEnum_night_or_dawn (s : ADynamicWeatherSystem) :
    (s.GetTimeOfDayEnum = ETimeOfDay.Night ∨ s.GetTimeOfDayEnum = ETimeOfDay.Dawn) ↔
      (s.TimeOfDaySettings.CurrentHour < 7 ∨ 20 ≤ s.TimeOfDaySettings.CurrentHour) := by
  unfold ADynamicWeatherSystem.GetTimeOfDayEnum
  dsimp only
  constructor
  · intro h
    by_contra hc
    rw [not_or, not_lt, not_le] at hc
    obtain ⟨h7, h20⟩ := hc
    split_ifs at h with c1 c2 c3 c4 c5
    · exact absurd c1.2 (not_lt.mpr h7)
    · rcases h with h | h <;> exact absurd h (by decide)
    · rcases h with h | h <;> exact absurd h (by decide)
    · rcases h with h | h <;> exact absurd h (by decide)
    · rcases h with h | h <;> exact absurd h (by decide)
    · rw [not_and, not_lt] at c1 c2 c3 c4 c5
      have a2 := c2 h7
      have a3 := c3 (by linarith)
      have a4 := c4 (by linarith)
      have a5 := c5 (by linarith)
      linarith
  · intro h
    split_ifs with c1 c2 c3 c4 c5
    · exact Or.inr rfl
    · rcases h with h | h <;> linarith [c2.1, c2.2]
    · rcases h with h | h <;> linarith [c3.1, c3.2]
    · rcases h with h | h <;> linarith [c4.1, c4.2]
    · rcases h with h | h <;> linarith [c5.1, c5.2]
    · exact Or.inl rfl

/-- C24, as stated, fails: at midnight with fog density `1` and neither rain
nor clouds the clamped value is `0.3`, and `0.3` times it is `0.09`, whereas
`GetVisibilityModifier` returns `0.1`. -/
theorem GetVisibilityModifier_night_fog :
    NightFog.GetTimeOfDayEnum = ETimeOfDay.Night ∧
    Clamp (1 - 7 / 10 * NightFog.CurrentWeatherSettings.FogDensity -
      3 / 10 * NightFog.CurrentWeatherSettings.RainIntensity -
      1 / 5 * NightFog.CurrentWeatherSettings.CloudCoverage) (1 / 10) 1 * (3 / 10) = 9 / 100 ∧
    NightFog.GetVisibilityModifier = 1 / 10 := by
  refine ⟨?_, ?_, ?_⟩ <;>
    norm_num [NightFog, ADynamicWeatherSystem.GetVisibilityModifier,
      ADynamicWeatherSystem.GetTimeOfDayEnum, Clamp]

/-- C24 (amended): with fog, rain and cloud coverage in `[0, 1]`,
`GetVisibilityModifier` is `clamp(1 - 0.7 fog - 0.3 rain - 0.2 cloud, 0.1, 1)`
when the band is neither Night nor Dawn; at Night or Dawn the unclamped value is
multiplied by `0.3` first and the clamp comes last, so the result is
`clamp(0.3 (1 - 0.7 fog - 0.3 rain - 0.2 cloud), 0.1, 1)`.  Either way the
result lies in `[0.1, 1]`; Night or Dawn is an hour below `7` or from `20` on. -/
theorem GetVisibilityModifier_formula (s : ADynamicWeatherSystem)
    (_hfog : 0 ≤ s.CurrentWeatherSettings.FogDensity ∧ s.CurrentWeatherSettings.FogDensity ≤ 1)
    (_hrain : 0 ≤ s.CurrentWeatherSettings.RainIntensity ∧
      s.CurrentWeatherSettings.RainIntensity ≤ 1)
    (_hcloud : 0 ≤ s.CurrentWeatherSettings.CloudCoverage ∧
      s.CurrentWeatherSettings.CloudCoverage ≤ 1) :
    (¬ (s.GetTimeOfDayEnum = ETimeOfDay.Night ∨ s.GetTimeOfDayEnum = ETimeOfDay.Dawn) →
      s.GetVisibilityModifier =
        Clamp (1 - 7 / 10 * s.CurrentWeatherSettings.FogDensity -
          3 / 10 * s.CurrentWeatherSettings.RainIntensity -
          1 / 5 * s.CurrentWeatherSettings.CloudCoverage) (1 / 10) 1) ∧
    ((s.GetTimeOfDayEnum = ETimeOfDay.Night ∨ s.GetTimeOfDayEnum = ETimeOfDay.Dawn) →
      s.GetVisibilityModifier =
        Clamp (3 / 10 * (1 - 7 / 10 * s.CurrentWeatherSettings.FogDensity -
          3 / 10 * s.CurrentWeatherSettings.RainIntensity -
          1 / 5 * s.CurrentWeatherSettings.CloudCoverage)) (1 / 10) 1) ∧
    (1 / 10 ≤ s.GetVisibilityModifier ∧ s.GetVisibilityModifier ≤ 1) ∧
    ((s.GetTimeOfDayEnum = ETimeOfDay.Night ∨ s.GetTimeOfDayEnum = ETimeOfDay.Dawn) ↔
      (s.TimeOfDaySettings.CurrentHour < 7 ∨ 20 ≤ s.TimeOfDaySettings.CurrentHour)) := by
  refine ⟨?_, ?_, ?_, GetTimeOfDayEnum_night_or_dawn s⟩
  · intro h
    unfold ADynamicWeatherSystem.GetVisibilityModifier
    dsimp only
    rw [if_neg h]
    congr 1
    ring
  · intro h
    unfold ADynamicWeatherSystem.GetVisibilityModifier
    dsimp only
    rw [if_pos h]
    congr 1
    ring
  · unfold ADynamicWeatherSystem.GetVisibilityModifier
    exact Clamp_mem _ _ _ (by norm_num)

/-- Witness of `GetVisibilityModifier_formula`: at midnight under a clear sky
the modifier is `0.3`. -/
theorem GetVisibilityModifier_formula_witness :
    ClearNight.GetTimeOfDayEnum = ETimeOfDay.Night ∧ ClearNight.GetVisibilityModifier = 3 / 10 := by
  have hn : ClearNight.GetTimeOfDayEnum = ETimeOfDay.Night := by
    norm_num [ClearNight, ADynamicWeatherSystem.GetTimeOfDayEnum]
  refine ⟨hn, ?_⟩
  rw [(GetVisibilityModifier_formula ClearNight (by norm_num [ClearNight])
    (by norm_num [ClearNight]) (by norm_num [ClearNight])).2.1 (Or.inl hn)]
  norm_num [ClearNight, Clamp]

/-- C25: with rain, wind and fog in `[0, 1]` and any temperature,
`GetMovementModifier` is `clamp(1 - 0.2 rain - 0.1 wind - 0.1 fog, 0.5, 1)`
times `s`, where `s` is `0.9` for a temperature below `0.3`, `0.95` for one
above `0.8` and `1` otherwise; and the result lies in `[0.5, 1]`. -/
theorem GetMovementModifier_formula (s : ADynamicWeatherSystem)
    (hrain : 0 ≤ s.CurrentWeatherSettings.RainIntensity ∧
      s.CurrentWeatherSettings.RainIntensity ≤ 1)
    (hwind : 0 ≤ s.CurrentWeatherSettings.WindStrength ∧
      s.CurrentWeatherSettings.WindStrength ≤ 1)
    (hfog : 0 ≤ s.CurrentWeatherSettings.FogDensity ∧ s.CurrentWeatherSettings.FogDensity ≤ 1) :
    s.GetMovementModifier =
      Clamp (1 - 1 / 5 * s.CurrentWeatherSettings.RainIntensity -
        1 / 10 * s.CurrentWeatherSettings.WindStrength -
        1 / 10 * s.CurrentWeatherSettings.FogDensity) (1 / 2) 1 *
      (if s.CurrentWeatherSettings.Temperature < 3 / 10 then 9 / 10
        else if s.CurrentWeatherSettings.Temperature > 4 / 5 then 19 / 20 else 1) ∧
    1 / 2 ≤ s.GetMovementModifier ∧ s.GetMovementModifier ≤ 1 := by
  obtain ⟨r0, r1⟩ := hrain
  obtain ⟨w0, w1⟩ := hwind
  obtain ⟨f0, f1⟩ := hfog
  have hraw : Clamp (1 - 1 / 5 * s.CurrentWeatherSettings.RainIntensity -
        1 / 10 * s.CurrentWeatherSettings.WindStrength -
        1 / 10 * s.CurrentWeatherSettings.FogDensity) (1 / 2) 1 =
      1 - 1 / 5 * s.CurrentWeatherSettings.RainIntensity -
        1 / 10 * s.CurrentWeatherSettings.WindStrength -
        1 / 10 * s.CurrentWeatherSettings.FogDensity :=
    Clamp_of_mem _ _ _ (by linarith) (by linarith)
  refine ⟨?_, Clamp_mem _ _ _ (by norm_num)⟩
  rw [hraw]
  unfold ADynamicWeatherSystem.GetMovementModifier
  dsimp only
  split_ifs with c1 c2
  · rw [Clamp_of_mem _ _ _ (by linarith) (by linarith)]
    ring
  · rw [Clamp_of_mem _ _ _ (by linarith) (by linarith)]
    ring
  · rw [Clamp_of_mem _ _ _ (by linarith) (by linarith)]
    ring

/-- Witness of `GetMovementModifier_formula`: in a cold storm with rain `1`,
wind `0.8`, fog `0.3` and temperature `0.2` the modifier is
`0.69 * 0.9 = 0.621`. -/
theorem GetMovementModifier_formula_witness : ColdStorm.GetMovementModifier = 621 / 1000 := by
  rw [(GetMovementModifier_formula ColdStorm (by norm_num [ColdStorm])
    (by norm_num [ColdStorm]) (by norm_num [ColdStorm])).1]
  norm_num [ColdStorm, Clamp]

/-! ## Weather system: the clock -/

theorem UpdateTimeOfDay_hour (s : ADynamicWeatherSystem) (DeltaTime : ℚ) :
    (s.UpdateTimeOfDay DeltaTime).TimeOfDaySettings.CurrentHour =
      if s.TimeOfDaySettings.CurrentHour + 24 / s.DayDuration * DeltaTime ≥ 24 then
        s.TimeOfDaySettings.CurrentHour + 24 / s.DayDuration * DeltaTime - 24
      else s.TimeOfDaySettings.CurrentHour + 24 / s.DayDuration * DeltaTime := by
  unfold ADynamicWeatherSystem.UpdateTimeOfDay
  dsimp only
  split_ifs <;> rfl

theorem UpdateTimeOfDay_hour_of_short_tick (s : ADynamicWeatherSystem) (DeltaTime : ℚ)
    (hh : 0 ≤ s.TimeOfDaySettings.CurrentHour ∧ s.TimeOfDaySettings.CurrentHour < 24)
    (hD : 0 < s.DayDuration) (hdt : 0 ≤ DeltaTime)
    (hshort : s.TimeOfDaySettings.CurrentHour + 24 / s.DayDuration * DeltaTime < 48) :
    0 ≤ (s.UpdateTimeOfDay DeltaTime).TimeOfDaySettings.CurrentHour ∧
      (s.UpdateTimeOfDay DeltaTime).TimeOfDaySettings.CurrentHour < 24 := by
  have hinc : 0 ≤ 24 / s.DayDuration * DeltaTime :=
    mul_nonneg (div_nonneg (by norm_num) (le_of_lt hD)) hdt
  rw [UpdateTimeOfDay_hour]
  split_ifs with h
  · constructor <;> linarith
  · exact ⟨by linarith [hh.1], not_le.mp h⟩

theorem Fmod_sixty : Fmod 60 24 = 12 := by
  have hf : ⌊(60 : ℚ) / 24⌋ = 2 := by
    rw [Int.floor_eq_iff]
    norm_num
  unfold Fmod
  norm_num [hf]

/-- C26: the time-of-day update wraps at most once.  With a day of `1` second
and the hour at `12`, a tick of `2` seconds adds `48` hours; the update
subtracts `24` a single time and leaves the hour at `36`, outside `[0, 24)`,
where reduction modulo `24` gives `12`.  `SetTimeOfDay`, given the same sum
`60`, does reduce it to `12`. -/
theorem UpdateTimeOfDay_wraps_once :
    (0 ≤ FastDay.TimeOfDaySettings.CurrentHour ∧ FastDay.TimeOfDaySettings.CurrentHour < 24) ∧
    0 < FastDay.DayDuration ∧
    (FastDay.UpdateTimeOfDay 2).TimeOfDaySettings.CurrentHour = 36 ∧
    ¬ ((FastDay.UpdateTimeOfDay 2).TimeOfDaySettings.CurrentHour < 24) ∧
    (FastDay.SetTimeOfDay (FastDay.TimeOfDaySettings.CurrentHour +
      24 / FastDay.DayDuration * 2)).TimeOfDaySettings.CurrentHour = 12 := by
  have h36 : (FastDay.UpdateTimeOfDay 2).TimeOfDaySettings.CurrentHour = 36 := by
    rw [UpdateTimeOfDay_hour]
    norm_num [FastDay]
  refine ⟨by norm_num [FastDay], by norm_num [FastDay], h36, by rw [h36]; norm_num, ?_⟩
  have hsum : FastDay.TimeOfDaySettings.CurrentHour + 24 / FastDay.DayDuration * 2 = 60 := by
    norm_num [FastDay]
  rw [hsum]
  exact Fmod_sixty

/-! ## Creature lifecycle: health, hunger and the tick -/

theorem UpdateLifeStats_Energy (c : ACreature) (DeltaTime : ℚ) :
    (c.UpdateLifeStats DeltaTime).Energy = max 0 (c.Energy - c.EnergyDecayRate * DeltaTime) := by
  unfold ACreature.UpdateLifeStats
  dsimp only
  split_ifs <;> rfl

theorem UpdateLifeStats_Hunger (c : ACreature) (DeltaTime : ℚ) :
    (c.UpdateLifeStats DeltaTime).Hunger =
      min 100 (c.Hunger + c.HungerGrowthRate * DeltaTime / c.Genes.HungerResistance) := by
  unfold ACreature.UpdateLifeStats
  dsimp only
  split_ifs <;> rfl

theorem UpdateLifeStats_ReproductionCooldown (c : ACreature) (DeltaTime : ℚ) :
    (c.UpdateLifeStats DeltaTime).ReproductionCooldown =
      if c.ReproductionCooldown > 0 then c.ReproductionCooldown - DeltaTime
      else c.ReproductionCooldown := by
  unfold ACreature.UpdateLifeStats
  dsimp only
  split_ifs <;> rfl

theorem UpdateLifeStats_Health (c : ACreature) (DeltaTime : ℚ) :
    (c.UpdateLifeStats DeltaTime).Health =
      if (c.UpdateLifeStats DeltaTime).Energy ≤ 0 ∨ (c.UpdateLifeStats DeltaTime).Hunger ≥ 90 then
        c.Health - 10 * DeltaTime
      else if (c.UpdateLifeStats DeltaTime).Energy > 70 ∧
          (c.UpdateLifeStats DeltaTime).Hunger < 30 then
        min 100 (c.Health + 5 * DeltaTime)
      else c.Health := by
  rw [UpdateLifeStats_Energy, UpdateLifeStats_Hunger]
  unfold ACreature.UpdateLifeStats
  dsimp only
  split_ifs <;> rfl

theorem UpdateWeatherEffects_Hunger (c : ACreature) (DeltaTime : ℚ) (w : WeatherReadings)
    (bPerception : Bool) :
    (c.UpdateWeatherEffects DeltaTime (some w) bPerception).Hunger = c.Hunger := by
  unfold ACreature.UpdateWeatherEffects
  dsimp only
  split_ifs <;> rfl

theorem UpdateWeatherEffects_Energy (c : ACreature) (DeltaTime : ℚ) (w : WeatherReadings)
    (bPerception : Bool) :
    (c.UpdateWeatherEffects DeltaTime (some w) bPerception).Energy =
      if bPerception = true ∧ w.VisibilityModifier < 1 / 2 then
        max 0 (c.Energy - |w.TemperatureEffect - 1 / 2| * 2 * (1 / 2) * DeltaTime) -
          1 / 5 * DeltaTime
      else max 0 (c.Energy - |w.TemperatureEffect - 1 / 2| * 2 * (1 / 2) * DeltaTime) := by
  unfold ACreature.UpdateWeatherEffects
  dsimp only
  cases bPerception <;> by_cases hv : w.VisibilityModifier < 1 / 2 <;>
    simp only [hv, if_true, if_false, Bool.false_eq_true, true_and, and_true, false_and,
      and_false] <;>
    split_ifs <;> rfl

theorem UpdateWeatherEffects_Health (c : ACreature) (DeltaTime : ℚ) (w : WeatherReadings)
    (bPerception : Bool) :
    (c.UpdateWeatherEffects DeltaTime (some w) bPerception).Health =
      if (w.TemperatureEffect > 3 / 10 ∧ w.TemperatureEffect < 4 / 5) ∧
          (c.UpdateWeatherEffects DeltaTime (some w) bPerception).Energy > 70 ∧
          c.Hunger < 30 then
        min 100 (c.Health + 6 * DeltaTime)
      else c.Health := by
  rw [UpdateWeatherEffects_Energy]
  unfold ACreature.UpdateWeatherEffects
  dsimp only
  cases bPerception <;> by_cases hv : w.VisibilityModifier < 1 / 2 <;>
    simp only [hv, if_true, if_false, Bool.false_eq_true, true_and, and_true, false_and,
      and_false] <;>
    by_cases hb : (w.TemperatureEffect > 3 / 10 ∧ w.TemperatureEffect < 4 / 5) <;>
    simp only [hb, if_true, if_false, true_and, false_and] <;>
    (try (split_ifs <;> rfl))

theorem UpdateWeatherEffects_Energy_le (c : ACreature) (DeltaTime : ℚ) (w : WeatherReadings)
    (bPerception : Bool) (hdt : 0 ≤ DeltaTime) (hE : 0 ≤ c.Energy) :
    (c.UpdateWeatherEffects DeltaTime (some w) bPerception).Energy ≤ c.Energy := by
  have hs : 0 ≤ |w.TemperatureEffect - 1 / 2| * 2 * (1 / 2) * DeltaTime :=
    mul_nonneg (mul_nonneg (mul_nonneg (abs_nonneg _) (by norm_num)) (by norm_num)) hdt
  have hm : max 0 (c.Energy - |w.TemperatureEffect - 1 / 2| * 2 * (1 / 2) * DeltaTime) ≤
      c.Energy := max_le hE (by linarith)
  rw [UpdateWeatherEffects_Energy]
  split_ifs
  · linarith
  · exact hm

theorem Creature_Tick_stats (c : ACreature) (DeltaTime : ℚ) (Weather : Option WeatherReadings)
    (bPerception : Bool) :
    (c.Tick DeltaTime Weather bPerception).1.Health =
      ((c.UpdateLifeStats DeltaTime).UpdateWeatherEffects DeltaTime Weather bPerception).Health ∧
    (c.Tick DeltaTime Weather bPerception).1.Energy =
      ((c.UpdateLifeStats DeltaTime).UpdateWeatherEffects DeltaTime Weather bPerception).Energy ∧
    (c.Tick DeltaTime Weather bPerception).1.Hunger =
      ((c.UpdateLifeStats DeltaTime).UpdateWeatherEffects DeltaTime Weather bPerception).Hunger ∧
    (c.Tick DeltaTime Weather bPerception).1.ReproductionCooldown =
      ((c.UpdateLifeStats DeltaTime).UpdateWeatherEffects DeltaTime Weather
        bPerception).ReproductionCooldown := by
  unfold ACreature.Tick
  dsimp only
  split_ifs <;> exact ⟨rfl, rfl, rfl, rfl⟩

/-- C27, as stated, fails: a creature with the default genome, energy `100`,
hunger `0` and health `50` ticks for `0.1` seconds at the comfortable
temperature `0.5`.  Energy is `99.8` and hunger `0.2` after the tick's decay
and growth, and health ends at `51.1`: the `5 * 0.1` of the life-stat update
and the `6 * 0.1` of the weather update are both added, where the claim has
`50.6`. -/
theorem Tick_comfortable_heals_both :
    (MildWeather.TemperatureEffect > 3 / 10 ∧ MildWeather.TemperatureEffect < 4 / 5) ∧
    (RestedCreature.UpdateLifeStats (1 / 10)).Energy = 499 / 5 ∧
    (RestedCreature.UpdateLifeStats (1 / 10)).Hunger = 1 / 5 ∧
    RestedCreature.Health + 6 * (1 / 10) = 253 / 5 ∧
    (RestedCreature.Tick (1 / 10) (some MildWeather) true).1.Health = 511 / 10 := by
  refine ⟨by norm_num [MildWeather], ?_, ?_, by norm_num [RestedCreature], ?_⟩ <;>
    norm_num [ACreature.Tick, ACreature.UpdateLifeStats, ACreature.UpdateWeatherEffects,
      ACreature.Die, ACreature.SetCreatureState, RestedCreature, MildWeather, NewCreature,
      ACreature.InitializeWithGenes, ACreature.ApplyGeneticTraits]

/-- C27 (amended): over one creature tick of length `dt ≥ 0` with a weather
system present, with energy and hunger taken after the tick's own energy decay
and hunger growth: health decreases by `10 dt` if energy is at most `0` or
hunger at least `90`; otherwise, if energy is above `70` and hunger below `30`,
it increases by `5 dt`, capped at `100`, and, when the weather temperature is
strictly inside `(0.3, 0.8)` and energy is still above `70` after the energy
cost of the weather, by a further `6 dt`, capped at `100` again; otherwise it is
unchanged. -/
theorem Tick_health_change (c : ACreature) (DeltaTime : ℚ) (w : WeatherReadings)
    (bPerception : Bool) (hdt : 0 ≤ DeltaTime) :
    ((c.UpdateLifeStats DeltaTime).Energy ≤ 0 ∨ (c.UpdateLifeStats DeltaTime).Hunger ≥ 90 →
      (c.Tick DeltaTime (some w) bPerception).1.Health = c.Health - 10 * DeltaTime) ∧
    ((c.UpdateLifeStats DeltaTime).Energy > 70 ∧ (c.UpdateLifeStats DeltaTime).Hunger < 30 →
      (c.Tick DeltaTime (some w) bPerception).1.Health =
        if (w.TemperatureEffect > 3 / 10 ∧ w.TemperatureEffect < 4 / 5) ∧
            (c.Tick DeltaTime (some w) bPerception).1.Energy > 70 then
          min 100 (min 100 (c.Health + 5 * DeltaTime) + 6 * DeltaTime)
        else min 100 (c.Health + 5 * DeltaTime)) ∧
    (¬ ((c.UpdateLifeStats DeltaTime).Energy ≤ 0 ∨ (c.UpdateLifeStats DeltaTime).Hunger ≥ 90) →
      ¬ ((c.UpdateLifeStats DeltaTime).Energy > 70 ∧ (c.UpdateLifeStats DeltaTime).Hunger < 30) →
      (c.Tick DeltaTime (some w) bPerception).1.Health = c.Health) := by
  obtain ⟨tH, tE, _, _⟩ := Creature_Tick_stats c DeltaTime (some w) bPerception
  have hE0 : 0 ≤ (c.UpdateLifeStats DeltaTime).Energy := by
    rw [UpdateLifeStats_Energy]
    exact le_max_left _ _
  have hle := UpdateWeatherEffects_Energy_le (c.UpdateLifeStats DeltaTime) DeltaTime w
    bPerception hdt hE0
  rw [tH, tE, UpdateWeatherEffects_Health]
  refine ⟨?_, ?_, ?_⟩
  · intro h
    have hno : ¬ ((w.TemperatureEffect > 3 / 10 ∧ w.TemperatureEffect < 4 / 5) ∧
        ((c.UpdateLifeStats DeltaTime).UpdateWeatherEffects DeltaTime (some w)
          bPerception).Energy > 70 ∧ (c.UpdateLifeStats DeltaTime).Hunger < 30) := by
      rintro ⟨_, h2, h3⟩
      rcases h with h | h
      · linarith
      · linarith
    rw [if_neg hno, UpdateLifeStats_Health, if_pos h]
  · intro h
    have hnot : ¬ ((c.UpdateLifeStats DeltaTime).Energy ≤ 0 ∨
        (c.UpdateLifeStats DeltaTime).Hunger ≥ 90) := by
      rintro (h1 | h1)
      · linarith [h.1]
      · linarith [h.2]
    have hL : (c.UpdateLifeStats DeltaTime).Health = min 100 (c.Health + 5 * DeltaTime) := by
      rw [UpdateLifeStats_Health, if_neg hnot, if_pos h]
    rw [hL]
    by_cases hb : (w.TemperatureEffect > 3 / 10 ∧ w.TemperatureEffect < 4 / 5) ∧
        ((c.UpdateLifeStats DeltaTime).UpdateWeatherEffects DeltaTime (some w)
          bPerception).Energy > 70
    · rw [if_pos hb, if_pos ⟨hb.1, hb.2, h.2⟩]
    · rw [if_neg hb, if_neg (fun hc => hb ⟨hc.1, hc.2.1⟩)]
  · intro h1 h2
    have hno : ¬ ((w.TemperatureEffect > 3 / 10 ∧ w.TemperatureEffect < 4 / 5) ∧
        ((c.UpdateLifeStats DeltaTime).UpdateWeatherEffects DeltaTime (some w)
          bPerception).Energy > 70 ∧ (c.UpdateLifeStats DeltaTime).Hunger < 30) := by
      rintro ⟨_, h3, h4⟩
      exact h2 ⟨lt_of_lt_of_le h3 hle, h4⟩
    rw [if_neg hno, UpdateLifeStats_Health, if_neg h1, if_neg h2]

/-- Witness of `Tick_health_change`: the rested creature of health `50`, at the
comfortable temperature `0.5`, is at health `51.1` after a tick of `0.1`
seconds. -/
theorem Tick_health_change_witness :
    (0 : ℚ) ≤ 1 / 10 ∧
    (RestedCreature.Tick (1 / 10) (some MildWeather) true).1.Health =
      min 100 (min 100 (RestedCreature.Health + 5 * (1 / 10)) + 6 * (1 / 10)) := by
  refine ⟨by norm_num, ?_⟩
  rw [(Tick_health_change RestedCreature (1 / 10) MildWeather true (by norm_num)).2.1
    (by
      constructor <;>
        norm_num [ACreature.UpdateLifeStats, RestedCreature, NewCreature,
          ACreature.InitializeWithGenes, ACreature.ApplyGeneticTraits])]
  rw [if_pos]
  constructor
  · norm_num [MildWeather]
  · norm_num [ACreature.Tick, ACreature.UpdateLifeStats, ACreature.UpdateWeatherEffects,
      ACreature.Die, ACreature.SetCreatureState, RestedCreature, MildWeather, NewCreature,
      ACreature.InitializeWithGenes, ACreature.ApplyGeneticTraits]

theorem UpdateLifeStats_hunger_of_initialised (c : ACreature) (g : FCreatureGenes)
    (DeltaTime : ℚ) :
    ((c.InitializeWithGenes g).UpdateLifeStats DeltaTime).Hunger =
      min 100 (c.Hunger + DeltaTime * (2 / g.HungerResistance) / g.HungerResistance) := by
  rw [UpdateLifeStats_Hunger]
  simp only [ACreature.InitializeWithGenes, ACreature.ApplyGeneticTraits]
  congr 2
  ring

/-- C28: the hunger growth of a tick divides by the hunger resistance twice.  A
creature initialised with hunger resistance `2` has the cached growth rate
`2 / 2 = 1`; a tick of `1` second from hunger `0` leaves hunger at `0.5`,
because `UpdateLifeStats` divides the cached rate by the hunger resistance
again, where `min(100, 0 + 1 * (2 / 2))` is `1`.  In general the hunger after a
tick is `min(100, hunger + dt * (2 / hungerResistance) / hungerResistance)`. -/
theorem Tick_hunger_divides_twice :
    HardyCreature.Genes.HungerResistance = 2 ∧
    HardyCreature.HungerGrowthRate = 1 ∧
    HardyCreature.Hunger = 0 ∧
    (HardyCreature.Tick 1 none false).1.Hunger = 1 / 2 ∧
    min 100 (HardyCreature.Hunger + 1 * (2 / HardyCreature.Genes.HungerResistance)) = (1 : ℚ) ∧
    ∀ (c : ACreature) (g : FCreatureGenes) (DeltaTime : ℚ),
      ((c.InitializeWithGenes g).Tick DeltaTime none false).1.Hunger =
        min 100 (c.Hunger + DeltaTime * (2 / g.HungerResistance) / g.HungerResistance) := by
  have hgen : ∀ (c : ACreature) (g : FCreatureGenes) (DeltaTime : ℚ),
      ((c.InitializeWithGenes g).Tick DeltaTime none false).1.Hunger =
        min 100 (c.Hunger + DeltaTime * (2 / g.HungerResistance) / g.HungerResistance) := by
    intro c g DeltaTime
    rw [(Creature_Tick_stats _ DeltaTime none false).2.2.1]
    exact UpdateLifeStats_hunger_of_initialised c g DeltaTime
  refine ⟨rfl, ?_, rfl, ?_, ?_, hgen⟩
  · norm_num [HardyCreature, HardyGenes, NewCreature, ACreature.InitializeWithGenes,
      ACreature.ApplyGeneticTraits]
  · rw [show HardyCreature = (NewCreature 0).InitializeWithGenes HardyGenes from rfl, hgen]
    norm_num [HardyGenes, NewCreature]
  · norm_num [HardyCreature, HardyGenes, NewCreature, ACreature.InitializeWithGenes,
      ACreature.ApplyGeneticTraits]

/-! ## Creature lifecycle: after death -/

theorem Creature_Tick_dies (c : ACreature) (DeltaTime : ℚ) (Weather : Option WeatherReadings)
    (bPerception : Bool)
    (h : ((c.UpdateLifeStats DeltaTime).UpdateWeatherEffects DeltaTime Weather
          bPerception).Health ≤ 0 ∨
        ((c.UpdateLifeStats DeltaTime).UpdateWeatherEffects DeltaTime Weather
          bPerception).Age ≥
        ((c.UpdateLifeStats DeltaTime).UpdateWeatherEffects DeltaTime Weather
          bPerception).Genes.LifeSpan) :
    c.Tick DeltaTime Weather bPerception =
      ((c.UpdateLifeStats DeltaTime).UpdateWeatherEffects DeltaTime Weather bPerception).Die := by
  unfold ACreature.Tick
  dsimp only
  rw [if_pos h]

theorem StarvingCreature_first_tick :
    StarvingCreature.Tick (1 / 10) none false =
      ({ StarvingCreature with
          Age := 1 / 3, Hunger := 1 / 5, Health := -1 / 2, CurrentState := ECreatureState.Dying },
        [CreatureEvent.Death 0 (415 / 9)]) := by
  rw [Creature_Tick_dies _ _ _ _ (by
    left
    norm_num [ACreature.UpdateLifeStats, ACreature.UpdateWeatherEffects, StarvingCreature,
      NewCreature, ACreature.InitializeWithGenes, ACreature.ApplyGeneticTraits])]
  norm_num [ACreature.UpdateLifeStats, ACreature.UpdateWeatherEffects, StarvingCreature,
    NewCreature, ACreature.InitializeWithGenes, ACreature.ApplyGeneticTraits, ACreature.Die,
    ACreature.SetCreatureState, ACreature.CalculateFitnessScore, CalculateFitness_eq]

theorem StarvingCreature_second_tick :
    (StarvingCreature.Tick (1 / 10) none false).1.Tick (1 / 10) none false =
      ({ StarvingCreature with
          Age := 2 / 3, Hunger := 2 / 5, Health := -3 / 2, CurrentState := ECreatureState.Dying },
        [CreatureEvent.Death 0 (425 / 9)]) := by
  rw [StarvingCreature_first_tick]
  rw [Creature_Tick_dies _ _ _ _ (by
    left
    norm_num [ACreature.UpdateLifeStats, ACreature.UpdateWeatherEffects, StarvingCreature,
      NewCreature, ACreature.InitializeWithGenes, ACreature.ApplyGeneticTraits])]
  norm_num [ACreature.UpdateLifeStats, ACreature.UpdateWeatherEffects, StarvingCreature,
    NewCreature, ACreature.InitializeWithGenes, ACreature.ApplyGeneticTraits, ACreature.Die,
    ACreature.SetCreatureState, ACreature.CalculateFitnessScore, CalculateFitness_eq]

theorem WoundedCreature_first_hit :
    WoundedCreature.TakeDamage 10 (some AttackerCreature) =
      { Self := { WoundedCreature with Health := 0, CurrentState := ECreatureState.Dying }
        Attacker := some { AttackerCreature with CombatWins := 1 }
        Events := [CreatureEvent.Death 0 45] } := by
  norm_num [ACreature.TakeDamage, WoundedCreature, AttackerCreature, NewCreature,
    ACreature.InitializeWithGenes, ACreature.ApplyGeneticTraits, ACreature.Die,
    ACreature.SetCreatureState, ACreature.CalculateFitnessScore, CalculateFitness_eq]

theorem WoundedCreature_second_hit :
    (WoundedCreature.TakeDamage 10 (some AttackerCreature)).Self.TakeDamage 10
        (WoundedCreature.TakeDamage 10 (some AttackerCreature)).Attacker =
      { Self := { WoundedCreature with Health := 0, CurrentState := ECreatureState.Dying }
        Attacker := some { AttackerCreature with CombatWins := 2 }
        Events := [CreatureEvent.Death 0 45] } := by
  rw [WoundedCreature_first_hit]
  norm_num [ACreature.TakeDamage, WoundedCreature, AttackerCreature, NewCreature,
    ACreature.InitializeWithGenes, ACreature.ApplyGeneticTraits, ACreature.Die,
    ACreature.SetCreatureState, ACreature.CalculateFitnessScore, CalculateFitness_eq]

theorem Receive_death (m : AEcosystemManager) (Sender : ACreature) (Id : Nat) (F : ℚ) :
    (m.Receive Sender [CreatureEvent.Death Id F]).CreatureHistory =
        m.CreatureHistory ++
          [{ Genes := Sender.Genes, FitnessScore := F, LifeTime := Sender.Age,
             Generation := m.CurrentStats.Generation,
             OffspringCount := Sender.OffspringCount }] ∧
      (m.Receive Sender [CreatureEvent.Death Id F]).CurrentStats = m.CurrentStats := by
  constructor <;> rfl

/-- C29: a creature whose death handling has run is not inert.  (a) A creature
with no energy and health `0.5` dies in a tick of `0.1` seconds (one death
event, state `Dying`); the next tick of `0.1` seconds, well inside the grace
delay of `2` seconds, finds its health still at most `0` and emits a second
death event, and the manager, which entered it in the ledger at the first
event, enters it again at the second.  (b) A creature of health `5` is killed
by a hit of `10` (one death event, one combat win for the attacker); a second
hit on the dead creature emits another death event and credits the attacker a
second win. -/
theorem Dying_creature_dies_again :
    ((StarvingCreature.Tick (1 / 10) none false).1.CurrentState = ECreatureState.Dying ∧
      (StarvingCreature.Tick (1 / 10) none false).2 = [CreatureEvent.Death 0 (415 / 9)] ∧
      ((StarvingCreature.Tick (1 / 10) none false).1.Tick (1 / 10) none false).2 =
        [CreatureEvent.Death 0 (425 / 9)] ∧
      (StarvingManager.Receive (StarvingCreature.Tick (1 / 10) none false).1
        (StarvingCreature.Tick (1 / 10) none false).2).CreatureHistory.length = 1 ∧
      ((StarvingManager.Receive (StarvingCreature.Tick (1 / 10) none false).1
          (StarvingCreature.Tick (1 / 10) none false).2).Receive
        ((StarvingCreature.Tick (1 / 10) none false).1.Tick (1 / 10) none false).1
        ((StarvingCreature.Tick (1 / 10) none false).1.Tick (1 / 10) none
          false).2).CreatureHistory.length = 2) ∧
    ((WoundedCreature.TakeDamage 10 (some AttackerCreature)).Self.CurrentState =
        ECreatureState.Dying ∧
      (WoundedCreature.TakeDamage 10 (some AttackerCreature)).Events =
        [CreatureEvent.Death 0 45] ∧
      (WoundedCreature.TakeDamage 10 (some AttackerCreature)).Attacker =
        some { AttackerCreature with CombatWins := 1 } ∧
      ((WoundedCreature.TakeDamage 10 (some AttackerCreature)).Self.TakeDamage 10
        (WoundedCreature.TakeDamage 10 (some AttackerCreature)).Attacker).Events =
        [CreatureEvent.Death 0 45] ∧
      ((WoundedCreature.TakeDamage 10 (some AttackerCreature)).Self.TakeDamage 10
        (WoundedCreature.TakeDamage 10 (some AttackerCreature)).Attacker).Attacker =
        some { AttackerCreature with CombatWins := 2 }) := by
  refine ⟨⟨?_, ?_, ?_, ?_, ?_⟩, ?_, ?_, ?_, ?_, ?_⟩
  · rw [StarvingCreature_first_tick]
  · rw [StarvingCreature_first_tick]
  · rw [StarvingCreature_second_tick]
  · rw [StarvingCreature_first_tick, (Receive_death _ _ _ _).1]
    rfl
  · rw [StarvingCreature_second_tick, (Receive_death _ _ _ _).1, StarvingCreature_first_tick,
      (Receive_death _ _ _ _).1]
    rfl
  · rw [WoundedCreature_first_hit]
  · rw [WoundedCreature_first_hit]
  · rw [WoundedCreature_first_hit]
  · rw [WoundedCreature_second_hit]
  · rw [WoundedCreature_second_hit]

/-! ## Creature lifecycle: the reproduction cooldown -/

theorem CanReproduce_false_of_cooldown (c : ACreature) (h : 0 < c.ReproductionCooldown) :
    c.CanReproduce = false := by
  unfold ACreature.CanReproduce
  have hd : decide (c.ReproductionCooldown ≤ 0) = false := decide_eq_false (not_le.mpr h)
  rw [hd]
  simp

theorem AttemptReproduction_of_not_ready (c Mate : ACreature) (cd : CrossoverDraws)
    (md : MutateDraws) (h : c.CanReproduce = false ∨ Mate.CanReproduce = false) :
    c.AttemptReproduction (some Mate) cd md =
      { Self := c, Mate := some Mate, Events := [], ReturnValue := false } := by
  unfold ACreature.AttemptReproduction
  rcases h with h | h <;> simp [h]

theorem UpdateWeatherEffects_ReproductionCooldown (c : ACreature) (DeltaTime : ℚ)
    (Weather : Option WeatherReadings) (bPerception : Bool) :
    (c.UpdateWeatherEffects DeltaTime Weather bPerception).ReproductionCooldown =
      c.ReproductionCooldown := by
  unfold ACreature.UpdateWeatherEffects
  cases Weather with
  | none => rfl
  | some w =>
    dsimp only
    split_ifs <;> rfl

theorem Creature_Tick_cooldown (c : ACreature) (DeltaTime : ℚ)
    (Weather : Option WeatherReadings) (bPerception : Bool) :
    (c.Tick DeltaTime Weather bPerception).1.ReproductionCooldown =
      if c.ReproductionCooldown > 0 then c.ReproductionCooldown - DeltaTime
      else c.ReproductionCooldown := by
  rw [(Creature_Tick_stats c DeltaTime Weather bPerception).2.2.2,
    UpdateWeatherEffects_ReproductionCooldown, UpdateLifeStats_ReproductionCooldown]

theorem Creature_RunTicks_cooldown (Ticks : List CreatureTick) (c : ACreature)
    (hdt : ∀ t ∈ Ticks, 0 ≤ t.DeltaTime)
    (hlt : CreatureTick.Elapsed Ticks < c.ReproductionCooldown) :
    (c.RunTicks Ticks).ReproductionCooldown =
      c.ReproductionCooldown - CreatureTick.Elapsed Ticks := by
  induction Ticks generalizing c with
  | nil => simp [ACreature.RunTicks, CreatureTick.Elapsed]
  | cons t Rest ih =>
    have hsum : CreatureTick.Elapsed (t :: Rest) = t.DeltaTime + CreatureTick.Elapsed Rest := by
      simp [CreatureTick.Elapsed]
    have hrest : 0 ≤ CreatureTick.Elapsed Rest := by
      unfold CreatureTick.Elapsed
      apply List.sum_nonneg
      intro x hx
      rw [List.mem_map] at hx
      obtain ⟨u, hu, rfl⟩ := hx
      exact hdt u (List.mem_cons_of_mem _ hu)
    have ht : 0 ≤ t.DeltaTime := hdt t (List.mem_cons_self _ _)
    rw [hsum] at hlt
    have hpos : c.ReproductionCooldown > 0 := by linarith
    have hstep : (c.Tick t.DeltaTime t.Weather t.bPerception).1.ReproductionCooldown =
        c.ReproductionCooldown - t.DeltaTime := by
      rw [Creature_Tick_cooldown, if_pos hpos]
    have hrun : c.RunTicks (t :: Rest) =
        (c.Tick t.DeltaTime t.Weather t.bPerception).1.RunTicks Rest := rfl
    rw [hrun, ih _ (fun u hu => hdt u (List.mem_cons_of_mem _ hu)) (by rw [hstep]; linarith),
      hstep, hsum]
    ring

theorem cooldown_of_inBounds (g : FCreatureGenes) (hg : g.InBounds) :
    20 ≤ 20 / g.ReproductionRate := by
  have hpos : 0 < g.ReproductionRate := by linarith [hg.ReproductionRate.1]
  rw [le_div_iff₀ hpos]
  linarith [hg.ReproductionRate.2]

/-- C30: for two creatures (two values stand for two distinct actors) with
in-bounds genomes that are both eligible, `AttemptReproduction` succeeds and
leaves both parents with a cooldown of at least `20`, so `CanReproduce` is
false for both; a second `AttemptReproduction` between them, in either
direction and whatever the draws, returns false with no broadcast and changes
neither; and after any ticks of non-negative length whose lengths add up to
less than `20`, neither parent is eligible. -/
theorem AttemptReproduction_cooldown_blocks (c Mate : ACreature) (cd cd2 : CrossoverDraws)
    (md md2 : MutateDraws) (hg : c.Genes.InBounds) (hgm : Mate.Genes.InBounds)
    (hc : c.CanReproduce = true) (hm : Mate.CanReproduce = true) :
    (c.AttemptReproduction (some Mate) cd md).ReturnValue = true ∧
    ∃ Parent2, (c.AttemptReproduction (some Mate) cd md).Mate = some Parent2 ∧
      20 ≤ (c.AttemptReproduction (some Mate) cd md).Self.ReproductionCooldown ∧
      20 ≤ Parent2.ReproductionCooldown ∧
      (c.AttemptReproduction (some Mate) cd md).Self.CanReproduce = false ∧
      Parent2.CanReproduce = false ∧
      (c.AttemptReproduction (some Mate) cd md).Self.AttemptReproduction (some Parent2) cd2 md2 =
        { Self := (c.AttemptReproduction (some Mate) cd md).Self, Mate := some Parent2,
          Events := [], ReturnValue := false } ∧
      Parent2.AttemptReproduction (some (c.AttemptReproduction (some Mate) cd md).Self) cd2 md2 =
        { Self := Parent2, Mate := some (c.AttemptReproduction (some Mate) cd md).Self,
          Events := [], ReturnValue := false } ∧
      ∀ Ticks : List CreatureTick, (∀ t ∈ Ticks, 0 ≤ t.DeltaTime) →
        CreatureTick.Elapsed Ticks < 20 →
        ((c.AttemptReproduction (some Mate) cd md).Self.RunTicks Ticks).CanReproduce = false ∧
        (Parent2.RunTicks Ticks).CanReproduce = false := by
  have hr : c.AttemptReproduction (some Mate) cd md =
      { Self := { c with
          Energy := c.Energy - 30
          ReproductionCooldown := 20 / c.Genes.ReproductionRate
          OffspringCount := c.OffspringCount + 1 }
        Mate := some { Mate with
          Energy := Mate.Energy - 30
          ReproductionCooldown := 20 / Mate.Genes.ReproductionRate
          OffspringCount := Mate.OffspringCount + 1 }
        Events := [CreatureEvent.Reproduction c.Id Mate.Id
          ((FCreatureGenes.Crossover c.Genes Mate.Genes cd).Mutate (1 / 10) (1 / 5) md)]
        ReturnValue := true } := by
    simp [ACreature.AttemptReproduction, hc, hm]
  rw [hr]
  have h1 := cooldown_of_inBounds c.Genes hg
  have h2 := cooldown_of_inBounds Mate.Genes hgm
  refine ⟨rfl, _, rfl, h1, h2, ?_, ?_, ?_, ?_, ?_⟩
  · exact CanReproduce_false_of_cooldown _ (lt_of_lt_of_le (by norm_num) h1)
  · exact CanReproduce_false_of_cooldown _ (lt_of_lt_of_le (by norm_num) h2)
  · exact AttemptReproduction_of_not_ready _ _ cd2 md2
      (Or.inl (CanReproduce_false_of_cooldown _ (lt_of_lt_of_le (by norm_num) h1)))
  · exact AttemptReproduction_of_not_ready _ _ cd2 md2
      (Or.inl (CanReproduce_false_of_cooldown _ (lt_of_lt_of_le (by norm_num) h2)))
  · intro Ticks hdt hlt
    constructor
    · apply CanReproduce_false_of_cooldown
      rw [Creature_RunTicks_cooldown Ticks _ hdt (lt_of_lt_of_le hlt h1)]
      exact sub_pos.mpr (lt_of_lt_of_le hlt h1)
    · apply CanReproduce_false_of_cooldown
      rw [Creature_RunTicks_cooldown Ticks _ hdt (lt_of_lt_of_le hlt h2)]
      exact sub_pos.mpr (lt_of_lt_of_le hlt h2)

/-- Witness of `AttemptReproduction_cooldown_blocks`: the two mature creatures
with the default genome (reproduction rate `0.1`) mate, and their cooldowns are
`200` afterwards. -/
theorem AttemptReproduction_cooldown_blocks_witness :
    (MatureCreature.AttemptReproduction (some MatureMate) HalfCrossoverDraws
      HalfMutateDraws).ReturnValue = true ∧
    (MatureCreature.AttemptReproduction (some MatureMate) HalfCrossoverDraws
      HalfMutateDraws).Self.CanReproduce = false ∧
    ((MatureCreature.AttemptReproduction (some MatureMate) HalfCrossoverDraws
      HalfMutateDraws).Self.RunTicks [⟨19, none, false⟩]).CanReproduce = false := by
  obtain ⟨h1, _, _, _, _, h5, _, _, _, h9⟩ :=
    AttemptReproduction_cooldown_blocks MatureCreature MatureMate HalfCrossoverDraws
      HalfCrossoverDraws HalfMutateDraws HalfMutateDraws default_genes_inBounds
      default_genes_inBounds MatureCreature_CanReproduce MatureMate_CanReproduce
  refine ⟨h1, h5, (h9 [⟨19, none, false⟩] ?_ ?_).1⟩
  · intro t ht
    rw [List.mem_singleton] at ht
    rw [ht]
    norm_num
  · norm_num [CreatureTick.Elapsed]

end EcosystemSandbox
